import Mathlib

/-!
# Session state machine of the speech-recognition front end (`src/asr/ai_asr.c`)

A shallow embedding of the engine-loop handlers of `ai_asr.c`.

* The session context `asr_context_t` keeps the fields the handlers read or
  write.  Pointers are `Option Nat` (`none` is `NULL`), C strings are the list
  of their bytes before the terminating NUL.
* Every call that leaves the file (media framework, plugin table, host queue,
  listener) is recorded, in program order, in a list of `Effect`s.
* Every value that comes back from outside (return codes, the monotonic clock,
  the plugin environment) is read from an `Env` record, one record per handler
  invocation.  A handler reads the clock at most once (the two reads in
  `ai_asr_voice_callback` sit on exclusive branches).  Where a handler makes
  the same outside call twice it reads the same status twice; the C code
  discards every such second status.
* Time stamps and the silence timeout are unbounded integers: the C code uses
  `int64_t` microseconds and an `int` number of milliseconds that
  `ai_asr_map_params` keeps within 300..15000, so no operation of the gate
  leaves the machine range.
-/

namespace AiAsr

/-- A C string: the bytes before the terminating NUL. -/
abbrev CStr := List Nat

/-- Session states, the enumerators of `asr_state_t` used by `ai_asr.c`. -/
inductive asr_state_t where
  | ASR_STATE_INIT
  | ASR_STATE_START
  | ASR_STATE_FINISH
  | ASR_STATE_CANCEL
  | ASR_STATE_CLOSE
  deriving DecidableEq, Repr

/-- Modelled from the spec: the closed set of event kinds a backend emits and a
listener receives (`voice_event_t`, numerically identical to `asr_event_t`).
The header `ai_voice_plugin.h` is not part of the sources; `ai_asr.c` itself
names `voice_event_start`, `voice_event_complete`, `voice_event_error` and
`voice_event_closed`.  `voice_event_interim` is the in-progress transcript,
`voice_event_result` the final transcript. -/
inductive voice_event_t where
  | voice_event_start
  | voice_event_interim
  | voice_event_result
  | voice_event_audio
  | voice_event_complete
  | voice_event_error
  | voice_event_stop
  | voice_event_closed
  deriving DecidableEq, Repr

/-- Modelled from the spec: the error kinds surfaced to the listener
(`asr_error_t`); the header `ai_asr.h` is not part of the sources.
`asr_error_success` is the value `0`. -/
inductive asr_error_t where
  | asr_error_success
  | asr_error_failed
  | asr_error_media
  | asr_error_network
  deriving DecidableEq, Repr

/-- Modelled from the spec: the integer an `asr_error_t` enumerator denotes,
numbered in the order the spec lists the kinds.  `ai_asr.c` only ever tests
such a value against `0`. -/
def asr_error_t.toInt : asr_error_t → Int
  | .asr_error_success => 0
  | .asr_error_failed => 1
  | .asr_error_media => 2
  | .asr_error_network => 3

/-- The result a backend hands to `ai_asr_voice_callback` (`voice_result_t`). -/
structure voice_result_t where
  result : Option CStr
  duration : Int
  error_code : Int
  deriving DecidableEq, Repr

/-- The heap copy handed on to the listener (`asr_result_t`). -/
structure asr_result_t where
  result : Option CStr
  duration : Int
  error_code : asr_error_t
  deriving DecidableEq, Repr

/-- Payload of a callback message (`message_data_cb_t`, the `ctx` pointer left
implicit). -/
structure message_data_cb_t where
  event : voice_event_t
  result : Option asr_result_t
  deriving DecidableEq, Repr

/-- The fields of `asr_context_t` that the handlers use. `handle` is the
recorder handle, `loop` and `asyncq` are the engine loop and its queue,
`user_loop` tells whether a host loop is configured, `silence_timeout` is
`voice_param.silence_timeout`. -/
structure asr_context_t where
  engine : Option Nat
  handle : Option Nat
  focus_handle : Option Nat
  loop : Option Nat
  asyncq : Option Nat
  user_loop : Bool
  pipe : Option Nat
  format : Option CStr
  cb : Option Nat
  cookie : Nat
  state : asr_state_t
  is_send_finished : Bool
  is_closed : Bool
  silence_timeout : Int
  last_result : CStr
  last_result_time : Int
  deriving DecidableEq, Repr

/-- Values that come back from outside during one handler invocation. -/
structure Env where
  /-- Value of `ai_asr_gettime_relative()`: monotonic clock, microseconds. -/
  now : Int
  /-- return value of `media_uv_recorder_close` -/
  recorder_close_ret : Int
  /-- return value of `plugin->finish` -/
  plugin_finish_ret : Int
  /-- return value of `plugin->start` -/
  plugin_start_ret : Int
  /-- return value of `plugin->event_cb` -/
  plugin_event_cb_ret : Int
  /-- Value of `get_env()->format` -/
  env_format : Option CStr
  /-- Value of `get_env()->force_format` -/
  force_format : Bool
  /-- whether `realloc` in `ai_asr_create_format` succeeds -/
  realloc_ok : Bool
  /-- handle returned by `media_focus_request` -/
  focus_request : Option Nat
  /-- the initial suggestion written by `media_focus_request` -/
  init_suggestion : Int
  /-- handle returned by `media_uv_recorder_open` -/
  recorder_open : Option Nat
  /-- return value of `media_uv_recorder_listen` -/
  recorder_listen_ret : Int
  /-- return value of `media_uv_recorder_prepare` -/
  recorder_prepare_ret : Int
  /-- return value of `media_uv_recorder_start` -/
  recorder_start_ret : Int
  deriving DecidableEq, Repr

/-- Calls that leave `ai_asr.c`, in program order. -/
inductive Effect where
  /-- Call `media_uv_recorder_close(handle, media_recorder_close_cb)` -/
  | media_uv_recorder_close (handle : Option Nat)
  /-- Call `media_focus_abandon(focus_handle)` -/
  | media_focus_abandon (focus_handle : Nat)
  /-- Call `media_focus_request(..)` -/
  | media_focus_request
  /-- Call `media_uv_recorder_open(..)` -/
  | media_uv_recorder_open
  /-- Call `media_uv_recorder_listen(handle, ..)` -/
  | media_uv_recorder_listen (handle : Nat)
  /-- Call `media_uv_recorder_prepare(handle, NULL, format, ..)` -/
  | media_uv_recorder_prepare (handle : Nat) (format : Option CStr)
  /-- Call `media_uv_recorder_start(handle, ..)` -/
  | media_uv_recorder_start (handle : Option Nat)
  /-- Call `uv_read_start` on the pipe delivered by the media stack -/
  | uv_read_start (pipe : Nat)
  /-- Call `plugin->start(engine, NULL)` -/
  | plugin_start
  /-- Call `plugin->finish(engine)` -/
  | plugin_finish
  /-- Call `plugin->event_cb(engine, ai_asr_voice_callback, ctx)` -/
  | plugin_event_cb
  /-- Call `uv_async_queue_send(&ctx->user_asyncq, message)`: the callback message
  is deferred to the host loop -/
  | queue_send (msg : message_data_cb_t)
  /-- Call `ai_asr_callback_l(cb)` run inline by `ai_asr_send_callback` -/
  | callback_inline (msg : message_data_cb_t)
  /-- Call `ctx->cb(event, result, ctx->cookie)`: the listener is invoked -/
  | listener (event : voice_event_t) (result : Option asr_result_t)
  /-- Call `ai_asr_close_async(ctx)` -/
  | close_async
  /-- Call `ai_asr_destroy_engine(ctx)`.  The C code frees the context here;
  the embedding keeps it, so that what a later turn would read is visible. -/
  | destroy_engine
  /-- Call `uv_async_queue_init(param->loop, &ctx->user_asyncq, ai_asr_async_cb)` -/
  | uv_async_queue_init
  /-- Call `voice_plugin_init(plugin, &ctx->voice_param)` -/
  | voice_plugin_init
  /-- Call `voice_plugin_uninit(plugin, ctx->engine, sync)` -/
  | voice_plugin_uninit (sync : Int)
  deriving DecidableEq, Repr

open asr_state_t voice_event_t

/-- Constant `EINVAL` -/
def EINVAL : Int := 22
/-- Constant `ENOMEM` -/
def ENOMEM : Int := 12
/-- Constant `EPERM` -/
def EPERM : Int := 1

/-- Modelled from the spec: `MEDIA_FOCUS_PLAY`, the "play" suggestion of the
focus manager (`media_api.h` is not part of the sources).  Only equality with
it is ever tested. -/
def MEDIA_FOCUS_PLAY : Int := 0

/-- Size `sizeof(ctx->last_result)` -/
def LAST_RESULT_SIZE : Nat := 1024

/-- Function `strlcpy(dst, src, size)`: the string left in `dst`, at most `size - 1`
bytes of `src`. -/
def strlcpy (src : CStr) (size : Nat) : CStr := src.take (size - 1)

/-- Function `ai_asr_callback_l`: the host-side handler of a callback message.  Invokes
the listener when one is set; on `closed` schedules the release of the
session. -/
def ai_asr_callback_l (ctx : asr_context_t) (data : message_data_cb_t) : List Effect :=
  (if ctx.cb.isSome then [Effect.listener data.event data.result] else []) ++
  (if data.event = voice_event_closed then
    (if ctx.user_loop then [Effect.close_async] else [Effect.destroy_engine])
   else [])

/-- Function `ai_asr_send_callback`: build the callback message, then either defer it to
the host queue or run the handler inline. -/
def ai_asr_send_callback (ctx : asr_context_t) (event : voice_event_t)
    (result : Option asr_result_t) : List Effect :=
  if ctx.user_loop then [Effect.queue_send ⟨event, result⟩]
  else Effect.callback_inline ⟨event, result⟩ :: ai_asr_callback_l ctx ⟨event, result⟩

/-- Function `ai_asr_close_handler` (with `ctx` non-null): publish `closed`. -/
def ai_asr_close_handler (ctx : asr_context_t) : Int × asr_context_t × List Effect :=
  (0, ctx, ai_asr_send_callback ctx voice_event_closed none)

/-- Function `ai_asr_finish_handler` (with `ctx` non-null): close the recorder if a
handle is held, abandon focus if a lease is held, call the plugin's `finish`
if an engine exists.  Returns the status of the last call made. -/
def ai_asr_finish_handler (e : Env) (ctx : asr_context_t) :
    Int × asr_context_t × List Effect :=
  let fx1 := match ctx.handle with
    | some h => [Effect.media_uv_recorder_close (some h)]
    | none => []
  let ret1 : Int := if ctx.handle.isSome then e.recorder_close_ret else 0
  let fx2 := match ctx.focus_handle with
    | some f => [Effect.media_focus_abandon f]
    | none => []
  let fx3 := if ctx.engine.isSome then [Effect.plugin_finish] else []
  let ret : Int := if ctx.engine.isSome then e.plugin_finish_ret else ret1
  (ret, { ctx with handle := none, focus_handle := none }, fx1 ++ fx2 ++ fx3)

/-- Lines 450-456 of `ai_asr_voice_callback`: on `complete` or `error` run the
teardown and set the terminal-sent latch; then hand the event to
`ai_asr_send_callback`. -/
def voice_callback_publish (e : Env) (event : voice_event_t)
    (asr_result : Option asr_result_t) (ctx : asr_context_t) :
    asr_context_t × List Effect :=
  if event = voice_event_complete ∨ event = voice_event_error then
    let r := ai_asr_finish_handler e ctx
    let ctx1 := { r.2.1 with is_send_finished := true }
    (ctx1, r.2.2 ++ ai_asr_send_callback ctx1 event asr_result)
  else
    (ctx, ai_asr_send_callback ctx event asr_result)

/-- Function `ai_asr_voice_callback(event, NULL, ctx)`: the function at a null result.
The two guards, then lines 450-456. -/
def ai_asr_voice_callback_null (e : Env) (event : voice_event_t) (ctx : asr_context_t) :
    asr_context_t × List Effect :=
  if ctx.cb.isNone then (ctx, [])
  else if ctx.is_send_finished ∨ ctx.state = ASR_STATE_CLOSE then (ctx, [])
  else voice_callback_publish e event none ctx

/-- The copy `ai_asr_voice_callback` makes of a backend result: any non-zero
error code becomes `asr_error_failed`. -/
def copy_result (r : voice_result_t) : asr_result_t :=
  { result := r.result
    duration := r.duration
    error_code := if r.error_code ≠ 0 then asr_error_t.asr_error_failed
                  else asr_error_t.asr_error_success }

/-- Function `ai_asr_voice_callback`.  The one recursive call of the C function (line
437, made by the silence gate with a null result) goes through
`ai_asr_voice_callback_null`. -/
def ai_asr_voice_callback (e : Env) (event : voice_event_t)
    (result : Option voice_result_t) (ctx : asr_context_t) :
    asr_context_t × List Effect :=
  match result with
  | none => ai_asr_voice_callback_null e event ctx
  | some r =>
    if ctx.cb.isNone then (ctx, [])
    else if ctx.is_send_finished ∨ ctx.state = ASR_STATE_CLOSE then (ctx, [])
    else
      match r.result with
      | none => voice_callback_publish e event (some (copy_result r)) ctx
      | some text =>
        if ctx.last_result = text ∧ ctx.last_result_time ≠ 0 ∧
            e.now - ctx.last_result_time > ctx.silence_timeout * 1000 then
          let c := ai_asr_voice_callback_null e voice_event_complete ctx
          ({ c.1 with is_send_finished := true }, c.2)
        else if ctx.last_result ≠ text ∨ ctx.last_result_time = 0 then
          voice_callback_publish e event (some (copy_result r))
            { ctx with last_result := strlcpy text LAST_RESULT_SIZE
                       last_result_time := e.now }
        else
          voice_callback_publish e event (some (copy_result r)) ctx

/-- Function `ai_asr_send_error`: an `error` event with a null text and the given error
code. -/
def ai_asr_send_error (e : Env) (error : asr_error_t) (ctx : asr_context_t) :
    asr_context_t × List Effect :=
  ai_asr_voice_callback e voice_event_error
    (some { result := none, duration := 0, error_code := error.toInt }) ctx

/-- Function `media_recorder_prepare_connect_cb` -/
def media_recorder_prepare_connect_cb (e : Env) (ret : Int) (obj : Nat)
    (ctx : asr_context_t) : asr_context_t × List Effect :=
  if ret < 0 then ai_asr_send_error e asr_error_t.asr_error_media ctx
  else ({ ctx with pipe := some obj }, [Effect.uv_read_start obj])

/-- Function `media_recorder_open_cb` -/
def media_recorder_open_cb (e : Env) (ret : Int) (ctx : asr_context_t) :
    asr_context_t × List Effect :=
  if ret < 0 then ai_asr_send_error e asr_error_t.asr_error_media ctx else (ctx, [])

/-- Function `media_recorder_start_cb` -/
def media_recorder_start_cb (e : Env) (ret : Int) (ctx : asr_context_t) :
    asr_context_t × List Effect :=
  if ret < 0 then ai_asr_send_error e asr_error_t.asr_error_media ctx else (ctx, [])

/-- Function `media_recorder_event_callback`: the `switch` only logs. -/
def media_recorder_event_callback (e : Env) (ret : Int) (ctx : asr_context_t) :
    asr_context_t × List Effect :=
  if ret < 0 then ai_asr_send_error e asr_error_t.asr_error_media ctx else (ctx, [])

/-- Function `media_recorder_close_cb`: if the close latch is already set, publish
`closed`; in every case set the latch. -/
def media_recorder_close_cb (ctx : asr_context_t) : asr_context_t × List Effect :=
  if ctx.is_closed then
    let r := ai_asr_close_handler ctx
    ({ r.2.1 with is_closed := true }, r.2.2)
  else
    ({ ctx with is_closed := true }, [])

/-- Function `ai_asr_focus_callback` -/
def ai_asr_focus_callback (e : Env) (suggestion : Int) (ctx : asr_context_t) :
    asr_context_t × List Effect :=
  if suggestion ≠ MEDIA_FOCUS_PLAY then
    let r := ai_asr_finish_handler e ctx
    let c := ai_asr_voice_callback e voice_event_complete none r.2.1
    (c.1, r.2.2 ++ c.2)
  else (ctx, [])

/-- Function `ai_asr_init_recorder`: request focus, open the recorder, register the
event callback, prepare with `ctx->format`.  Every failure returns `-EPERM`. -/
def ai_asr_init_recorder (e : Env) (ctx : asr_context_t) :
    Int × asr_context_t × List Effect :=
  let ctx1 := { ctx with focus_handle := e.focus_request }
  match (if e.init_suggestion ≠ MEDIA_FOCUS_PLAY then e.focus_request else none) with
  | some f =>
    (-EPERM, { ctx1 with focus_handle := none },
      [Effect.media_focus_request, Effect.media_focus_abandon f])
  | none =>
    match e.recorder_open with
    | none => (-EPERM, ctx1, [Effect.media_focus_request, Effect.media_uv_recorder_open])
    | some h =>
      if e.recorder_listen_ret < 0 then
        (-EPERM, ctx1,
          [Effect.media_focus_request, Effect.media_uv_recorder_open,
           Effect.media_uv_recorder_listen h, Effect.media_uv_recorder_close (some h)])
      else if e.recorder_prepare_ret < 0 then
        (-EPERM, ctx1,
          [Effect.media_focus_request, Effect.media_uv_recorder_open,
           Effect.media_uv_recorder_listen h,
           Effect.media_uv_recorder_prepare h ctx.format,
           Effect.media_uv_recorder_close (some h)])
      else
        (0, { ctx1 with handle := some h },
          [Effect.media_focus_request, Effect.media_uv_recorder_open,
           Effect.media_uv_recorder_listen h,
           Effect.media_uv_recorder_prepare h ctx.format])

/-- Function `ai_asr_create_format`: `-EINVAL` on a null format, `-ENOMEM` when the
reallocation fails, else store a copy. -/
def ai_asr_create_format (e : Env) (ctx : asr_context_t) (format : Option CStr) :
    Int × asr_context_t :=
  match format with
  | none => (-EINVAL, ctx)
  | some f => if e.realloc_ok then (0, { ctx with format := some f }) else (-ENOMEM, ctx)

/-- Function `ai_asr_set_listener_l` (with `ctx` non-null). -/
def ai_asr_set_listener_l (e : Env) (callback : Option Nat) (cookie : Nat)
    (ctx : asr_context_t) : Int × asr_context_t × List Effect :=
  if ctx.engine.isNone then (-1, ctx, [])
  else (e.plugin_event_cb_ret, { ctx with cb := callback, cookie := cookie },
        [Effect.plugin_event_cb])

/-- Lines 563-569 of `ai_asr_start_l`: the caller's format when one was passed
and the plugin does not force its own, else the plugin's format. -/
def start_l_format (e : Env) (audio_format : Option CStr) (ctx : asr_context_t) :
    Int × asr_context_t :=
  if audio_format.isSome ∧ e.force_format = false
  then ai_asr_create_format e ctx audio_format
  else ai_asr_create_format e ctx e.env_format

/-- Lines 573-577 of `ai_asr_start_l`: clear the dedup record and both latches,
enter STARTED. -/
def start_l_reset (ctx : asr_context_t) : asr_context_t :=
  { ctx with last_result := []
             last_result_time := 0
             state := ASR_STATE_START
             is_send_finished := false
             is_closed := false }

/-- Lines 579-600 of `ai_asr_start_l`: start the plugin, set up and start the
recorder, publish `start`.  The label `failed:` closes the recorder with
whatever `ctx->handle` holds and clears it; a failure of
`ai_asr_init_recorder` returns at once. -/
def start_l_capture (e : Env) (ctx : asr_context_t) : Int × asr_context_t × List Effect :=
  if e.plugin_start_ret < 0 then
    (e.plugin_start_ret, { ctx with handle := none },
      [Effect.plugin_start, Effect.media_uv_recorder_close ctx.handle])
  else
    let r := ai_asr_init_recorder e ctx
    if r.1 < 0 then (r.1, r.2.1, Effect.plugin_start :: r.2.2)
    else if e.recorder_start_ret < 0 then
      (e.recorder_start_ret, { r.2.1 with handle := none },
        Effect.plugin_start :: r.2.2 ++
          [Effect.media_uv_recorder_start r.2.1.handle,
           Effect.media_uv_recorder_close r.2.1.handle])
    else
      let c := ai_asr_voice_callback e voice_event_start none r.2.1
      (e.recorder_start_ret, c.1,
        Effect.plugin_start :: r.2.2 ++
          [Effect.media_uv_recorder_start r.2.1.handle] ++ c.2)

/-- Function `ai_asr_start_l` (with `ctx` non-null).  `audio_format` is
`data->audio_info.format`. -/
def ai_asr_start_l (e : Env) (audio_format : Option CStr) (ctx : asr_context_t) :
    Int × asr_context_t × List Effect :=
  if ctx.engine.isNone then (-EINVAL, ctx, [])
  else if ctx.state = ASR_STATE_START then (0, ctx, [])
  else
    let f := start_l_format e audio_format ctx
    if f.1 < 0 then (f.1, f.2, [])
    else start_l_capture e (start_l_reset f.2)

/-- Function `ai_asr_finish_l` -/
def ai_asr_finish_l (e : Env) (ctx : asr_context_t) : Int × asr_context_t × List Effect :=
  if ctx.state ≠ ASR_STATE_START then (0, ctx, [])
  else
    let r := ai_asr_finish_handler e { ctx with state := ASR_STATE_FINISH }
    let c := ai_asr_voice_callback e voice_event_complete none r.2.1
    (r.1, c.1, r.2.2 ++ c.2)

/-- Function `ai_asr_cancel_l` -/
def ai_asr_cancel_l (e : Env) (ctx : asr_context_t) : Int × asr_context_t × List Effect :=
  if ctx.state ≠ ASR_STATE_START then (0, ctx, [])
  else
    ai_asr_finish_handler e
      { ctx with state := ASR_STATE_CANCEL, is_send_finished := true }

/-- Function `ai_asr_close_l` -/
def ai_asr_close_l (ctx : asr_context_t) : Int × asr_context_t × List Effect :=
  if ctx.state = ASR_STATE_CLOSE ∨ ctx.state = ASR_STATE_START then (0, ctx, [])
  else
    let c1 := { ctx with state := ASR_STATE_CLOSE }
    if c1.is_closed then ai_asr_close_handler c1
    else (0, { c1 with is_closed := true }, [])

/-- The session right after `ai_asr_create_engine_l` succeeded: zeroed, with
the close latch set, state INIT, an engine, the engine loop and queue of the
plugin, and the clamped silence timeout. -/
def created (engine : Nat) (user_loop : Bool) (silence_timeout : Int) : asr_context_t :=
  { engine := some engine
    handle := none
    focus_handle := none
    loop := some 0
    asyncq := some 0
    user_loop := user_loop
    pipe := none
    format := none
    cb := none
    cookie := 0
    state := ASR_STATE_INIT
    is_send_finished := false
    is_closed := true
    silence_timeout := silence_timeout
    last_result := []
    last_result_time := 0 }

/-- What the engine loop can be asked to process for one session: the command
messages and the callbacks of backend, focus manager and recorder. -/
inductive Input where
  | set_listener (callback : Option Nat) (cookie : Nat)
  | start (audio_format : Option CStr)
  | finish
  | cancel
  | close
  | voice (event : voice_event_t) (result : Option voice_result_t)
  | focus (suggestion : Int)
  | recorder_open_cb (ret : Int)
  | recorder_prepare_connect_cb (ret : Int) (obj : Nat)
  | recorder_start_cb (ret : Int)
  | recorder_event (ret : Int)
  | recorder_close_cb
  deriving DecidableEq, Repr

/-- One turn of the engine loop: run the handler of the input. -/
def step (e : Env) (i : Input) (ctx : asr_context_t) : asr_context_t × List Effect :=
  match i with
  | .set_listener callback cookie => (ai_asr_set_listener_l e callback cookie ctx).2
  | .start audio_format => (ai_asr_start_l e audio_format ctx).2
  | .finish => (ai_asr_finish_l e ctx).2
  | .cancel => (ai_asr_cancel_l e ctx).2
  | .close => (ai_asr_close_l ctx).2
  | .voice event result => ai_asr_voice_callback e event result ctx
  | .focus suggestion => ai_asr_focus_callback e suggestion ctx
  | .recorder_open_cb ret => media_recorder_open_cb e ret ctx
  | .recorder_prepare_connect_cb ret obj => media_recorder_prepare_connect_cb e ret obj ctx
  | .recorder_start_cb ret => media_recorder_start_cb e ret ctx
  | .recorder_event ret => media_recorder_event_callback e ret ctx
  | .recorder_close_cb => media_recorder_close_cb ctx

/-- The engine loop over a sequence of inputs, each with the outside values of
its turn; the effects of all turns in order. -/
def run : List (Env × Input) → asr_context_t → asr_context_t × List Effect
  | [], ctx => (ctx, [])
  | (e, i) :: rest, ctx =>
    let s := step e i ctx
    let r := run rest s.1
    (r.1, s.2 ++ r.2)

/-- The callback message an effect publishes, if it is a call made by
`ai_asr_send_callback`. -/
def Effect.published : Effect → Option message_data_cb_t
  | .queue_send msg => some msg
  | .callback_inline msg => some msg
  | _ => none

/-- The events handed to `ai_asr_send_callback`, in order. -/
def events (fx : List Effect) : List voice_event_t :=
  (fx.filterMap Effect.published).map (fun m => m.event)

/-- The callback messages handed to `ai_asr_send_callback`, in order: event and
payload. -/
def messages (fx : List Effect) : List message_data_cb_t :=
  fx.filterMap Effect.published

/-- An event is terminal when it is `complete` or `error`. -/
def voice_event_t.terminal (ev : voice_event_t) : Bool :=
  ev = voice_event_complete ∨ ev = voice_event_error

/-- Number of terminal events (`complete` or `error`) published. -/
def terminals (fx : List Effect) : Nat :=
  ((events fx).filter voice_event_t.terminal).length

/-- An environment in which every outside call succeeds: focus granted with
suggestion "play", recorder handle 7, the plugin's preferred format "pcm". -/
def env_ok (now : Int) : Env :=
  { now := now
    recorder_close_ret := 0
    plugin_finish_ret := 0
    plugin_start_ret := 0
    plugin_event_cb_ret := 0
    env_format := some [112, 99, 109]
    force_format := false
    realloc_ok := true
    focus_request := some 5
    init_suggestion := MEDIA_FOCUS_PLAY
    recorder_open := some 7
    recorder_listen_ret := 0
    recorder_prepare_ret := 0
    recorder_start_ret := 0 }

/-- A burst of backend events: each entry becomes one `ai_asr_voice_callback`
turn of the engine loop. -/
def backend (vs : List (Env × voice_event_t × Option voice_result_t)) : List (Env × Input) :=
  vs.map (fun v => (v.1, Input.voice v.2.1 v.2.2))

/-- Position of a state in the lifecycle order
INIT < STARTED < {FINISHING, CANCELLED} < CLOSED. -/
def asr_state_t.rank : asr_state_t → Nat
  | ASR_STATE_INIT => 0
  | ASR_STATE_START => 1
  | ASR_STATE_FINISH => 2
  | ASR_STATE_CANCEL => 2
  | ASR_STATE_CLOSE => 3

/-! ### Creation and the public start call -/

/-- Constant `ASR_DEFAULT_SILENCE_TIMEOUT` -/
def ASR_DEFAULT_SILENCE_TIMEOUT : Int := 3000
/-- Constant `ASR_MIN_SILENCE_TIMEOUT` -/
def ASR_MIN_SILENCE_TIMEOUT : Int := 300
/-- Constant `ASR_MAX_SILENCE_TIMEOUT` -/
def ASR_MAX_SILENCE_TIMEOUT : Int := 15000

/-- Modelled from the spec: the engine type of an auth descriptor
(`ai_asr.h` is not part of the sources).  `ai_asr.c` knows one supported
backend, `asr_engine_type_volc`, and only tests equality with it; every other
enumerator is `asr_engine_type_other`. -/
inductive asr_engine_type_t where
  | asr_engine_type_volc
  | asr_engine_type_other (n : Nat)
  deriving DecidableEq, Repr

/-- The backend credentials `ai_volc_auth_t`. -/
structure ai_volc_auth_t where
  app_id : Option CStr
  app_key : Option CStr
  deriving DecidableEq, Repr

/-- The auth descriptor `ai_auth_t`: engine type and credentials pointer. -/
structure ai_auth_t where
  engine_type : asr_engine_type_t
  auth : Option ai_volc_auth_t
  deriving DecidableEq, Repr

/-- The init parameters of the host, `asr_init_params_t`. -/
structure asr_init_params_t where
  loop : Option Nat
  locate : Option CStr
  rec_mode : Option CStr
  language : Option CStr
  silence_timeout : Int
  deriving DecidableEq, Repr

/-- The normalized parameters handed to the plugin, `voice_init_params_t`
(the callback and its cookie left out). -/
structure voice_init_params_t where
  loop : Option Nat
  locate : Option CStr
  rec_mode : Option CStr
  language : Option CStr
  silence_timeout : Int
  app_id : Option CStr
  app_key : Option CStr
  deriving DecidableEq, Repr

/-- The zeroed `voice_param` of a context fresh from `zalloc`. -/
def voice_init_params_zero : voice_init_params_t :=
  { loop := none, locate := none, rec_mode := none, language := none,
    silence_timeout := 0, app_id := none, app_key := none }

/-- The bytes of a string literal of the C source. -/
def cstr (s : String) : CStr := s.toList.map Char.toNat

/-- Lines 482-489 of `ai_asr_map_params`: the value stored as silence
timeout. -/
def map_silence_timeout (x : Int) : Int :=
  if x ≤ ASR_MAX_SILENCE_TIMEOUT ∧ x ≥ ASR_MIN_SILENCE_TIMEOUT then x
  else if x > ASR_MAX_SILENCE_TIMEOUT then ASR_MAX_SILENCE_TIMEOUT
  else if x < ASR_MIN_SILENCE_TIMEOUT ∧ x ≠ 0 then ASR_MIN_SILENCE_TIMEOUT
  else ASR_DEFAULT_SILENCE_TIMEOUT

/-- Function `ai_asr_map_params`: returns the status and what `out_param` holds
afterwards. -/
def ai_asr_map_params (in_param : asr_init_params_t) (auth : Option ai_auth_t)
    (out_param : voice_init_params_t) : Int × voice_init_params_t :=
  match auth with
  | none => (-EINVAL, out_param)
  | some a =>
    let out1 := { out_param with
      loop := in_param.loop
      locate := some (in_param.locate.getD (cstr "CN"))
      rec_mode := some (in_param.rec_mode.getD (cstr "short"))
      language := some (in_param.language.getD (cstr "zh-CN"))
      silence_timeout := map_silence_timeout in_param.silence_timeout }
    if a.engine_type = asr_engine_type_t.asr_engine_type_volc then
      match a.auth with
      | some volc_auth =>
        match volc_auth.app_id, volc_auth.app_key with
        | some app_id, some app_key =>
          if app_id.length = 0 ∨ app_key.length = 0 then (-EINVAL, out1)
          else (0, { out1 with app_id := some app_id, app_key := some app_key })
        | _, _ => (-EINVAL, out1)
      | none => (-EINVAL, out1)
    else (0, out1)

/-- Values that come back from outside during `ai_asr_create_engine_l`. -/
structure CreateEnv where
  /-- whether `zalloc` of the context succeeds -/
  zalloc_ok : Bool
  /-- return value of `uv_async_queue_init` -/
  queue_init_ret : Int
  /-- engine returned by `voice_plugin_init` -/
  plugin_init : Option Nat
  /-- Value of `get_env()->loop` -/
  env_loop : Option Nat
  /-- Value of `get_env()->asyncq` -/
  env_asyncq : Option Nat
  deriving DecidableEq, Repr

/-- Lines 698-740 of `ai_asr_create_engine_l`, once plugin and auth descriptor
are chosen: allocate the context, set up the host queue, map the parameters,
initialise the plugin and take its loop and queue. -/
def create_engine_body (ce : CreateEnv) (p : asr_init_params_t) (auth : ai_auth_t) :
    Option asr_context_t × List Effect :=
  if ce.zalloc_ok = false then (none, [])
  else
    let fx1 := if p.loop.isSome then [Effect.uv_async_queue_init] else []
    if p.loop.isSome ∧ ce.queue_init_ret < 0 then (none, fx1)
    else
      let m := ai_asr_map_params p (some auth) voice_init_params_zero
      if m.1 < 0 then (none, fx1)
      else
        match ce.plugin_init with
        | none => (none, fx1 ++ [Effect.voice_plugin_init])
        | some engine =>
          match ce.env_loop with
          | none =>
            (none, fx1 ++ [Effect.voice_plugin_init, Effect.voice_plugin_uninit 1])
          | some l =>
            (some { engine := some engine
                    handle := none
                    focus_handle := none
                    loop := some l
                    asyncq := ce.env_asyncq
                    user_loop := p.loop.isSome
                    pipe := none
                    format := none
                    cb := none
                    cookie := 0
                    state := ASR_STATE_INIT
                    is_send_finished := false
                    is_closed := true
                    silence_timeout := m.2.silence_timeout
                    last_result := []
                    last_result_time := 0 },
             fx1 ++ [Effect.voice_plugin_init])

/-- Function `ai_asr_create_engine_l`: the handle returned (`none` is the null
handle) and the outside calls made.  `builtin` stands for the credentials
compiled into lines 691-692, used when no auth descriptor is passed. -/
def ai_asr_create_engine_l (ce : CreateEnv) (builtin : ai_volc_auth_t)
    (param : Option asr_init_params_t) (auth : Option ai_auth_t) :
    Option asr_context_t × List Effect :=
  match param with
  | none => (none, [])
  | some p =>
    match auth with
    | some a =>
      if a.engine_type = asr_engine_type_t.asr_engine_type_volc then create_engine_body ce p a
      else (none, [])
    | none =>
      create_engine_body ce p
        { engine_type := asr_engine_type_t.asr_engine_type_volc, auth := some builtin }

/-- Function `ai_asr_create_engine_with_auth` -/
def ai_asr_create_engine_with_auth (ce : CreateEnv) (builtin : ai_volc_auth_t)
    (param : Option asr_init_params_t) (auth : Option ai_auth_t) :
    Option asr_context_t × List Effect :=
  match auth with
  | none => (none, [])
  | some a =>
    if a.auth.isNone then (none, [])
    else ai_asr_create_engine_l ce builtin param (some a)

/-- The audio hint of the host, `asr_audio_info_t`. -/
structure asr_audio_info_t where
  version : Int
  format : Option CStr
  deriving DecidableEq, Repr

/-- Payload of a start message, `message_data_start_t` (the `ctx` pointer left
implicit). -/
structure message_data_start_t where
  audio_info : asr_audio_info_t
  deriving DecidableEq, Repr

/-- Function `ai_asr_start`: the status returned to the host and the start
message put on the engine queue (`none` when the call is rejected).  The
message data comes zeroed from `calloc`; the caller's format is copied only
when it is non-null and non-empty.  `send_ret` is what `uv_async_queue_send`
returns. -/
def ai_asr_start (send_ret : Int) (ctx : asr_context_t)
    (audio_info : Option asr_audio_info_t) : Int × Option message_data_start_t :=
  if ctx.engine.isNone ∨ ctx.asyncq.isNone then (-EINVAL, none)
  else
    (send_ret, some { audio_info :=
      match audio_info with
      | none => { version := 0, format := none }
      | some a =>
        { version := a.version
          format := match a.format with
            | some f => if f.length > 0 then some f else none
            | none => none } })

/-- The capture format in the words of the spec: the caller's format if the
backend does not force its own and the caller supplied a non-null, non-empty
format, else the format of the plugin environment. -/
def spec_capture_format (force_format : Bool) (audio_info : Option asr_audio_info_t)
    (env_format : Option CStr) : Option CStr :=
  match audio_info with
  | some a =>
    match a.format with
    | some f => if force_format = false ∧ f ≠ [] then some f else env_format
    | none => env_format
  | none => env_format

/-- Capture is released before a terminal event is published, as a property of
the outcome `out` of a handler entered with context `ctx`: wherever the effect
list is cut at a published `complete` or `error`, the part before the cut
holds the recorder close request for the handle held at entry and the focus
abandon for the lease held at entry, holds no recorder open and no focus
request, and the context left behind has both handles cleared. -/
def released_before_terminal (ctx : asr_context_t) (out : asr_context_t × List Effect) :
    Prop :=
  ∀ (pre : List Effect) (p : Effect) (post : List Effect) (m : message_data_cb_t),
    out.2 = pre ++ p :: post → p.published = some m → m.event.terminal = true →
    (∀ h, ctx.handle = some h → Effect.media_uv_recorder_close (some h) ∈ pre) ∧
    (∀ f, ctx.focus_handle = some f → Effect.media_focus_abandon f ∈ pre) ∧
    Effect.media_uv_recorder_open ∉ pre ∧ Effect.media_focus_request ∉ pre ∧
    out.1.handle = none ∧ out.1.focus_handle = none

/-! ### The host loop -/

/-- Function `ai_asr_async_cb`: the handler of the host queue, registered by
`uv_async_queue_init` in `ai_asr_create_engine_l`.  It runs the handler the
message carries on the message data; every message `ai_asr_send_callback`
queues carries `ai_asr_callback_l`. -/
def ai_asr_async_cb (ctx : asr_context_t) (message : message_data_cb_t) : List Effect :=
  ai_asr_callback_l ctx message

/-- The callback message an effect puts on the host queue, if it is a call of
`uv_async_queue_send`. -/
def Effect.queued : Effect → Option message_data_cb_t
  | .queue_send msg => some msg
  | _ => none

/-- The callback messages put on the host queue, in order. -/
def queued (fx : List Effect) : List message_data_cb_t :=
  fx.filterMap Effect.queued

/-- The listener invocation an effect makes, if it is one: event and payload. -/
def Effect.listener_call : Effect → Option message_data_cb_t
  | .listener event result => some ⟨event, result⟩
  | _ => none

/-- The listener invocations among the effects, in order. -/
def listener_calls (fx : List Effect) : List message_data_cb_t :=
  fx.filterMap Effect.listener_call

/-- Modelled from the spec: the host loop services its queue in arrival order
(`uv_async_queue` is not part of the sources): `ai_asr_async_cb` runs once
per queued message, oldest first. -/
def host_loop (ctx : asr_context_t) : List message_data_cb_t → List Effect
  | [] => []
  | message :: rest => ai_asr_async_cb ctx message ++ host_loop ctx rest

/-- A sequence of events handed to `ai_asr_send_callback` one after the other,
in emission order. -/
def send_callbacks (ctx : asr_context_t) : List message_data_cb_t → List Effect
  | [] => []
  | m :: rest => ai_asr_send_callback ctx m.event m.result ++ send_callbacks ctx rest

end AiAsr

/-!
# Realtime conversation engine (`src/conversation/volc/ai_volc_conversation.c`)

A shallow embedding of the parts of the WebSocket engine that deal with
messages: base64 framing, the outbound send buffer and its drain in the
writable callback, the inbound protocol mapping and the cancel command.

* Byte strings are lists of bytes (numbers below 256).
* The JSON library is outside the file.  An inbound message is seen through
  the lookups `volc_conversation_process_server_message` makes on it; an
  outbound message is an abstract object that `json_object_to_json_string`
  (a parameter) renders.
* The ring buffer `ai_ring_buffer_t` is declared in a header that is not part
  of the sources; see `ai_ring_buffer_t` below.
* libwebsockets is outside the file: the constant `LWS_PRE` and the status of
  `lws_write` are read from an `Lws` record.
* Allocation failure (the `NULL` returns after `malloc`) is left out.
-/

namespace VolcConversation

/-- A byte string. -/
abbrev Bytes := List Nat

/-- Constant `EINVAL` -/
def EINVAL : Int := 22
/-- Constant `ENOMEM` -/
def ENOMEM : Int := 12

/-- The connection states `volc_conversation_state_t`. -/
inductive volc_conversation_state_t where
  | VOLC_STATE_DISCONNECTED
  | VOLC_STATE_CONNECTING
  | VOLC_STATE_CONNECTED
  | VOLC_STATE_SESSION_CREATED
  | VOLC_STATE_LISTENING
  | VOLC_STATE_PROCESSING
  | VOLC_STATE_SPEAKING
  | VOLC_STATE_ERROR
  deriving DecidableEq, Repr

/-- Modelled from the spec: the event kinds of the conversation plugin
interface (`ai_conversation_plugin.h` is not part of the sources); these are
the enumerators `ai_volc_conversation.c` names. -/
inductive conversation_engine_event_t where
  | conversation_engine_event_start
  | conversation_engine_event_text
  | conversation_engine_event_audio
  | conversation_engine_event_complete
  | conversation_engine_event_error
  | conversation_engine_event_stop
  deriving DecidableEq, Repr

/-- Modelled from the spec: the error kinds of the conversation plugin
interface (`ai_conversation_plugin.h` is not part of the sources);
`ai_volc_conversation.c` names `success` and `network`. -/
inductive conversation_engine_error_t where
  | conversation_engine_error_success
  | conversation_engine_error_failed
  | conversation_engine_error_media
  | conversation_engine_error_network
  deriving DecidableEq, Repr

/-- The result handed to the event callback, `conversation_engine_result_t`. -/
structure conversation_engine_result_t where
  result : Option Bytes
  len : Int
  error_code : conversation_engine_error_t
  deriving DecidableEq, Repr

/-- Modelled from the spec: `ai_ring_buffer_t`, the bounded byte FIFO of the
send path (`ai_ring_buffer.h` is not part of the sources).  `items` are the
bytes queued, oldest first; `capacity` is the fixed number of bytes it can
hold. -/
structure ai_ring_buffer_t where
  capacity : Nat
  items : Bytes
  deriving DecidableEq, Repr

/-- Modelled from the spec: `ai_ring_buffer_num_items`, the occupancy. -/
def ai_ring_buffer_num_items (b : ai_ring_buffer_t) : Nat := b.items.length

/-- Modelled from the spec: `ai_ring_buffer_is_full`, no free byte is left. -/
def ai_ring_buffer_is_full (b : ai_ring_buffer_t) : Bool := b.capacity ≤ b.items.length

/-- Modelled from the spec: `ai_ring_buffer_queue_arr`.  Bytes that fit are
appended in order.  What the missing implementation does with an array that
does not fit entirely is not said anywhere; it is the parameter `overflow`. -/
def ai_ring_buffer_queue_arr (overflow : ai_ring_buffer_t → Bytes → ai_ring_buffer_t)
    (b : ai_ring_buffer_t) (data : Bytes) : ai_ring_buffer_t :=
  if b.items.length + data.length ≤ b.capacity then { b with items := b.items ++ data }
  else overflow b data

/-- The outbound JSON objects the engine builds. -/
inductive json_out where
  /-- an object with the single member `type` -/
  | of_type (type : Bytes)
  /-- the `input_audio_buffer.append` object with its `audio` member -/
  | append (audio : Bytes)
  /-- the `response.create` object with modalities text and audio -/
  | response_create
  deriving DecidableEq, Repr

/-- What lies outside the file on the send path: the rendering of
`json_object_to_json_string` and the overflow behaviour of the ring buffer. -/
structure Lib where
  json_object_to_json_string : json_out → Bytes
  overflow : ai_ring_buffer_t → Bytes → ai_ring_buffer_t

/-- A parsed inbound message, seen through the lookups that
`volc_conversation_process_server_message` makes: for each member it reads,
the string `json_object_get_string` returns, `none` when the member or the
object around it is absent. -/
structure server_json where
  /-- member `type` -/
  type : Option Bytes
  /-- member `session.id` -/
  session_id : Option Bytes
  /-- member `transcript` -/
  transcript : Option Bytes
  /-- member `response.id` -/
  response_id : Option Bytes
  /-- member `delta` -/
  delta : Option Bytes
  /-- member `error.message` -/
  error_message : Option Bytes
  deriving DecidableEq, Repr

/-- The fields of `volc_conversation_engine_t` the embedded functions use. -/
structure volc_conversation_engine_t where
  lws_context : Option Nat
  wsi : Option Nat
  state : volc_conversation_state_t
  event_callback : Option Nat
  event_cookie : Nat
  is_finished : Bool
  api_key : Option Bytes
  send_buffer : ai_ring_buffer_t
  session_id : Option Bytes
  current_response_id : Option Bytes
  deriving DecidableEq, Repr

/-- Calls that leave `ai_volc_conversation.c`, in program order. -/
inductive Effect where
  /-- Call `engine->event_callback(event, &engine_result, engine->event_cookie)` -/
  | event_callback (event : conversation_engine_event_t) (result : conversation_engine_result_t)
  /-- Call `lws_callback_on_writable(wsi)` -/
  | lws_callback_on_writable (wsi : Option Nat)
  /-- Call `lws_write(wsi, buffer + LWS_PRE, to_send, LWS_WRITE_TEXT)`: one text
  frame with the given bytes -/
  | lws_write (wsi : Nat) (frame : Bytes)
  /-- Call `lws_add_http_header_by_name(wsi, "Authorization: Bearer ", api_key, ..)` -/
  | lws_add_http_header_by_name (wsi : Nat) (api_key : Option Bytes)
  deriving DecidableEq, Repr

open volc_conversation_state_t conversation_engine_event_t conversation_engine_error_t

/-- The bytes of a string literal of the C source. -/
def cstr (s : String) : Bytes := s.toList.map Char.toNat

/-- The table `encoding_table` of `base64_encode`. -/
def encoding_table : Bytes :=
  cstr "ABCDEFGHIJKLMNOPQRSTUVWXYZabcdefghijklmnopqrstuvwxyz0123456789+/"

/-- The table `mod_table` of `base64_encode`. -/
def mod_table : List Nat := [0, 2, 1]

/-- The body of the loop of `base64_encode` for one group: the 32-bit triple
and its four table look-ups. -/
def encode_triple (octet_a octet_b octet_c : Nat) : Bytes :=
  let triple := ((octet_a <<< 0x10) + (octet_b <<< 0x08) + octet_c) % 2 ^ 32
  [encoding_table.getD ((triple >>> (3 * 6)) &&& 0x3F) 0,
   encoding_table.getD ((triple >>> (2 * 6)) &&& 0x3F) 0,
   encoding_table.getD ((triple >>> (1 * 6)) &&& 0x3F) 0,
   encoding_table.getD ((triple >>> (0 * 6)) &&& 0x3F) 0]

/-- The first loop of `base64_encode`: three input bytes per round, missing
bytes of the last round read as 0, four characters written per round. -/
def encode_groups : Bytes → Bytes
  | a :: b :: c :: rest => encode_triple a b c ++ encode_groups rest
  | [a, b] => encode_triple a b 0
  | [a] => encode_triple a 0 0
  | [] => []

/-- Function `base64_encode`: the groups, then the last `mod_table[n % 3]`
characters overwritten with `=`. -/
def base64_encode (data : Bytes) : Bytes :=
  let output_length := 4 * ((data.length + 2) / 3)
  let pad := mod_table.getD (data.length % 3) 0
  (encode_groups data).take (output_length - pad) ++ List.replicate pad 61

/-- Function `base64_decode`: `none` is the `NULL` return.  The output length is
computed from the input length and the trailing `=` characters; the output is
filled with zero bytes (the decoding itself is a placeholder in the source).
For the empty input the C code reads `data[-1]` and `data[-2]`, outside the
string; the embedding takes such a read to find no `=`. -/
def base64_decode (data : Bytes) : Option Bytes :=
  if data.length % 4 ≠ 0 then none
  else
    let n0 := data.length / 4 * 3
    let n1 := if 1 ≤ data.length ∧ data.getD (data.length - 1) 0 = 61 then n0 - 1 else n0
    let n2 := if 2 ≤ data.length ∧ data.getD (data.length - 2) 0 = 61 then n1 - 1 else n1
    some (List.replicate n2 0)

/-- Function `volc_conversation_send_event` (with `engine` non-null): nothing
when no callback is registered, else one callback invocation. -/
def volc_conversation_send_event (engine : volc_conversation_engine_t)
    (event : conversation_engine_event_t) (result : Option Bytes) (len : Int)
    (error_code : conversation_engine_error_t) : List Effect :=
  if engine.event_callback.isNone then []
  else [Effect.event_callback event ⟨result, len, error_code⟩]

/-- Function `volc_conversation_send_json_message` (with `engine` non-null):
`-EINVAL` on a null object, `-ENOMEM` when the send buffer is full, else the
rendered text is queued and the writable notification armed. -/
def volc_conversation_send_json_message (lib : Lib) (engine : volc_conversation_engine_t)
    (json_obj : Option json_out) : Int × volc_conversation_engine_t × List Effect :=
  match json_obj with
  | none => (-EINVAL, engine, [])
  | some j =>
    let json_string := lib.json_object_to_json_string j
    if ai_ring_buffer_is_full engine.send_buffer then (-ENOMEM, engine, [])
    else
      (0, { engine with
              send_buffer := ai_ring_buffer_queue_arr lib.overflow engine.send_buffer json_string },
        [Effect.lws_callback_on_writable engine.wsi])

/-- Function `volc_conversation_process_server_message`.  `message` is the
result of `json_tokener_parse` (`none` when parsing fails). -/
def volc_conversation_process_server_message (engine : volc_conversation_engine_t)
    (message : Option server_json) : Int × volc_conversation_engine_t × List Effect :=
  match message with
  | none => (-1, engine, [])
  | some json =>
    match json.type with
    | none => (-1, engine, [])
    | some type =>
      if type = cstr "session.created" then
        let e1 := match json.session_id with
          | some id => { engine with session_id := some id }
          | none => engine
        let e2 := { e1 with state := VOLC_STATE_SESSION_CREATED }
        (0, e2, volc_conversation_send_event e2 conversation_engine_event_start
          e2.session_id 0 conversation_engine_error_success)
      else if type = cstr "input_audio_buffer.committed" then
        let e1 := { engine with state := VOLC_STATE_PROCESSING }
        (0, e1, volc_conversation_send_event e1 conversation_engine_event_start
          none 0 conversation_engine_error_success)
      else if type = cstr "conversation.item.input_audio_transcription.completed" then
        match json.transcript with
        | some transcript =>
          (0, engine, volc_conversation_send_event engine conversation_engine_event_text
            (some transcript) transcript.length conversation_engine_error_success)
        | none => (0, engine, [])
      else if type = cstr "response.created" then
        let e1 := match json.response_id with
          | some id => { engine with current_response_id := some id }
          | none => engine
        let e2 := { e1 with state := VOLC_STATE_SPEAKING }
        (0, e2, volc_conversation_send_event e2 conversation_engine_event_start
          none 0 conversation_engine_error_success)
      else if type = cstr "response.audio.delta" then
        match json.delta with
        | some audio_b64 =>
          match base64_decode audio_b64 with
          | some audio_data =>
            (0, engine, volc_conversation_send_event engine conversation_engine_event_audio
              (some audio_data) audio_data.length conversation_engine_error_success)
          | none => (0, engine, [])
        | none => (0, engine, [])
      else if type = cstr "response.audio_transcript.delta" then
        match json.delta with
        | some text_delta =>
          (0, engine, volc_conversation_send_event engine conversation_engine_event_text
            (some text_delta) text_delta.length conversation_engine_error_success)
        | none => (0, engine, [])
      else if type = cstr "response.done" then
        let e1 := { engine with state := VOLC_STATE_SESSION_CREATED }
        (0, { e1 with current_response_id := none },
          volc_conversation_send_event e1 conversation_engine_event_complete
            none 0 conversation_engine_error_success)
      else if type = cstr "error" then
        let error_message := json.error_message.getD (cstr "Unknown error")
        let e1 := { engine with state := VOLC_STATE_ERROR }
        (0, e1, volc_conversation_send_event e1 conversation_engine_event_error
          (some error_message) error_message.length conversation_engine_error_network)
      else (0, engine, [])

/-- Function `volc_conversation_cancel` (with `engine` non-null). -/
def volc_conversation_cancel (lib : Lib) (engine : volc_conversation_engine_t) :
    Int × volc_conversation_engine_t × List Effect :=
  if engine.current_response_id.isNone then (-EINVAL, engine, [])
  else volc_conversation_send_json_message lib engine
    (some (json_out.of_type (cstr "response.cancel")))

/-- An engine after `volc_conversation_init`, `volc_conversation_event_cb` and
a successful connection: callback 1 registered, empty send buffer of the given
capacity, no session and no response known. -/
def engine_ready (capacity : Nat) : volc_conversation_engine_t :=
  { lws_context := some 1
    wsi := some 1
    state := VOLC_STATE_CONNECTED
    event_callback := some 1
    event_cookie := 0
    is_finished := false
    api_key := none
    send_buffer := { capacity := capacity, items := [] }
    session_id := none
    current_response_id := none }

/-- An inbound message with the given `type` member and nothing else. -/
def server_json_of_type (type : String) : server_json :=
  { type := some (cstr type), session_id := none, transcript := none, response_id := none,
    delta := none, error_message := none }

/-! ### The writable drain and audio framing -/

/-- Constant `VOLC_BUFFER_MAX_SIZE` (`128 * 1024`) -/
def VOLC_BUFFER_MAX_SIZE : Nat := 128 * 1024

/-- Modelled from the spec: `ai_ring_buffer_dequeue_arr`, which takes the `len`
oldest bytes out of the FIFO (all of them when fewer are queued): the buffer
left behind and the bytes copied out, oldest first. -/
def ai_ring_buffer_dequeue_arr (b : ai_ring_buffer_t) (len : Nat) :
    ai_ring_buffer_t × Bytes :=
  ({ b with items := b.items.drop len }, b.items.take len)

/-- What libwebsockets contributes to one writable callback: the constant
`LWS_PRE` of its header (the room a caller leaves in front of a frame, 16 in
a stock build) and the return value of `lws_write`. -/
structure Lws where
  LWS_PRE : Nat
  written : Int
  deriving DecidableEq, Repr

/-- Case `LWS_CALLBACK_CLIENT_WRITEABLE` of
`volc_conversation_websocket_callback` (lines 208-228, with `engine`
non-null): the value the callback returns, the engine and the outside calls.
The subtraction `VOLC_BUFFER_MAX_SIZE - LWS_PRE` is taken with
`LWS_PRE` not above the buffer size. -/
def websocket_callback_writeable (lws : Lws) (wsi : Nat) (engine : volc_conversation_engine_t) :
    Int × volc_conversation_engine_t × List Effect :=
  if ai_ring_buffer_num_items engine.send_buffer > 0 then
    let available := ai_ring_buffer_num_items engine.send_buffer
    let to_send :=
      if available > VOLC_BUFFER_MAX_SIZE - lws.LWS_PRE then VOLC_BUFFER_MAX_SIZE - lws.LWS_PRE
      else available
    let d := ai_ring_buffer_dequeue_arr engine.send_buffer to_send
    let engine1 := { engine with send_buffer := d.1 }
    if lws.written < 0 then (-1, engine1, [Effect.lws_write wsi d.2])
    else if ai_ring_buffer_num_items d.1 > 0 then
      (0, engine1, [Effect.lws_write wsi d.2, Effect.lws_callback_on_writable (some wsi)])
    else (0, engine1, [Effect.lws_write wsi d.2])
  else (0, engine, [])

/-- The reasons `volc_conversation_websocket_callback` tells apart, each with
what the callback reads from its arguments `in` and `len`: for a received
frame its length and the result of `json_tokener_parse` on its text (`none`
when parsing fails), for a connection error the message (`none` is `NULL`).
Every other reason of libwebsockets is `other`. -/
inductive lws_callback_reasons where
  | LWS_CALLBACK_CLIENT_APPEND_HANDSHAKE_HEADER
  | LWS_CALLBACK_CLIENT_ESTABLISHED
  | LWS_CALLBACK_CLIENT_RECEIVE (len : Nat) (message : Option server_json)
  | LWS_CALLBACK_CLIENT_WRITEABLE
  | LWS_CALLBACK_CLIENT_CONNECTION_ERROR (in_data : Option Bytes)
  | LWS_CALLBACK_CLIENT_CLOSED
  | LWS_CALLBACK_WSI_DESTROY
  | other
  deriving DecidableEq, Repr

/-- Function `volc_conversation_websocket_callback` (with `engine` non-null):
the value returned, the engine and the outside calls.  The status of
`lws_add_http_header_by_name` and of `volc_conversation_process_server_message`
is only logged or dropped by the source. -/
def volc_conversation_websocket_callback (lws : Lws) (wsi : Nat) (reason : lws_callback_reasons)
    (engine : volc_conversation_engine_t) : Int × volc_conversation_engine_t × List Effect :=
  match reason with
  | .LWS_CALLBACK_CLIENT_APPEND_HANDSHAKE_HEADER =>
    (0, engine, [Effect.lws_add_http_header_by_name wsi engine.api_key])
  | .LWS_CALLBACK_CLIENT_ESTABLISHED =>
    let e1 := { engine with state := VOLC_STATE_CONNECTED }
    (0, e1, volc_conversation_send_event e1 conversation_engine_event_start none 0
      conversation_engine_error_success)
  | .LWS_CALLBACK_CLIENT_RECEIVE len message =>
    if len > 0 then
      let r := volc_conversation_process_server_message engine message
      (0, r.2.1, r.2.2)
    else (0, engine, [])
  | .LWS_CALLBACK_CLIENT_WRITEABLE => websocket_callback_writeable lws wsi engine
  | .LWS_CALLBACK_CLIENT_CONNECTION_ERROR in_data =>
    let e1 := { engine with state := VOLC_STATE_ERROR }
    let result := in_data.getD (cstr "Connection error")
    (0, e1, volc_conversation_send_event e1 conversation_engine_event_error (some result)
      result.length conversation_engine_error_network)
  | .LWS_CALLBACK_CLIENT_CLOSED =>
    let e1 := { engine with wsi := none, state := VOLC_STATE_DISCONNECTED }
    (0, e1, volc_conversation_send_event e1 conversation_engine_event_stop none 0
      conversation_engine_error_success)
  | .LWS_CALLBACK_WSI_DESTROY => (0, { engine with wsi := none }, [])
  | .other => (0, engine, [])

/-- A sequence of outbound messages handed to
`volc_conversation_send_json_message` one after the other: the statuses
returned, the engine left behind and the outside calls made. -/
def send_json_messages (lib : Lib) (engine : volc_conversation_engine_t) :
    List json_out → List Int × volc_conversation_engine_t × List Effect
  | [] => ([], engine, [])
  | j :: rest =>
    let r := volc_conversation_send_json_message lib engine (some j)
    let rr := send_json_messages lib r.2.1 rest
    (r.1 :: rr.1, rr.2.1, r.2.2 ++ rr.2.2)

/-- The text of a sequence of outbound messages, one rendering after the
other. -/
def rendered (lib : Lib) : List json_out → Bytes
  | [] => []
  | j :: rest => lib.json_object_to_json_string j ++ rendered lib rest

/-- Function `volc_conversation_write_audio` (with `engine` non-null).  `data`
is the chunk, its length the argument `len`; a null or empty chunk is
rejected. -/
def volc_conversation_write_audio (lib : Lib) (engine : volc_conversation_engine_t)
    (data : Option Bytes) : Int × volc_conversation_engine_t × List Effect :=
  match data with
  | none => (-EINVAL, engine, [])
  | some d =>
    if d.length = 0 then (-EINVAL, engine, [])
    else
      let audio_b64 := base64_encode d
      let r := volc_conversation_send_json_message lib engine (some (json_out.append audio_b64))
      if r.1 = 0 ∧ r.2.1.state = VOLC_STATE_SESSION_CREATED then
        let e1 := { r.2.1 with state := VOLC_STATE_LISTENING }
        (r.1, e1, r.2.2 ++ volc_conversation_send_event e1 conversation_engine_event_start
          none 0 conversation_engine_error_success)
      else r

/-- The Base64 alphabet of RFC 4648 as a function of the 6-bit value: `A`-`Z`
for 0-25, `a`-`z` for 26-51, `0`-`9` for 52-61, then `+` and `/`. -/
def rfc4648_char (v : Nat) : Nat :=
  if v < 26 then 65 + v
  else if v < 52 then 97 + (v - 26)
  else if v < 62 then 48 + (v - 52)
  else if v = 62 then 43
  else 47

/-- Standard Base64 in the words of the claim, for comparison with
`base64_encode`: each group of three bytes yields the four 6-bit alphabet
characters of its 24-bit big-endian triple; a final group of one or two bytes
is padded with zero bytes and ends in two or one `=` (byte 61); the empty input
yields the empty string. -/
def rfc4648_encode : Bytes → Bytes
  | a :: b :: c :: rest =>
    [rfc4648_char ((a * 2 ^ 16 + b * 2 ^ 8 + c) / 2 ^ 18 % 64),
     rfc4648_char ((a * 2 ^ 16 + b * 2 ^ 8 + c) / 2 ^ 12 % 64),
     rfc4648_char ((a * 2 ^ 16 + b * 2 ^ 8 + c) / 2 ^ 6 % 64),
     rfc4648_char ((a * 2 ^ 16 + b * 2 ^ 8 + c) % 64)] ++ rfc4648_encode rest
  | [a, b] =>
    [rfc4648_char ((a * 2 ^ 16 + b * 2 ^ 8) / 2 ^ 18 % 64),
     rfc4648_char ((a * 2 ^ 16 + b * 2 ^ 8) / 2 ^ 12 % 64),
     rfc4648_char ((a * 2 ^ 16 + b * 2 ^ 8) / 2 ^ 6 % 64),
     61]
  | [a] =>
    [rfc4648_char (a * 2 ^ 16 / 2 ^ 18 % 64),
     rfc4648_char (a * 2 ^ 16 / 2 ^ 12 % 64),
     61, 61]
  | [] => []

end VolcConversation

namespace AiAsr
open asr_state_t voice_event_t

/-! ## Basic facts about effects and published events -/

theorem events_append (a b : List Effect) : events (a ++ b) = events a ++ events b := by
  simp [events]

theorem terminals_append (a b : List Effect) : terminals (a ++ b) = terminals a + terminals b := by
  simp [terminals, events_append]

theorem events_callback_l (ctx : asr_context_t) (m : message_data_cb_t) :
    events (ai_asr_callback_l ctx m) = [] := by
  unfold ai_asr_callback_l events
  split_ifs <;> simp [Effect.published]

theorem events_send_callback (ctx : asr_context_t) (ev : voice_event_t)
    (res : Option asr_result_t) : events (ai_asr_send_callback ctx ev res) = [ev] := by
  unfold ai_asr_send_callback
  split_ifs
  · simp [events, Effect.published]
  · have h := events_callback_l ctx ⟨ev, res⟩
    simp only [events] at h ⊢
    simp [List.filterMap_cons, Effect.published, h]

theorem finish_handler_ctx (e : Env) (ctx : asr_context_t) :
    (ai_asr_finish_handler e ctx).2.1 = { ctx with handle := none, focus_handle := none } := rfl

theorem events_finish_handler (e : Env) (ctx : asr_context_t) :
    events (ai_asr_finish_handler e ctx).2.2 = [] := by
  unfold ai_asr_finish_handler
  simp only [events_append]
  cases ctx.handle <;> cases ctx.focus_handle <;> cases ctx.engine <;>
    simp [events, Effect.published]

theorem events_publish (e : Env) (ev : voice_event_t) (res : Option asr_result_t)
    (ctx : asr_context_t) : events (voice_callback_publish e ev res ctx).2 = [ev] := by
  unfold voice_callback_publish
  split_ifs
  · simp [events_append, events_finish_handler, events_send_callback]
  · simp [events_send_callback]

theorem publish_fin (e : Env) (ev : voice_event_t) (res : Option asr_result_t)
    (ctx : asr_context_t) :
    (voice_callback_publish e ev res ctx).1.is_send_finished
      = (ev.terminal || ctx.is_send_finished) := by
  unfold voice_callback_publish voice_event_t.terminal
  split_ifs with h
  · simp [h]
  · simp [h]

theorem voice_callback_latched (e : Env) (ev : voice_event_t) (res : Option voice_result_t)
    (ctx : asr_context_t) (h : ctx.is_send_finished = true) :
    ai_asr_voice_callback e ev res ctx = (ctx, []) := by
  cases res with
  | none => simp [ai_asr_voice_callback, ai_asr_voice_callback_null, h]
  | some r => simp [ai_asr_voice_callback, h]

/-- The published events of one `ai_asr_voice_callback`: nothing, the incoming
event, or the `complete` synthesized by the silence gate; a terminal event
always leaves the latch set. -/
theorem voice_callback_events (e : Env) (ev : voice_event_t) (res : Option voice_result_t)
    (ctx : asr_context_t) :
    (ai_asr_voice_callback e ev res ctx = (ctx, [])) ∨
    (ctx.is_send_finished = false ∧
      ((events (ai_asr_voice_callback e ev res ctx).2 = [ev] ∧
        (ai_asr_voice_callback e ev res ctx).1.is_send_finished = ev.terminal) ∨
       (events (ai_asr_voice_callback e ev res ctx).2 = [voice_event_complete] ∧
        (ai_asr_voice_callback e ev res ctx).1.is_send_finished = true))) := by
  cases hf : ctx.is_send_finished with
  | true => exact Or.inl (voice_callback_latched e ev res ctx hf)
  | false =>
    by_cases hg : ctx.cb.isNone = true ∨ ctx.state = ASR_STATE_CLOSE
    · left
      cases res <;> rcases hg with hg | hg <;>
        simp [ai_asr_voice_callback, ai_asr_voice_callback_null, hg]
    · right
      refine ⟨rfl, ?_⟩
      push_neg at hg
      obtain ⟨h1, h2⟩ := hg
      cases res with
      | none =>
        left
        simp [ai_asr_voice_callback, ai_asr_voice_callback_null, h1, h2, hf, events_publish,
          publish_fin]
      | some r =>
        cases ht : r.result with
        | none =>
          left
          simp [ai_asr_voice_callback, h1, h2, hf, ht, events_publish, publish_fin]
        | some text =>
          by_cases hfire : ctx.last_result = text ∧ ctx.last_result_time ≠ 0 ∧
            e.now - ctx.last_result_time > ctx.silence_timeout * 1000
          · right
            simp [ai_asr_voice_callback, ai_asr_voice_callback_null, h1, h2, hf, ht, hfire,
              events_publish]
          · left
            simp only [ai_asr_voice_callback, h1, h2, hf, ht, hfire]
            simp
            split_ifs <;> simp [events_publish, publish_fin, hf]

theorem terminals_nil : terminals [] = 0 := rfl

theorem terminals_of_events (fx : List Effect) (ev : voice_event_t) (h : events fx = [ev]) :
    terminals fx = if ev.terminal then 1 else 0 := by
  unfold terminals
  rw [h]
  by_cases ht : ev.terminal = true <;> simp [ht]

theorem terminals_of_events_nil (fx : List Effect) (h : events fx = []) :
    terminals fx = 0 := by
  simp [terminals, h]

/-- Latch discipline of one `ai_asr_voice_callback`. -/
theorem voice_callback_latch (e : Env) (ev : voice_event_t) (res : Option voice_result_t)
    (ctx : asr_context_t) :
    (ctx.is_send_finished = true →
      (ai_asr_voice_callback e ev res ctx).1.is_send_finished = true ∧
      terminals (ai_asr_voice_callback e ev res ctx).2 = 0) ∧
    terminals (ai_asr_voice_callback e ev res ctx).2 ≤ 1 ∧
    (terminals (ai_asr_voice_callback e ev res ctx).2 = 1 →
      (ai_asr_voice_callback e ev res ctx).1.is_send_finished = true) := by
  rcases voice_callback_events e ev res ctx with h | ⟨hf, ⟨h1, h2⟩ | ⟨h1, h2⟩⟩
  · rw [h]; simp [terminals_nil]
  · rw [terminals_of_events _ _ h1, h2]
    by_cases ht : ev.terminal = true <;> simp [ht, hf]
  · rw [terminals_of_events _ _ h1, h2]
    simp [hf, voice_event_t.terminal]

theorem finish_handler_fin (e : Env) (ctx : asr_context_t) :
    (ai_asr_finish_handler e ctx).2.1.is_send_finished = ctx.is_send_finished := rfl

theorem terminals_finish_handler (e : Env) (ctx : asr_context_t) :
    terminals (ai_asr_finish_handler e ctx).2.2 = 0 :=
  terminals_of_events_nil _ (events_finish_handler e ctx)

/-- Latch discipline of one turn of the engine loop, for every input other
than the start command. -/
theorem step_latch (e : Env) (i : Input) (ctx : asr_context_t)
    (hi : ∀ af, i ≠ Input.start af) :
    (ctx.is_send_finished = true →
      (step e i ctx).1.is_send_finished = true ∧ terminals (step e i ctx).2 = 0) ∧
    terminals (step e i ctx).2 ≤ 1 ∧
    (terminals (step e i ctx).2 = 1 → (step e i ctx).1.is_send_finished = true) := by
  cases i with
  | start af => exact absurd rfl (hi af)
  | set_listener cb cookie =>
    simp only [step, ai_asr_set_listener_l]
    split_ifs <;> simp [terminals, events, Effect.published]
  | finish =>
    simp only [step, ai_asr_finish_l]
    split_ifs
    · simp [terminals_nil]
    · have h := voice_callback_latch e voice_event_complete none
        (ai_asr_finish_handler e { ctx with state := ASR_STATE_FINISH }).2.1
      simp only [terminals_append, terminals_finish_handler, finish_handler_fin] at h ⊢
      simpa using h
  | cancel =>
    simp only [step, ai_asr_cancel_l]
    split_ifs
    · simp [terminals_nil]
    · simp [terminals_finish_handler, finish_handler_fin]
  | close =>
    simp only [step, ai_asr_close_l, ai_asr_close_handler]
    split_ifs <;> simp [terminals_nil, terminals_of_events _ _ (events_send_callback _ _ _),
      voice_event_t.terminal]
  | voice ev res => exact voice_callback_latch e ev res ctx
  | focus s =>
    simp only [step, ai_asr_focus_callback]
    split_ifs
    · have h := voice_callback_latch e voice_event_complete none
        (ai_asr_finish_handler e ctx).2.1
      simp only [terminals_append, terminals_finish_handler, finish_handler_fin] at h ⊢
      simpa using h
    · simp [terminals_nil]
  | recorder_open_cb ret =>
    simp only [step, media_recorder_open_cb, ai_asr_send_error]
    split_ifs
    · exact voice_callback_latch _ _ _ _
    · simp [terminals_nil]
  | recorder_prepare_connect_cb ret obj =>
    simp only [step, media_recorder_prepare_connect_cb, ai_asr_send_error]
    split_ifs
    · exact voice_callback_latch _ _ _ _
    · simp [terminals, events, Effect.published]
  | recorder_start_cb ret =>
    simp only [step, media_recorder_start_cb, ai_asr_send_error]
    split_ifs
    · exact voice_callback_latch _ _ _ _
    · simp [terminals_nil]
  | recorder_event ret =>
    simp only [step, media_recorder_event_callback, ai_asr_send_error]
    split_ifs
    · exact voice_callback_latch _ _ _ _
    · simp [terminals_nil]
  | recorder_close_cb =>
    simp only [step, media_recorder_close_cb, ai_asr_close_handler]
    split_ifs <;> simp [terminals_nil, terminals_of_events _ _ (events_send_callback _ _ _),
      voice_event_t.terminal]

/-- Latch discipline of the engine loop over inputs without a start command. -/
theorem run_latch (ins : List (Env × Input)) :
    ∀ ctx : asr_context_t, (∀ x ∈ ins, ∀ af, x.2 ≠ Input.start af) →
      terminals (run ins ctx).2 ≤ 1 ∧
      (ctx.is_send_finished = true →
        (run ins ctx).1.is_send_finished = true ∧ terminals (run ins ctx).2 = 0) ∧
      (terminals (run ins ctx).2 = 1 → (run ins ctx).1.is_send_finished = true) := by
  induction ins with
  | nil => intro ctx _; simp [run, terminals_nil]
  | cons x rest ih =>
    intro ctx hx
    obtain ⟨e, i⟩ := x
    have hi : ∀ af, i ≠ Input.start af := hx (e, i) (List.mem_cons_self _ _)
    have hrest : ∀ x ∈ rest, ∀ af, x.2 ≠ Input.start af :=
      fun x hm => hx x (List.mem_cons_of_mem _ hm)
    obtain ⟨s1, s2, s3⟩ := step_latch e i ctx hi
    obtain ⟨r1, r2, r3⟩ := ih (step e i ctx).1 hrest
    simp only [run, terminals_append]
    refine ⟨?_, ?_, ?_⟩
    · by_cases h1 : terminals (step e i ctx).2 = 1
      · have := (r2 (s3 h1)).2
        omega
      · omega
    · intro hf
      obtain ⟨a, b⟩ := s1 hf
      obtain ⟨c, d⟩ := r2 a
      exact ⟨c, by omega⟩
    · intro h
      by_cases h1 : terminals (step e i ctx).2 = 1
      · exact (r2 (s3 h1)).1
      · exact r3 (by omega)

/-! ## The engine loop and the start command -/

theorem events_init_recorder (e : Env) (ctx : asr_context_t) :
    events (ai_asr_init_recorder e ctx).2.2 = [] := by
  unfold ai_asr_init_recorder
  split
  · simp [events, Effect.published]
  · split
    · simp [events, Effect.published]
    · split_ifs <;> simp [events, Effect.published]


theorem start_l_format_ctx (e : Env) (af : Option CStr) (ctx : asr_context_t) :
    (start_l_format e af ctx).2 = ctx ∨
    ∃ g, (start_l_format e af ctx).2 = { ctx with format := some g } := by
  have key : ∀ f : Option CStr, (ai_asr_create_format e ctx f).2 = ctx ∨
      ∃ g, (ai_asr_create_format e ctx f).2 = { ctx with format := some g } := by
    intro f
    unfold ai_asr_create_format
    cases f with
    | none => simp
    | some g =>
      by_cases h : e.realloc_ok = true
      · right; exact ⟨g, by simp [h]⟩
      · left; simp [h]
  unfold start_l_format
  split_ifs <;> exact key _

theorem events_nil : events [] = [] := rfl

theorem voice_callback_none_cases (e : Env) (ev : voice_event_t) (ctx : asr_context_t) :
    ai_asr_voice_callback e ev none ctx = (ctx, []) ∨
    ai_asr_voice_callback e ev none ctx = voice_callback_publish e ev none ctx := by
  simp only [ai_asr_voice_callback, ai_asr_voice_callback_null]
  split_ifs <;> simp

theorem events_cons (x : Effect) (l : List Effect) :
    events (x :: l) = (x.published.map (fun m => m.event)).toList ++ events l := by
  cases h : x.published <;> simp [events, h]

theorem events_start_l_capture (e : Env) (ctx : asr_context_t) :
    events (start_l_capture e ctx).2.2 = [] ∨
    events (start_l_capture e ctx).2.2 = [voice_event_start] := by
  have h0 := events_init_recorder e ctx
  unfold start_l_capture
  by_cases h1 : e.plugin_start_ret < 0
  · left; simp [h1, events_cons, Effect.published, events_nil]
  by_cases h2 : (ai_asr_init_recorder e ctx).1 < 0
  · left; simp [h1, h2, events_cons, Effect.published, h0]
  by_cases h3 : e.recorder_start_ret < 0
  · left; simp [h1, h2, h3, events_cons, events_append, Effect.published, h0, events_nil]
  rcases voice_callback_none_cases e voice_event_start (ai_asr_init_recorder e ctx).2.1
    with h | h
  · left
    simp [h1, h2, h3, h, events_cons, events_append, Effect.published, h0, events_nil]
  · right
    simp [h1, h2, h3, h, events_cons, events_append, Effect.published, h0, events_nil,
      events_publish]

theorem events_start_l (e : Env) (af : Option CStr) (ctx : asr_context_t) :
    events (ai_asr_start_l e af ctx).2.2 = [] ∨
    events (ai_asr_start_l e af ctx).2.2 = [voice_event_start] := by
  unfold ai_asr_start_l
  split_ifs
  · left; rfl
  · left; rfl
  · simp only []
    split_ifs
    · left; rfl
    · exact events_start_l_capture e _

theorem terminals_start_l (e : Env) (af : Option CStr) (ctx : asr_context_t) :
    terminals (ai_asr_start_l e af ctx).2.2 = 0 := by
  rcases events_start_l e af ctx with h | h <;> simp [terminals, h, voice_event_t.terminal]


/-! ## Fields no handler changes -/

theorem voice_callback_publish_state (e : Env) (ev : voice_event_t)
    (res : Option asr_result_t) (ctx : asr_context_t) :
    (voice_callback_publish e ev res ctx).1.state = ctx.state := by
  unfold voice_callback_publish
  split_ifs <;> rfl

theorem voice_callback_state (e : Env) (ev : voice_event_t) (res : Option voice_result_t)
    (ctx : asr_context_t) : (ai_asr_voice_callback e ev res ctx).1.state = ctx.state := by
  cases res with
  | none =>
    simp only [ai_asr_voice_callback, ai_asr_voice_callback_null]
    split_ifs <;> simp [voice_callback_publish_state]
  | some r =>
    simp only [ai_asr_voice_callback, ai_asr_voice_callback_null]
    split_ifs
    · rfl
    · rfl
    · cases r.result with
      | none => simp [voice_callback_publish_state]
      | some text =>
        simp only []
        split_ifs <;> simp [voice_callback_publish_state]

theorem init_recorder_state (e : Env) (ctx : asr_context_t) :
    (ai_asr_init_recorder e ctx).2.1.state = ctx.state := by
  unfold ai_asr_init_recorder
  split
  · rfl
  · split
    · rfl
    · split_ifs <;> rfl

theorem start_l_capture_state (e : Env) (ctx : asr_context_t) :
    (start_l_capture e ctx).2.1.state = ctx.state := by
  unfold start_l_capture
  by_cases h1 : e.plugin_start_ret < 0
  · simp [h1]
  by_cases h2 : (ai_asr_init_recorder e ctx).1 < 0
  · simp [h1, h2, init_recorder_state]
  by_cases h3 : e.recorder_start_ret < 0
  · simp [h1, h2, h3, init_recorder_state]
  · simp [h1, h2, h3, init_recorder_state, voice_callback_state]

theorem start_l_format_state (e : Env) (af : Option CStr) (ctx : asr_context_t) :
    (start_l_format e af ctx).2.state = ctx.state := by
  rcases start_l_format_ctx e af ctx with h | ⟨g, h⟩ <;> rw [h]

theorem start_l_state (e : Env) (af : Option CStr) (ctx : asr_context_t) :
    (ai_asr_start_l e af ctx).2.1.state =
      if ctx.engine.isSome ∧ 0 ≤ (start_l_format e af ctx).1 then ASR_STATE_START
      else ctx.state := by
  unfold ai_asr_start_l
  cases he : ctx.engine with
  | none => simp
  | some g =>
    by_cases hs : ctx.state = ASR_STATE_START
    · simp [hs]
    · by_cases hf : (start_l_format e af ctx).1 < 0
      · simp [hs, hf, start_l_format_state, not_le.mpr hf]
      · simp [hs, hf, start_l_capture_state, start_l_reset, not_lt.mp hf]

theorem voice_callback_publish_engine (e : Env) (ev : voice_event_t)
    (res : Option asr_result_t) (ctx : asr_context_t) :
    (voice_callback_publish e ev res ctx).1.engine = ctx.engine := by
  unfold voice_callback_publish
  split_ifs <;> rfl

theorem voice_callback_engine (e : Env) (ev : voice_event_t) (res : Option voice_result_t)
    (ctx : asr_context_t) : (ai_asr_voice_callback e ev res ctx).1.engine = ctx.engine := by
  cases res with
  | none =>
    simp only [ai_asr_voice_callback, ai_asr_voice_callback_null]
    split_ifs <;> simp [voice_callback_publish_engine]
  | some r =>
    simp only [ai_asr_voice_callback, ai_asr_voice_callback_null]
    split_ifs
    · rfl
    · rfl
    · cases r.result with
      | none => simp [voice_callback_publish_engine]
      | some text =>
        simp only []
        split_ifs <;> simp [voice_callback_publish_engine]

theorem init_recorder_engine (e : Env) (ctx : asr_context_t) :
    (ai_asr_init_recorder e ctx).2.1.engine = ctx.engine := by
  unfold ai_asr_init_recorder
  split
  · rfl
  · split
    · rfl
    · split_ifs <;> rfl

theorem start_l_capture_engine (e : Env) (ctx : asr_context_t) :
    (start_l_capture e ctx).2.1.engine = ctx.engine := by
  unfold start_l_capture
  by_cases h1 : e.plugin_start_ret < 0
  · simp [h1]
  by_cases h2 : (ai_asr_init_recorder e ctx).1 < 0
  · simp [h1, h2, init_recorder_engine]
  by_cases h3 : e.recorder_start_ret < 0
  · simp [h1, h2, h3, init_recorder_engine]
  · simp [h1, h2, h3, init_recorder_engine, voice_callback_engine]

theorem start_l_engine (e : Env) (af : Option CStr) (ctx : asr_context_t) :
    (ai_asr_start_l e af ctx).2.1.engine = ctx.engine := by
  have hfmt : (start_l_format e af ctx).2.engine = ctx.engine := by
    rcases start_l_format_ctx e af ctx with h | ⟨g, h⟩ <;> rw [h]
  unfold ai_asr_start_l
  split_ifs
  · rfl
  · rfl
  · simp only []
    split_ifs
    · exact hfmt
    · rw [start_l_capture_engine]
      exact hfmt

/-- No turn of the engine loop changes the engine pointer. -/
theorem step_engine (e : Env) (i : Input) (ctx : asr_context_t) :
    (step e i ctx).1.engine = ctx.engine := by
  cases i with
  | start af => exact start_l_engine e af ctx
  | set_listener cb cookie =>
    simp only [step, ai_asr_set_listener_l]
    split_ifs <;> rfl
  | finish =>
    simp only [step, ai_asr_finish_l]
    split_ifs
    · rfl
    · simp [voice_callback_engine, finish_handler_ctx]
  | cancel =>
    simp only [step, ai_asr_cancel_l]
    split_ifs
    · rfl
    · simp [finish_handler_ctx]
  | close =>
    simp only [step, ai_asr_close_l, ai_asr_close_handler]
    split_ifs <;> rfl
  | voice ev res => exact voice_callback_engine e ev res ctx
  | focus s =>
    simp only [step, ai_asr_focus_callback]
    split_ifs
    · simp [voice_callback_engine, finish_handler_ctx]
    · rfl
  | recorder_open_cb ret =>
    simp only [step, media_recorder_open_cb, ai_asr_send_error]
    split_ifs
    · exact voice_callback_engine _ _ _ _
    · rfl
  | recorder_prepare_connect_cb ret obj =>
    simp only [step, media_recorder_prepare_connect_cb, ai_asr_send_error]
    split_ifs
    · exact voice_callback_engine _ _ _ _
    · rfl
  | recorder_start_cb ret =>
    simp only [step, media_recorder_start_cb, ai_asr_send_error]
    split_ifs
    · exact voice_callback_engine _ _ _ _
    · rfl
  | recorder_event ret =>
    simp only [step, media_recorder_event_callback, ai_asr_send_error]
    split_ifs
    · exact voice_callback_engine _ _ _ _
    · rfl
  | recorder_close_cb =>
    simp only [step, media_recorder_close_cb, ai_asr_close_handler]
    split_ifs <;> rfl

/-- A session keeps the engine it was created with. -/
theorem run_engine (ins : List (Env × Input)) :
    ∀ ctx : asr_context_t, (run ins ctx).1.engine = ctx.engine := by
  induction ins with
  | nil => intro ctx; rfl
  | cons x rest ih =>
    intro ctx
    simp only [run, ih, step_engine]

/-! ## The silence gate -/

theorem messages_append (a b : List Effect) : messages (a ++ b) = messages a ++ messages b := by
  simp [messages]

theorem messages_send_callback (ctx : asr_context_t) (ev : voice_event_t)
    (res : Option asr_result_t) : messages (ai_asr_send_callback ctx ev res) = [⟨ev, res⟩] := by
  unfold ai_asr_send_callback ai_asr_callback_l messages
  split_ifs <;> simp [Effect.published]

theorem messages_finish_handler (e : Env) (ctx : asr_context_t) :
    messages (ai_asr_finish_handler e ctx).2.2 = [] := by
  unfold ai_asr_finish_handler
  simp only [messages_append]
  cases ctx.handle <;> cases ctx.focus_handle <;> cases ctx.engine <;>
    simp [messages, Effect.published]

theorem messages_publish (e : Env) (ev : voice_event_t) (res : Option asr_result_t)
    (ctx : asr_context_t) : messages (voice_callback_publish e ev res ctx).2 = [⟨ev, res⟩] := by
  unfold voice_callback_publish
  split_ifs
  · simp [messages_append, messages_finish_handler, messages_send_callback]
  · simp [messages_send_callback]

theorem publish_dedup (e : Env) (ev : voice_event_t) (res : Option asr_result_t)
    (ctx : asr_context_t) :
    (voice_callback_publish e ev res ctx).1.last_result = ctx.last_result ∧
    (voice_callback_publish e ev res ctx).1.last_result_time = ctx.last_result_time := by
  unfold voice_callback_publish
  split_ifs <;> exact ⟨rfl, rfl⟩

/-- The silence gate fires: the callback passed its guards, the text equals
the recorded one, a time stamp is set and more than the timeout has elapsed. -/
theorem voice_callback_gate_fires (e : Env) (ev : voice_event_t) (r : voice_result_t)
    (text : CStr) (ctx : asr_context_t)
    (hcb : ctx.cb.isSome = true) (hf : ctx.is_send_finished = false)
    (hs : ctx.state ≠ ASR_STATE_CLOSE) (hr : r.result = some text)
    (ht : ctx.last_result = text) (h0 : ctx.last_result_time ≠ 0)
    (hfire : e.now - ctx.last_result_time > ctx.silence_timeout * 1000) :
    ai_asr_voice_callback e ev (some r) ctx =
      ({ ctx with is_send_finished := true, handle := none, focus_handle := none },
        (ai_asr_finish_handler e ctx).2.2 ++
          ai_asr_send_callback
            { ctx with is_send_finished := true, handle := none, focus_handle := none }
            voice_event_complete none) := by
  have hcb2 : ctx.cb.isNone = false := by
    cases h : ctx.cb <;> simp_all
  simp [ai_asr_voice_callback, ai_asr_voice_callback_null, voice_callback_publish, hcb2, hf, hs,
    hr, ht, h0, hfire, finish_handler_ctx]

/-- The callback passed its guards and the gate does not fire: the incoming
event is published with its payload; the dedup record is overwritten with the
truncated text and the clock reading exactly when the text differs from the
recorded one or no time stamp is set. -/
theorem voice_callback_gate_idle (e : Env) (ev : voice_event_t) (r : voice_result_t)
    (text : CStr) (ctx : asr_context_t)
    (hcb : ctx.cb.isSome = true) (hf : ctx.is_send_finished = false)
    (hs : ctx.state ≠ ASR_STATE_CLOSE) (hr : r.result = some text)
    (hidle : ¬ (ctx.last_result = text ∧ ctx.last_result_time ≠ 0 ∧
      e.now - ctx.last_result_time > ctx.silence_timeout * 1000)) :
    ai_asr_voice_callback e ev (some r) ctx =
      voice_callback_publish e ev (some (copy_result r))
        (if ctx.last_result ≠ text ∨ ctx.last_result_time = 0 then
          { ctx with last_result := strlcpy text LAST_RESULT_SIZE, last_result_time := e.now }
         else ctx) := by
  have hcb2 : ctx.cb.isNone = false := by
    cases h : ctx.cb <;> simp_all
  simp only [ai_asr_voice_callback, hcb2, hf, hs, hr, hidle]
  simp only [Bool.false_eq_true, if_false, false_or]
  split_ifs <;> rfl

/-- A callback stopped by its guards (no listener, terminal already sent, or
session CLOSED) changes nothing and makes no outside call. -/
theorem voice_callback_guarded (e : Env) (ev : voice_event_t) (res : Option voice_result_t)
    (ctx : asr_context_t)
    (h : ctx.cb.isSome = false ∨ ctx.is_send_finished = true ∨ ctx.state = ASR_STATE_CLOSE) :
    ai_asr_voice_callback e ev res ctx = (ctx, []) := by
  have key : ctx.cb.isNone = true ∨ (ctx.is_send_finished = true ∨ ctx.state = ASR_STATE_CLOSE) := by
    rcases h with h | h | h
    · left; cases hc : ctx.cb <;> simp_all
    · right; left; exact h
    · right; right; exact h
  cases res with
  | none =>
    simp only [ai_asr_voice_callback, ai_asr_voice_callback_null]
    rcases key with k | k
    · simp [k]
    · by_cases k2 : ctx.cb.isNone = true
      · simp [k2]
      · simp [k2, k]
  | some r =>
    simp only [ai_asr_voice_callback]
    rcases key with k | k
    · simp [k]
    · by_cases k2 : ctx.cb.isNone = true
      · simp [k2]
      · simp [k2, k]

/-- An event that carries no text leaves the dedup record alone and publishes
at most itself. -/
theorem voice_callback_no_text (e : Env) (ev : voice_event_t) (res : Option voice_result_t)
    (ctx : asr_context_t) (h : ∀ r, res = some r → r.result = none) :
    (ai_asr_voice_callback e ev res ctx).1.last_result = ctx.last_result ∧
    (ai_asr_voice_callback e ev res ctx).1.last_result_time = ctx.last_result_time ∧
    (ai_asr_voice_callback e ev res ctx = (ctx, []) ∨
      messages (ai_asr_voice_callback e ev res ctx).2 = [⟨ev, res.map copy_result⟩]) := by
  by_cases hg : ctx.cb.isSome = false ∨ ctx.is_send_finished = true ∨ ctx.state = ASR_STATE_CLOSE
  · rw [voice_callback_guarded e ev res ctx hg]
    exact ⟨rfl, rfl, Or.inl rfl⟩
  · push_neg at hg
    obtain ⟨h1, h2, h3⟩ := hg
    have hcb2 : ctx.cb.isNone = false := by
      cases hc : ctx.cb <;> simp_all
    have hpub : ai_asr_voice_callback e ev res ctx =
        voice_callback_publish e ev (res.map copy_result) ctx := by
      cases res with
      | none => simp [ai_asr_voice_callback, ai_asr_voice_callback_null, hcb2, h2, h3]
      | some r => simp [ai_asr_voice_callback, hcb2, h2, h3, h r rfl]
    rw [hpub]
    exact ⟨(publish_dedup _ _ _ _).1, (publish_dedup _ _ _ _).2, Or.inr (messages_publish _ _ _ _)⟩

/-- The dedup record after a callback that carries a text, written without the
event kind. -/
theorem voice_callback_dedup (e : Env) (ev : voice_event_t) (r : voice_result_t)
    (text : CStr) (ctx : asr_context_t) (hr : r.result = some text) :
    (ai_asr_voice_callback e ev (some r) ctx).1.last_result =
      (if (ctx.cb.isSome = true ∧ ctx.is_send_finished = false ∧ ctx.state ≠ ASR_STATE_CLOSE) ∧
          (ctx.last_result ≠ text ∨ ctx.last_result_time = 0)
        then strlcpy text LAST_RESULT_SIZE else ctx.last_result) ∧
    (ai_asr_voice_callback e ev (some r) ctx).1.last_result_time =
      (if (ctx.cb.isSome = true ∧ ctx.is_send_finished = false ∧ ctx.state ≠ ASR_STATE_CLOSE) ∧
          (ctx.last_result ≠ text ∨ ctx.last_result_time = 0)
        then e.now else ctx.last_result_time) := by
  by_cases hg : ctx.cb.isSome = false ∨ ctx.is_send_finished = true ∨ ctx.state = ASR_STATE_CLOSE
  · rw [voice_callback_guarded e ev _ ctx hg]
    have : ¬ (ctx.cb.isSome = true ∧ ctx.is_send_finished = false ∧
        ctx.state ≠ ASR_STATE_CLOSE) := by
      rintro ⟨a, b, c⟩
      rcases hg with hg | hg | hg <;> simp_all
    simp [this]
  · push_neg at hg
    obtain ⟨h1, h2, h3⟩ := hg
    have h1' : ctx.cb.isSome = true := by
      cases hc : ctx.cb.isSome <;> simp_all
    have h2' : ctx.is_send_finished = false := by simpa using h2
    by_cases hfire : ctx.last_result = text ∧ ctx.last_result_time ≠ 0 ∧
        e.now - ctx.last_result_time > ctx.silence_timeout * 1000
    · rw [voice_callback_gate_fires e ev r text ctx h1' h2' h3 hr hfire.1 hfire.2.1 hfire.2.2]
      have : ¬ (ctx.last_result ≠ text ∨ ctx.last_result_time = 0) := by
        simp [hfire.1, hfire.2.1]
      simp [this]
    · rw [voice_callback_gate_idle e ev r text ctx h1' h2' h3 hr hfire]
      by_cases hup : ctx.last_result ≠ text ∨ ctx.last_result_time = 0
      · simp only [if_pos hup, (publish_dedup _ _ _ _).1, (publish_dedup _ _ _ _).2]
        simp [h1', h2', h3, hup]
      · simp only [if_neg hup, (publish_dedup _ _ _ _).1, (publish_dedup _ _ _ _).2]
        simp [hup]

/-- Over a burst of backend events that all carry the recorded text, with a
time stamp set, the dedup record never changes. -/
theorem run_same_text (vs : List (Env × voice_event_t × Option voice_result_t)) :
    ∀ ctx : asr_context_t, ctx.last_result_time ≠ 0 →
      (∀ v ∈ vs, ∃ r, v.2.2 = some r ∧ r.result = some ctx.last_result) →
      (run (backend vs) ctx).1.last_result = ctx.last_result ∧
      (run (backend vs) ctx).1.last_result_time = ctx.last_result_time := by
  induction vs with
  | nil => intro ctx _ _; exact ⟨rfl, rfl⟩
  | cons v rest ih =>
    intro ctx h0 hv
    obtain ⟨r, hr1, hr2⟩ := hv v (List.mem_cons_self _ _)
    have hd := voice_callback_dedup v.1 v.2.1 r ctx.last_result ctx hr2
    have hkeep : ¬ ((ctx.cb.isSome = true ∧ ctx.is_send_finished = false ∧
        ctx.state ≠ ASR_STATE_CLOSE) ∧
        (ctx.last_result ≠ ctx.last_result ∨ ctx.last_result_time = 0)) := by
      simp [h0]
    rw [if_neg hkeep, if_neg hkeep] at hd
    simp only [backend, List.map_cons, run, step, hr1] at ih ⊢
    have ih2 := ih (ai_asr_voice_callback v.1 v.2.1 (some r) ctx).1 (by rw [hd.2]; exact h0)
      (by
        intro w hw
        rw [hd.1]
        exact hv w (List.mem_cons_of_mem _ hw))
    rw [ih2.1, ih2.2, hd.1, hd.2]
    exact ⟨rfl, rfl⟩

/-! ## Creation, capture format and release order -/

theorem map_params_silence_timeout (in_param : asr_init_params_t) (auth : ai_auth_t)
    (out_param : voice_init_params_t) :
    (ai_asr_map_params in_param (some auth) out_param).2.silence_timeout =
      map_silence_timeout in_param.silence_timeout := by
  unfold ai_asr_map_params
  simp only []
  split_ifs
  · cases auth.auth with
    | none => rfl
    | some v =>
      rcases v with ⟨_ | a, _ | k⟩
      · rfl
      · rfl
      · rfl
      · simp only []
        split_ifs <;> rfl
  · rfl

/-- The credential cases of `ai_asr_map_params`: with the supported engine type,
a null credentials pointer, a null or empty `app_id` or a null or empty
`app_key` gives `-EINVAL`. -/
theorem map_params_rejects (in_param : asr_init_params_t) (a : ai_auth_t)
    (out_param : voice_init_params_t)
    (ht : a.engine_type = asr_engine_type_t.asr_engine_type_volc)
    (hbad : ∀ v, a.auth = some v →
      (v.app_id = none ∨ v.app_id = some []) ∨ (v.app_key = none ∨ v.app_key = some [])) :
    (ai_asr_map_params in_param (some a) out_param).1 = -EINVAL := by
  unfold ai_asr_map_params
  simp only [ht, if_true]
  cases ha : a.auth with
  | none => rfl
  | some v =>
    have hb := hbad v ha
    rcases v with ⟨_ | i, _ | k⟩
    · rfl
    · rfl
    · rfl
    · simp only []
      have : i.length = 0 ∨ k.length = 0 := by
        rcases hb with (h | h) | (h | h)
        · simp at h
        · left; simp at h; simp [h]
        · simp at h
        · right; simp at h; simp [h]
      rw [if_pos this]

theorem messages_create_engine_body (ce : CreateEnv) (p : asr_init_params_t) (a : ai_auth_t) :
    messages (create_engine_body ce p a).2 = [] := by
  unfold create_engine_body
  simp only []
  cases ce.plugin_init with
  | none => split_ifs <;> simp [messages, Effect.published]
  | some g =>
    cases ce.env_loop <;> split_ifs <;> simp [messages, Effect.published]

theorem init_recorder_prepare (e : Env) (ctx : asr_context_t) (h : Nat) (f : Option CStr)
    (hm : Effect.media_uv_recorder_prepare h f ∈ (ai_asr_init_recorder e ctx).2.2) :
    f = ctx.format := by
  unfold ai_asr_init_recorder at hm
  split at hm
  · simp at hm
  · split at hm
    · simp at hm
    · split_ifs at hm
      · simp at hm
      · simp at hm; exact hm.2
      · simp at hm; exact hm.2

theorem init_recorder_format (e : Env) (ctx : asr_context_t) :
    (ai_asr_init_recorder e ctx).2.1.format = ctx.format := by
  unfold ai_asr_init_recorder
  split
  · rfl
  · split
    · rfl
    · split_ifs <;> rfl

theorem voice_callback_start_none (e : Env) (ctx : asr_context_t) :
    ai_asr_voice_callback e voice_event_start none ctx = (ctx, []) ∨
    ai_asr_voice_callback e voice_event_start none ctx =
      (ctx, ai_asr_send_callback ctx voice_event_start none) := by
  rcases voice_callback_none_cases e voice_event_start ctx with h | h
  · left; exact h
  · right; rw [h]; simp [voice_callback_publish]

theorem send_callback_no_prepare (ctx : asr_context_t) (ev : voice_event_t)
    (res : Option asr_result_t) (h : Nat) (f : Option CStr) :
    Effect.media_uv_recorder_prepare h f ∉ ai_asr_send_callback ctx ev res := by
  unfold ai_asr_send_callback ai_asr_callback_l
  split_ifs <;> simp

theorem start_l_capture_prepare (e : Env) (ctx : asr_context_t) (h : Nat) (f : Option CStr)
    (hm : Effect.media_uv_recorder_prepare h f ∈ (start_l_capture e ctx).2.2) :
    f = ctx.format := by
  unfold start_l_capture at hm
  by_cases h1 : e.plugin_start_ret < 0
  · simp [h1] at hm
  by_cases h2 : (ai_asr_init_recorder e ctx).1 < 0
  · simp [h1, h2] at hm
    exact init_recorder_prepare e ctx h f hm
  by_cases h3 : e.recorder_start_ret < 0
  · simp [h1, h2, h3] at hm
    exact init_recorder_prepare e ctx h f hm
  · simp only [h1, h2, h3, if_false] at hm
    rcases voice_callback_start_none e (ai_asr_init_recorder e ctx).2.1 with hv | hv
    · rw [hv] at hm
      simp at hm
      exact init_recorder_prepare e ctx h f hm
    · rw [hv] at hm
      simp only [List.cons_append, List.mem_cons, List.mem_append, List.mem_singleton] at hm
      have hno := send_callback_no_prepare (ai_asr_init_recorder e ctx).2.1 voice_event_start
        none h f
      rcases hm with hm | (hm | hm) | hm
      · cases hm
      · exact init_recorder_prepare e ctx h f hm
      · simp at hm
      · exact absurd hm hno

theorem voice_callback_publish_format (e : Env) (ev : voice_event_t)
    (res : Option asr_result_t) (ctx : asr_context_t) :
    (voice_callback_publish e ev res ctx).1.format = ctx.format := by
  unfold voice_callback_publish
  split_ifs <;> rfl

theorem start_l_capture_format (e : Env) (ctx : asr_context_t) :
    (start_l_capture e ctx).2.1.format = ctx.format := by
  unfold start_l_capture
  by_cases h1 : e.plugin_start_ret < 0
  · simp [h1]
  by_cases h2 : (ai_asr_init_recorder e ctx).1 < 0
  · simp [h1, h2, init_recorder_format]
  by_cases h3 : e.recorder_start_ret < 0
  · simp [h1, h2, h3, init_recorder_format]
  · simp only [h1, h2, h3, if_false]
    rcases voice_callback_start_none e (ai_asr_init_recorder e ctx).2.1 with hv | hv <;>
      rw [hv] <;> exact init_recorder_format e ctx

/-- The format `ai_asr_start_l` tries to store, for the message `ai_asr_start`
builds, is the format the spec describes. -/
theorem start_l_format_spec (send_ret : Int) (e : Env) (ctx : asr_context_t)
    (audio_info : Option asr_audio_info_t) (msg : message_data_start_t)
    (hmsg : (ai_asr_start send_ret ctx audio_info).2 = some msg) :
    start_l_format e msg.audio_info.format ctx =
      ai_asr_create_format e ctx
        (spec_capture_format e.force_format audio_info e.env_format) := by
  unfold ai_asr_start at hmsg
  split_ifs at hmsg
  simp only [Option.some.injEq] at hmsg
  subst hmsg
  · unfold start_l_format spec_capture_format
    cases audio_info with
    | none => simp
    | some a =>
      rcases a with ⟨v, _ | f⟩
      · simp
      · cases hforce : e.force_format
        · by_cases hl : f = []
          · simp [hl]
          · have : 0 < f.length := List.length_pos.mpr hl
            simp [hl, this]
        · simp

/-- In a list made of unpublished effects, one published effect and unpublished
effects again, the published effect splits the list in one way only. -/
theorem split_at_published (A R pre post : List Effect) (s p : Effect)
    (hA : ∀ x ∈ A, x.published = none) (hR : ∀ x ∈ R, x.published = none)
    (hp : p.published ≠ none)
    (h : A ++ s :: R = pre ++ p :: post) : pre = A ∧ p = s ∧ post = R := by
  induction A generalizing pre with
  | nil =>
    cases pre with
    | nil =>
      simp only [List.nil_append, List.cons.injEq] at h
      exact ⟨rfl, h.1.symm, h.2.symm⟩
    | cons x pre' =>
      simp only [List.nil_append, List.cons_append, List.cons.injEq] at h
      have : p ∈ R := by rw [h.2]; simp
      exact absurd (hR p this) hp
  | cons a A' ih =>
    cases pre with
    | nil =>
      simp only [List.nil_append, List.cons_append, List.cons.injEq] at h
      have := hA a (List.mem_cons_self _ _)
      rw [h.1] at this
      exact absurd this hp
    | cons x pre' =>
      simp only [List.cons_append, List.cons.injEq] at h
      obtain ⟨r1, r2, r3⟩ := ih pre' (fun y hy => hA y (List.mem_cons_of_mem _ hy)) h.2
      exact ⟨by rw [h.1, r1], r2, r3⟩

/-- What `ai_asr_send_callback` does: one published effect, then unpublished
ones. -/
theorem send_callback_shape (ctx : asr_context_t) (ev : voice_event_t)
    (res : Option asr_result_t) :
    ∃ s R, ai_asr_send_callback ctx ev res = s :: R ∧ s.published = some ⟨ev, res⟩ ∧
      ∀ x ∈ R, x.published = none := by
  unfold ai_asr_send_callback ai_asr_callback_l
  by_cases hu : ctx.user_loop = true
  · exact ⟨Effect.queue_send ⟨ev, res⟩, [], by simp [hu], rfl, by simp⟩
  · refine ⟨Effect.callback_inline ⟨ev, res⟩, _, by simp only [hu, if_false]; rfl, rfl, ?_⟩
    intro x hx
    simp only [List.mem_append] at hx
    rcases hx with hx | hx <;> split_ifs at hx <;> simp_all [Effect.published]

theorem finish_handler_unpublished (e : Env) (ctx : asr_context_t) :
    ∀ x ∈ (ai_asr_finish_handler e ctx).2.2, x.published = none := by
  intro x hx
  unfold ai_asr_finish_handler at hx
  simp only [List.mem_append] at hx
  rcases hx with (hx | hx) | hx
  · cases hh : ctx.handle <;> simp [hh] at hx
    subst hx; rfl
  · cases hh : ctx.focus_handle <;> simp [hh] at hx
    subst hx; rfl
  · split_ifs at hx <;> simp at hx
    subst hx; rfl

theorem finish_handler_no_acquire (e : Env) (ctx : asr_context_t) :
    Effect.media_uv_recorder_open ∉ (ai_asr_finish_handler e ctx).2.2 ∧
    Effect.media_focus_request ∉ (ai_asr_finish_handler e ctx).2.2 := by
  unfold ai_asr_finish_handler
  cases ctx.handle <;> cases ctx.focus_handle <;> cases ctx.engine <;> simp

theorem finish_handler_releases (e : Env) (ctx : asr_context_t) :
    (∀ h, ctx.handle = some h →
      Effect.media_uv_recorder_close (some h) ∈ (ai_asr_finish_handler e ctx).2.2) ∧
    (∀ f, ctx.focus_handle = some f →
      Effect.media_focus_abandon f ∈ (ai_asr_finish_handler e ctx).2.2) := by
  constructor
  · intro h hh; simp [ai_asr_finish_handler, hh]
  · intro f hf; simp [ai_asr_finish_handler, hf]

/-- The outcome of a handler has the shape `released`: either no terminal event
is published, or the effects are unpublished effects `A`, one published effect
and unpublished effects again, where `A` holds the releases of what was held at
entry and no acquisition, and both handles are cleared afterwards. -/
theorem released_of_shape (ctx : asr_context_t) (out : asr_context_t × List Effect)
    (h : (∀ x ∈ out.2, ∀ m, x.published = some m → m.event.terminal = false) ∨
      ∃ A s R, out.2 = A ++ s :: R ∧ (∀ x ∈ A, x.published = none) ∧
        (∀ x ∈ R, x.published = none) ∧
        (∀ h, ctx.handle = some h → Effect.media_uv_recorder_close (some h) ∈ A) ∧
        (∀ f, ctx.focus_handle = some f → Effect.media_focus_abandon f ∈ A) ∧
        Effect.media_uv_recorder_open ∉ A ∧ Effect.media_focus_request ∉ A ∧
        out.1.handle = none ∧ out.1.focus_handle = none) :
    released_before_terminal ctx out := by
  intro pre p post m hsplit hp hm
  rcases h with h | ⟨A, s, R, hfx, hA, hR, h1, h2, h3, h4, h5, h6⟩
  · have := h p (by rw [hsplit]; simp) m hp
    rw [hm] at this
    cases this
  · rw [hfx] at hsplit
    obtain ⟨rfl, -, -⟩ := split_at_published A R pre post s p hA hR (by rw [hp]; simp) hsplit
    exact ⟨h1, h2, h3, h4, h5, h6⟩

theorem publish_shape (e : Env) (ev : voice_event_t) (res : Option asr_result_t)
    (c : asr_context_t) :
    (∀ x ∈ (voice_callback_publish e ev res c).2, ∀ m, x.published = some m →
        m.event.terminal = false) ∨
      ∃ A s R, (voice_callback_publish e ev res c).2 = A ++ s :: R ∧
        (∀ x ∈ A, x.published = none) ∧ (∀ x ∈ R, x.published = none) ∧
        (∀ h, c.handle = some h → Effect.media_uv_recorder_close (some h) ∈ A) ∧
        (∀ f, c.focus_handle = some f → Effect.media_focus_abandon f ∈ A) ∧
        Effect.media_uv_recorder_open ∉ A ∧ Effect.media_focus_request ∉ A ∧
        (voice_callback_publish e ev res c).1.handle = none ∧
        (voice_callback_publish e ev res c).1.focus_handle = none := by
  unfold voice_callback_publish
  by_cases ht : ev = voice_event_complete ∨ ev = voice_event_error
  · right
    simp only [ht, if_true]
    obtain ⟨s, R, hs, -, hR⟩ := send_callback_shape
      ({ (ai_asr_finish_handler e c).2.1 with is_send_finished := true }) ev res
    exact ⟨(ai_asr_finish_handler e c).2.2, s, R, by rw [hs],
      finish_handler_unpublished e c, hR, (finish_handler_releases e c).1,
      (finish_handler_releases e c).2, (finish_handler_no_acquire e c).1,
      (finish_handler_no_acquire e c).2, rfl, rfl⟩
  · left
    simp only [ht, if_false]
    obtain ⟨s, R, hs, hsp, hR⟩ := send_callback_shape c ev res
    intro x hx m hxm
    rw [hs] at hx
    rcases List.mem_cons.mp hx with hx | hx
    · subst hx
      rw [hsp] at hxm
      cases hxm
      simp only [voice_event_t.terminal]
      simpa using ht
    · rw [hR x hx] at hxm
      cases hxm

/-- Every outcome of `ai_asr_voice_callback` is the untouched context with no
effect, or the outcome of lines 450-456 on a context that holds the same
handles as at entry, up to the latch. -/
theorem voice_callback_via_publish (e : Env) (ev : voice_event_t)
    (res : Option voice_result_t) (ctx : asr_context_t) :
    ai_asr_voice_callback e ev res ctx = (ctx, []) ∨
    ∃ ev2 res2 c, c.handle = ctx.handle ∧ c.focus_handle = ctx.focus_handle ∧
      (ai_asr_voice_callback e ev res ctx).2 = (voice_callback_publish e ev2 res2 c).2 ∧
      (ai_asr_voice_callback e ev res ctx).1.handle =
        (voice_callback_publish e ev2 res2 c).1.handle ∧
      (ai_asr_voice_callback e ev res ctx).1.focus_handle =
        (voice_callback_publish e ev2 res2 c).1.focus_handle := by
  by_cases hg : ctx.cb.isSome = false ∨ ctx.is_send_finished = true ∨ ctx.state = ASR_STATE_CLOSE
  · left; exact voice_callback_guarded e ev res ctx hg
  · right
    push_neg at hg
    obtain ⟨h1, h2, h3⟩ := hg
    have h1' : ctx.cb.isSome = true := by
      cases hc : ctx.cb.isSome <;> simp_all
    have h2' : ctx.is_send_finished = false := by simpa using h2
    have hcb2 : ctx.cb.isNone = false := by
      cases hc : ctx.cb <;> simp_all
    cases res with
    | none =>
      refine ⟨ev, none, ctx, rfl, rfl, ?_⟩
      simp [ai_asr_voice_callback, ai_asr_voice_callback_null, hcb2, h2', h3]
    | some r =>
      cases hr : r.result with
      | none =>
        refine ⟨ev, some (copy_result r), ctx, rfl, rfl, ?_⟩
        simp [ai_asr_voice_callback, hcb2, h2', h3, hr]
      | some text =>
        by_cases hfire : ctx.last_result = text ∧ ctx.last_result_time ≠ 0 ∧
            e.now - ctx.last_result_time > ctx.silence_timeout * 1000
        · refine ⟨voice_event_complete, none, ctx, rfl, rfl, ?_⟩
          rw [voice_callback_gate_fires e ev r text ctx h1' h2' h3 hr hfire.1 hfire.2.1
            hfire.2.2]
          simp [voice_callback_publish, finish_handler_ctx]
        · rw [voice_callback_gate_idle e ev r text ctx h1' h2' h3 hr hfire]
          refine ⟨ev, some (copy_result r), _, ?_, ?_, rfl, rfl, rfl⟩
          · split_ifs <;> rfl
          · split_ifs <;> rfl

theorem voice_callback_released (e : Env) (ev : voice_event_t)
    (res : Option voice_result_t) (ctx : asr_context_t) :
    (∀ x ∈ (ai_asr_voice_callback e ev res ctx).2, ∀ m, x.published = some m →
        m.event.terminal = false) ∨
      ∃ A s R, (ai_asr_voice_callback e ev res ctx).2 = A ++ s :: R ∧
        (∀ x ∈ A, x.published = none) ∧ (∀ x ∈ R, x.published = none) ∧
        (∀ h, ctx.handle = some h → Effect.media_uv_recorder_close (some h) ∈ A) ∧
        (∀ f, ctx.focus_handle = some f → Effect.media_focus_abandon f ∈ A) ∧
        Effect.media_uv_recorder_open ∉ A ∧ Effect.media_focus_request ∉ A ∧
        (ai_asr_voice_callback e ev res ctx).1.handle = none ∧
        (ai_asr_voice_callback e ev res ctx).1.focus_handle = none := by
  rcases voice_callback_via_publish e ev res ctx with h | ⟨ev2, res2, c, hh, hf, h2, h3, h4⟩
  · left; rw [h]; intro x hx; simp at hx
  · rw [h2, h3, h4, ← hh, ← hf]
    exact publish_shape e ev2 res2 c

theorem no_terminal_of_terminals_zero (fx : List Effect) (h : terminals fx = 0) :
    ∀ x ∈ fx, ∀ m, x.published = some m → m.event.terminal = false := by
  intro x hx m hm
  by_contra hc
  have ht : m.event.terminal = true := by simpa using hc
  have hmem : m.event ∈ events fx := by
    simp only [events, List.mem_map, List.mem_filterMap]
    exact ⟨m, ⟨x, hx, hm⟩, rfl⟩
  have : m.event ∈ (events fx).filter voice_event_t.terminal :=
    List.mem_filter.mpr ⟨hmem, ht⟩
  unfold terminals at h
  rw [List.length_eq_zero] at h
  rw [h] at this
  simp at this

/-- Teardown followed by a `complete` handed to `ai_asr_voice_callback`, as in
`ai_asr_finish_l` and `ai_asr_focus_callback`. -/
theorem finish_then_complete_released (e : Env) (c0 : asr_context_t) :
    (∀ x ∈ (ai_asr_finish_handler e c0).2.2 ++
          (ai_asr_voice_callback e voice_event_complete none
            (ai_asr_finish_handler e c0).2.1).2,
        ∀ m, x.published = some m → m.event.terminal = false) ∨
      ∃ A s R, (ai_asr_finish_handler e c0).2.2 ++
          (ai_asr_voice_callback e voice_event_complete none
            (ai_asr_finish_handler e c0).2.1).2 = A ++ s :: R ∧
        (∀ x ∈ A, x.published = none) ∧ (∀ x ∈ R, x.published = none) ∧
        (∀ h, c0.handle = some h → Effect.media_uv_recorder_close (some h) ∈ A) ∧
        (∀ f, c0.focus_handle = some f → Effect.media_focus_abandon f ∈ A) ∧
        Effect.media_uv_recorder_open ∉ A ∧ Effect.media_focus_request ∉ A ∧
        (ai_asr_voice_callback e voice_event_complete none
          (ai_asr_finish_handler e c0).2.1).1.handle = none ∧
        (ai_asr_voice_callback e voice_event_complete none
          (ai_asr_finish_handler e c0).2.1).1.focus_handle = none := by
  rcases voice_callback_released e voice_event_complete none (ai_asr_finish_handler e c0).2.1
    with h | ⟨A, s, R, hfx, hA, hR, -, -, h3, h4, h5, h6⟩
  · left
    intro x hx m hm
    rcases List.mem_append.mp hx with hx | hx
    · rw [finish_handler_unpublished e c0 x hx] at hm
      cases hm
    · exact h x hx m hm
  · right
    refine ⟨(ai_asr_finish_handler e c0).2.2 ++ A, s, R, by rw [hfx, List.append_assoc], ?_,
      hR, ?_, ?_, ?_, ?_, h5, h6⟩
    · intro x hx
      rcases List.mem_append.mp hx with hx | hx
      · exact finish_handler_unpublished e c0 x hx
      · exact hA x hx
    · intro h hh
      exact List.mem_append_left _ ((finish_handler_releases e c0).1 h hh)
    · intro f hf
      exact List.mem_append_left _ ((finish_handler_releases e c0).2 f hf)
    · intro hm
      rcases List.mem_append.mp hm with hm | hm
      · exact (finish_handler_no_acquire e c0).1 hm
      · exact h3 hm
    · intro hm
      rcases List.mem_append.mp hm with hm | hm
      · exact (finish_handler_no_acquire e c0).2 hm
      · exact h4 hm

/-- Every turn of the engine loop releases capture before it publishes a
terminal event. -/
theorem step_released (e : Env) (i : Input) (ctx : asr_context_t) :
    released_before_terminal ctx (step e i ctx) := by
  apply released_of_shape
  cases i with
  | start af =>
    left
    exact no_terminal_of_terminals_zero _ (terminals_start_l e af ctx)
  | set_listener cb cookie =>
    left
    simp only [step, ai_asr_set_listener_l]
    split_ifs <;> simp [Effect.published]
  | finish =>
    simp only [step, ai_asr_finish_l]
    by_cases hs : ctx.state = ASR_STATE_START
    · simp only [hs, ne_eq, not_true_eq_false, if_false]
      exact finish_then_complete_released e { ctx with state := ASR_STATE_FINISH }
    · left; simp [hs]
  | cancel =>
    left
    simp only [step, ai_asr_cancel_l]
    split_ifs
    · simp
    · intro x hx m hm
      rw [finish_handler_unpublished e _ x hx] at hm
      cases hm
  | close =>
    left
    apply no_terminal_of_terminals_zero
    simp only [step, ai_asr_close_l, ai_asr_close_handler]
    split_ifs <;> simp [terminals_nil, terminals_of_events _ _ (events_send_callback _ _ _),
      voice_event_t.terminal]
  | voice ev res => exact voice_callback_released e ev res ctx
  | focus s =>
    simp only [step, ai_asr_focus_callback]
    by_cases hs : s ≠ MEDIA_FOCUS_PLAY
    · rw [if_pos hs]
      exact finish_then_complete_released e ctx
    · rw [if_neg hs]
      left; simp
  | recorder_open_cb ret =>
    simp only [step, media_recorder_open_cb, ai_asr_send_error]
    split_ifs
    · exact voice_callback_released _ _ _ _
    · left; simp
  | recorder_prepare_connect_cb ret obj =>
    simp only [step, media_recorder_prepare_connect_cb, ai_asr_send_error]
    split_ifs
    · exact voice_callback_released _ _ _ _
    · left; simp [Effect.published]
  | recorder_start_cb ret =>
    simp only [step, media_recorder_start_cb, ai_asr_send_error]
    split_ifs
    · exact voice_callback_released _ _ _ _
    · left; simp
  | recorder_event ret =>
    simp only [step, media_recorder_event_callback, ai_asr_send_error]
    split_ifs
    · exact voice_callback_released _ _ _ _
    · left; simp
  | recorder_close_cb =>
    left
    apply no_terminal_of_terminals_zero
    simp only [step, media_recorder_close_cb, ai_asr_close_handler]
    split_ifs <;> simp [terminals_nil, terminals_of_events _ _ (events_send_callback _ _ _),
      voice_event_t.terminal]

/-- The error kind a listener can ever see in a message published by
`ai_asr_voice_callback` is `asr_error_success` or `asr_error_failed`. -/
theorem copy_result_error_kind (r : voice_result_t) :
    (copy_result r).error_code = asr_error_t.asr_error_success ∨
    (copy_result r).error_code = asr_error_t.asr_error_failed := by
  unfold copy_result
  by_cases h : r.error_code = 0 <;> simp [h]

/-- A handle returned by the creation is the session `created` describes, with
the loop and queue of the plugin and the clamped silence timeout. -/
theorem create_engine_body_created (ce : CreateEnv) (p : asr_init_params_t) (a : ai_auth_t)
    (ctx : asr_context_t) (h : (create_engine_body ce p a).1 = some ctx) :
    ∃ eng l, ce.plugin_init = some eng ∧ ce.env_loop = some l ∧
      ctx = { created eng p.loop.isSome (map_silence_timeout p.silence_timeout) with
              loop := some l, asyncq := ce.env_asyncq } := by
  unfold create_engine_body at h
  simp only [] at h
  cases hp : ce.plugin_init with
  | none =>
    rw [hp] at h
    split_ifs at h
  | some eng =>
    cases hl : ce.env_loop with
    | none =>
      rw [hp, hl] at h
      split_ifs at h
    | some l =>
      rw [hp, hl] at h
      refine ⟨eng, l, rfl, rfl, ?_⟩
      split_ifs at h <;> simp only [Option.some.injEq, reduceCtorEq] at h <;>
        (rw [← h, map_params_silence_timeout]; rfl)

/-! ## Focus loss, null listener, marshalling, repeated teardown, long transcripts -/

/-- Focus loss on a session that passes the guards of the callback: the
teardown runs, then `complete` is published through lines 450-456, which run
the teardown once more on the cleared handles. -/
theorem focus_callback_loss (e : Env) (s : Int) (ctx : asr_context_t)
    (hs : s ≠ MEDIA_FOCUS_PLAY) (hcb : ctx.cb.isSome = true)
    (hf : ctx.is_send_finished = false) (hst : ctx.state ≠ ASR_STATE_CLOSE) :
    ai_asr_focus_callback e s ctx =
      ({ ctx with handle := none, focus_handle := none, is_send_finished := true },
        (ai_asr_finish_handler e ctx).2.2 ++
          ((if ctx.engine.isSome then [Effect.plugin_finish] else []) ++
            ai_asr_send_callback
              { ctx with handle := none, focus_handle := none, is_send_finished := true }
              voice_event_complete none)) := by
  have hcb2 : ctx.cb.isNone = false := by
    cases h : ctx.cb <;> simp_all
  simp [ai_asr_focus_callback, hs, ai_asr_voice_callback, ai_asr_voice_callback_null,
    voice_callback_publish, ai_asr_finish_handler, hcb2, hf, hst]

theorem count_finish_handler_close (e : Env) (ctx : asr_context_t) (h : Nat)
    (hh : ctx.handle = some h) :
    (ai_asr_finish_handler e ctx).2.2.count (Effect.media_uv_recorder_close (some h)) = 1 := by
  unfold ai_asr_finish_handler
  cases hf : ctx.focus_handle <;> cases he : ctx.engine <;> simp [hh]

theorem count_finish_handler_abandon (e : Env) (ctx : asr_context_t) (f : Nat)
    (hh : ctx.focus_handle = some f) :
    (ai_asr_finish_handler e ctx).2.2.count (Effect.media_focus_abandon f) = 1 := by
  unfold ai_asr_finish_handler
  cases hf : ctx.handle <;> cases he : ctx.engine <;> simp [hh]

theorem count_send_callback_close (ctx : asr_context_t) (ev : voice_event_t)
    (res : Option asr_result_t) (h : Option Nat) :
    (ai_asr_send_callback ctx ev res).count (Effect.media_uv_recorder_close h) = 0 := by
  unfold ai_asr_send_callback ai_asr_callback_l
  split_ifs <;> simp

theorem count_send_callback_abandon (ctx : asr_context_t) (ev : voice_event_t)
    (res : Option asr_result_t) (f : Nat) :
    (ai_asr_send_callback ctx ev res).count (Effect.media_focus_abandon f) = 0 := by
  unfold ai_asr_send_callback ai_asr_callback_l
  split_ifs <;> simp

theorem focus_callback_state (e : Env) (s : Int) (ctx : asr_context_t) :
    (ai_asr_focus_callback e s ctx).1.state = ctx.state := by
  unfold ai_asr_focus_callback
  split_ifs
  · simp only [voice_callback_state, finish_handler_ctx]
  · rfl

theorem send_error_state (e : Env) (err : asr_error_t) (ctx : asr_context_t) :
    (ai_asr_send_error e err ctx).1.state = ctx.state := by
  unfold ai_asr_send_error
  exact voice_callback_state _ _ _ _

/-- The state after one turn of the engine loop on a started session: only
the finish and cancel commands change it. -/
theorem step_state_started (e : Env) (i : Input) (ctx : asr_context_t)
    (h : ctx.state = ASR_STATE_START) :
    (step e i ctx).1.state =
      (match i with
       | .finish => ASR_STATE_FINISH
       | .cancel => ASR_STATE_CANCEL
       | _ => ASR_STATE_START) := by
  cases i with
  | set_listener callback cookie =>
    simp only [step, ai_asr_set_listener_l]
    split_ifs <;> simp [h]
  | start af =>
    simp only [step, ai_asr_start_l, h]
    split_ifs <;> simp [h]
  | finish =>
    simp only [step, ai_asr_finish_l, h]
    simp [voice_callback_state, finish_handler_ctx]
  | cancel =>
    simp only [step, ai_asr_cancel_l, h]
    simp [finish_handler_ctx]
  | close =>
    simp [step, ai_asr_close_l, h]
  | voice event result =>
    simp only [step, voice_callback_state, h]
  | focus suggestion =>
    simp only [step, focus_callback_state, h]
  | recorder_open_cb ret =>
    simp only [step, media_recorder_open_cb]
    split_ifs <;> simp [send_error_state, h]
  | recorder_prepare_connect_cb ret obj =>
    simp only [step, media_recorder_prepare_connect_cb]
    split_ifs <;> simp [send_error_state, h]
  | recorder_start_cb ret =>
    simp only [step, media_recorder_start_cb]
    split_ifs <;> simp [send_error_state, h]
  | recorder_event ret =>
    simp only [step, media_recorder_event_callback]
    split_ifs <;> simp [send_error_state, h]
  | recorder_close_cb =>
    simp only [step, media_recorder_close_cb, ai_asr_close_handler]
    split_ifs <;> simp [h]

theorem send_error_guarded (e : Env) (err : asr_error_t) (ctx : asr_context_t)
    (h : ctx.cb.isSome = false ∨ ctx.is_send_finished = true ∨ ctx.state = ASR_STATE_CLOSE) :
    ai_asr_send_error e err ctx = (ctx, []) := by
  unfold ai_asr_send_error
  exact voice_callback_guarded _ _ _ _ h

theorem listener_calls_finish_handler (e : Env) (ctx : asr_context_t) :
    listener_calls (ai_asr_finish_handler e ctx).2.2 = [] := by
  unfold ai_asr_finish_handler listener_calls
  cases ctx.handle <;> cases ctx.focus_handle <;> cases ctx.engine <;>
    simp [Effect.listener_call]

theorem listener_calls_append (a b : List Effect) :
    listener_calls (a ++ b) = listener_calls a ++ listener_calls b := by
  simp [listener_calls]

theorem queued_append (a b : List Effect) : queued (a ++ b) = queued a ++ queued b := by
  simp [queued]

/-- The host-side handler invokes the listener once with the event and payload
of the message when a listener is set, and not at all otherwise. -/
theorem listener_calls_callback_l (ctx : asr_context_t) (m : message_data_cb_t) :
    listener_calls (ai_asr_callback_l ctx m) = if ctx.cb.isSome then [m] else [] := by
  unfold ai_asr_callback_l listener_calls
  split_ifs <;> simp [Effect.listener_call]

theorem queued_callback_l (ctx : asr_context_t) (m : message_data_cb_t) :
    queued (ai_asr_callback_l ctx m) = [] := by
  unfold ai_asr_callback_l queued
  split_ifs <;> simp [Effect.queued]

theorem send_callback_host (ctx : asr_context_t) (ev : voice_event_t)
    (res : Option asr_result_t) (h : ctx.user_loop = true) :
    ai_asr_send_callback ctx ev res = [Effect.queue_send ⟨ev, res⟩] := by
  simp [ai_asr_send_callback, h]

theorem send_callback_inline (ctx : asr_context_t) (ev : voice_event_t)
    (res : Option asr_result_t) (h : ctx.user_loop = false) :
    ai_asr_send_callback ctx ev res =
      Effect.callback_inline ⟨ev, res⟩ :: ai_asr_callback_l ctx ⟨ev, res⟩ := by
  simp [ai_asr_send_callback, h]

theorem send_callbacks_host (ctx : asr_context_t) (h : ctx.user_loop = true)
    (ms : List message_data_cb_t) :
    listener_calls (send_callbacks ctx ms) = [] ∧ queued (send_callbacks ctx ms) = ms := by
  induction ms with
  | nil => exact ⟨rfl, rfl⟩
  | cons m rest ih =>
    simp only [send_callbacks, listener_calls_append, queued_append, ih.1, ih.2,
      send_callback_host ctx _ _ h]
    exact ⟨rfl, rfl⟩

theorem send_callbacks_inline (ctx : asr_context_t) (h : ctx.user_loop = false)
    (ms : List message_data_cb_t) :
    listener_calls (send_callbacks ctx ms) = (if ctx.cb.isSome then ms else []) ∧
    queued (send_callbacks ctx ms) = [] := by
  induction ms with
  | nil => simp [send_callbacks, listener_calls, queued]
  | cons m rest ih =>
    simp only [send_callbacks, listener_calls_append, queued_append, ih.1, ih.2,
      send_callback_inline ctx _ _ h]
    have h1 : listener_calls (Effect.callback_inline ⟨m.event, m.result⟩ ::
        ai_asr_callback_l ctx ⟨m.event, m.result⟩) = if ctx.cb.isSome then [m] else [] := by
      rw [← listener_calls_callback_l ctx m]
      simp [listener_calls, Effect.listener_call]
    have h2 : queued (Effect.callback_inline ⟨m.event, m.result⟩ ::
        ai_asr_callback_l ctx ⟨m.event, m.result⟩) = [] := by
      rw [← queued_callback_l ctx m]
      simp [queued, Effect.queued]
    rw [h1, h2]
    split_ifs <;> simp

theorem listener_calls_host_loop (ctx : asr_context_t) (queue : List message_data_cb_t) :
    listener_calls (host_loop ctx queue) = if ctx.cb.isSome then queue else [] := by
  induction queue with
  | nil => simp [host_loop, listener_calls]
  | cons m rest ih =>
    simp only [host_loop, ai_asr_async_cb, listener_calls_append, ih, listener_calls_callback_l]
    split_ifs <;> simp

/-- The second of two successive teardowns finds both handles cleared: all it
does is call the plugin's `finish` again. -/
theorem finish_handler_again (e1 e2 : Env) (ctx : asr_context_t) :
    (ai_asr_finish_handler e2 (ai_asr_finish_handler e1 ctx).2.1).2.2 =
      (if ctx.engine.isSome then [Effect.plugin_finish] else []) ∧
    (ai_asr_finish_handler e2 (ai_asr_finish_handler e1 ctx).2.1).2.1 =
      (ai_asr_finish_handler e1 ctx).2.1 := by
  simp [ai_asr_finish_handler]

theorem count_finish_handler_plugin_finish (e : Env) (ctx : asr_context_t) :
    (ai_asr_finish_handler e ctx).2.2.count Effect.plugin_finish =
      if ctx.engine.isSome then 1 else 0 := by
  unfold ai_asr_finish_handler
  cases ctx.handle <;> cases ctx.focus_handle <;> cases ctx.engine <;> simp

theorem count_finish_handler_close_le (e : Env) (ctx : asr_context_t) (h : Option Nat) :
    (ai_asr_finish_handler e ctx).2.2.count (Effect.media_uv_recorder_close h) ≤ 1 := by
  unfold ai_asr_finish_handler
  cases ctx.handle <;> cases ctx.focus_handle <;> cases ctx.engine <;>
    simp [List.count_cons] <;> split_ifs <;> simp

theorem count_finish_handler_abandon_le (e : Env) (ctx : asr_context_t) (f : Nat) :
    (ai_asr_finish_handler e ctx).2.2.count (Effect.media_focus_abandon f) ≤ 1 := by
  unfold ai_asr_finish_handler
  cases ctx.handle <;> cases ctx.focus_handle <;> cases ctx.engine <;>
    simp [List.count_cons] <;> split_ifs <;> simp

theorem strlcpy_length (text : CStr) : (strlcpy text LAST_RESULT_SIZE).length < LAST_RESULT_SIZE := by
  simp only [strlcpy, LAST_RESULT_SIZE, List.length_take]
  omega

/-- A callback that carries a text of 1024 bytes or more, on a session whose
record fits its buffer: the gate cannot fire, because the record is shorter
than the text; past the guards the record is overwritten and the event
published. -/
theorem voice_callback_long_text (e : Env) (ev : voice_event_t) (r : voice_result_t)
    (text : CStr) (ctx : asr_context_t) (hr : r.result = some text)
    (hlen : LAST_RESULT_SIZE ≤ text.length)
    (hbuf : ctx.last_result.length < LAST_RESULT_SIZE) :
    ai_asr_voice_callback e ev (some r) ctx =
      if ctx.cb.isSome = true ∧ ctx.is_send_finished = false ∧ ctx.state ≠ ASR_STATE_CLOSE then
        voice_callback_publish e ev (some (copy_result r))
          { ctx with last_result := strlcpy text LAST_RESULT_SIZE, last_result_time := e.now }
      else (ctx, []) := by
  have hne : ctx.last_result ≠ text := by
    intro h
    rw [h] at hbuf
    omega
  by_cases hg : ctx.cb.isSome = true ∧ ctx.is_send_finished = false ∧ ctx.state ≠ ASR_STATE_CLOSE
  · rw [if_pos hg, voice_callback_gate_idle e ev r text ctx hg.1 hg.2.1 hg.2.2 hr
      (fun h => hne h.1), if_pos (Or.inl hne)]
  · rw [if_neg hg]
    apply voice_callback_guarded
    by_contra hcon
    push_neg at hcon
    apply hg
    refine ⟨?_, ?_, hcon.2.2⟩
    · cases h : ctx.cb.isSome
      · exact absurd h hcon.1
      · rfl
    · cases h : ctx.is_send_finished
      · rfl
      · exact absurd h hcon.2.1

theorem voice_callback_publish_buffer (e : Env) (ev : voice_event_t)
    (res : Option asr_result_t) (ctx : asr_context_t) :
    (voice_callback_publish e ev res ctx).1.last_result = ctx.last_result :=
  (publish_dedup e ev res ctx).1

theorem voice_callback_long_text_buffer (e : Env) (ev : voice_event_t) (r : voice_result_t)
    (text : CStr) (ctx : asr_context_t) (hr : r.result = some text)
    (hlen : LAST_RESULT_SIZE ≤ text.length)
    (hbuf : ctx.last_result.length < LAST_RESULT_SIZE) :
    (ai_asr_voice_callback e ev (some r) ctx).1.last_result.length < LAST_RESULT_SIZE := by
  rw [voice_callback_long_text e ev r text ctx hr hlen hbuf]
  split_ifs
  · rw [voice_callback_publish_buffer]
    exact strlcpy_length text
  · exact hbuf

theorem voice_callback_long_text_messages (e : Env) (ev : voice_event_t) (r : voice_result_t)
    (text : CStr) (ctx : asr_context_t) (hr : r.result = some text)
    (hlen : LAST_RESULT_SIZE ≤ text.length)
    (hbuf : ctx.last_result.length < LAST_RESULT_SIZE) :
    messages (ai_asr_voice_callback e ev (some r) ctx).2 =
      if ctx.cb.isSome = true ∧ ctx.is_send_finished = false ∧ ctx.state ≠ ASR_STATE_CLOSE then
        [⟨ev, some (copy_result r)⟩]
      else [] := by
  rw [voice_callback_long_text e ev r text ctx hr hlen hbuf]
  split_ifs
  · exact messages_publish _ _ _ _
  · rfl

/-- Over a burst of backend events that all carry a text of 1024 bytes or
more, every message published carries a payload: none is the `complete` with a
null payload that the silence gate synthesizes. -/
theorem run_long_text_no_gate (vs : List (Env × voice_event_t × Option voice_result_t)) :
    ∀ ctx : asr_context_t, ctx.last_result.length < LAST_RESULT_SIZE →
      (∀ v ∈ vs, ∃ q t, v.2.2 = some q ∧ q.result = some t ∧ LAST_RESULT_SIZE ≤ t.length) →
      (run (backend vs) ctx).1.last_result.length < LAST_RESULT_SIZE ∧
      ∀ m ∈ messages (run (backend vs) ctx).2, m.result ≠ none := by
  induction vs with
  | nil =>
    intro ctx hbuf _
    exact ⟨hbuf, by simp [backend, run, messages]⟩
  | cons v rest ih =>
    intro ctx hbuf hv
    obtain ⟨q, t, hq, ht, hlen⟩ := hv v (List.mem_cons_self _ _)
    have hb := voice_callback_long_text_buffer v.1 v.2.1 q t ctx ht hlen hbuf
    have hm := voice_callback_long_text_messages v.1 v.2.1 q t ctx ht hlen hbuf
    have ih2 := ih (ai_asr_voice_callback v.1 v.2.1 (some q) ctx).1 hb
      (fun w hw => hv w (List.mem_cons_of_mem _ hw))
    simp only [backend, List.map_cons, run, step, hq, messages_append] at ih2 ⊢
    refine ⟨ih2.1, ?_⟩
    intro m hmem
    rcases List.mem_append.mp hmem with h | h
    · rw [hm] at h
      split_ifs at h
      · simp only [List.mem_singleton] at h
        rw [h]
        simp
      · simp at h
    · exact ih2.2 m h

/-- Over a burst of non-terminal backend events that all carry a text of 1024
bytes or more, on a session that passes the guards, every event is published
with its payload, in order. -/
theorem run_long_text_published (vs : List (Env × voice_event_t × Option voice_result_t)) :
    ∀ ctx : asr_context_t, ctx.last_result.length < LAST_RESULT_SIZE →
      ctx.cb.isSome = true → ctx.is_send_finished = false → ctx.state ≠ ASR_STATE_CLOSE →
      (∀ v ∈ vs, ∃ q t, v.2.2 = some q ∧ q.result = some t ∧ LAST_RESULT_SIZE ≤ t.length) →
      (∀ v ∈ vs, v.2.1.terminal = false) →
      messages (run (backend vs) ctx).2 =
        vs.map (fun v => ⟨v.2.1, v.2.2.map copy_result⟩) := by
  induction vs with
  | nil =>
    intro ctx _ _ _ _ _ _
    simp [backend, run, messages]
  | cons v rest ih =>
    intro ctx hbuf hcb hf hs hv hnt
    obtain ⟨q, t, hq, ht, hlen⟩ := hv v (List.mem_cons_self _ _)
    have hg : ctx.cb.isSome = true ∧ ctx.is_send_finished = false ∧
        ctx.state ≠ ASR_STATE_CLOSE := ⟨hcb, hf, hs⟩
    have hstep := voice_callback_long_text v.1 v.2.1 q t ctx ht hlen hbuf
    rw [if_pos hg] at hstep
    have hterm : ¬ (v.2.1 = voice_event_complete ∨ v.2.1 = voice_event_error) := by
      have := hnt v (List.mem_cons_self _ _)
      simpa [voice_event_t.terminal] using this
    have hpub : voice_callback_publish v.1 v.2.1 (some (copy_result q))
        { ctx with last_result := strlcpy t LAST_RESULT_SIZE, last_result_time := v.1.now } =
        ({ ctx with last_result := strlcpy t LAST_RESULT_SIZE, last_result_time := v.1.now },
          ai_asr_send_callback
            { ctx with last_result := strlcpy t LAST_RESULT_SIZE, last_result_time := v.1.now }
            v.2.1 (some (copy_result q))) := by
      simp only [voice_callback_publish, hterm, if_false]
    rw [hpub] at hstep
    have ih2 := ih
      { ctx with last_result := strlcpy t LAST_RESULT_SIZE, last_result_time := v.1.now }
      (strlcpy_length t) hcb hf hs
      (fun w hw => hv w (List.mem_cons_of_mem _ hw))
      (fun w hw => hnt w (List.mem_cons_of_mem _ hw))
    simp only [backend, List.map_cons, run, step, hq, messages_append, hstep,
      messages_send_callback, Option.map_some'] at ih2 ⊢
    rw [ih2]
    rfl

/-! ## The claims -/

/-- C2 (as stated, refuted): a session that was started and finished is in
FINISHING, one that was started and cancelled is in CANCELLED; on both
`ai_asr_start_l` moves the state back to STARTED, a strictly earlier state in
the lifecycle order. -/
theorem C2_counterexample :
    (run [(env_ok 0, Input.set_listener (some 1) 0), (env_ok 0, Input.start none),
      (env_ok 1, Input.finish)] (created 1 true 3000)).1.state = ASR_STATE_FINISH ∧
    (ai_asr_start_l (env_ok 2) none
      (run [(env_ok 0, Input.set_listener (some 1) 0), (env_ok 0, Input.start none),
        (env_ok 1, Input.finish)] (created 1 true 3000)).1).2.1.state = ASR_STATE_START ∧
    (ai_asr_start_l (env_ok 2) none
      (run [(env_ok 0, Input.set_listener (some 1) 0), (env_ok 0, Input.start none),
        (env_ok 1, Input.finish)] (created 1 true 3000)).1).2.1.state.rank <
      (run [(env_ok 0, Input.set_listener (some 1) 0), (env_ok 0, Input.start none),
        (env_ok 1, Input.finish)] (created 1 true 3000)).1.state.rank ∧
    (run [(env_ok 0, Input.set_listener (some 1) 0), (env_ok 0, Input.start none),
      (env_ok 1, Input.cancel)] (created 1 true 3000)).1.state = ASR_STATE_CANCEL ∧
    (ai_asr_start_l (env_ok 2) none
      (run [(env_ok 0, Input.set_listener (some 1) 0), (env_ok 0, Input.start none),
        (env_ok 1, Input.cancel)] (created 1 true 3000)).1).2.1.state = ASR_STATE_START := by
  decide

/-- C2 (amended): `ai_asr_finish_l`, `ai_asr_cancel_l` and `ai_asr_close_l`
never move the session to a strictly earlier state of the order
INIT < STARTED < {FINISHING, CANCELLED} < CLOSED.  `ai_asr_start_l` either
leaves the state as it is or sets it to STARTED; on a session that is not
CLOSED it sets STARTED exactly when the session is STARTED already or has an
engine and the capture format could be stored, so a session in FINISHING or
CANCELLED can be restarted. -/
theorem C2_state_transitions (e : Env) (af : Option CStr) (ctx : asr_context_t) :
    ctx.state.rank ≤ (ai_asr_finish_l e ctx).2.1.state.rank ∧
    ctx.state.rank ≤ (ai_asr_cancel_l e ctx).2.1.state.rank ∧
    ctx.state.rank ≤ (ai_asr_close_l ctx).2.1.state.rank ∧
    ((ai_asr_start_l e af ctx).2.1.state = ctx.state ∨
      (ai_asr_start_l e af ctx).2.1.state = ASR_STATE_START) ∧
    (ctx.state ≠ ASR_STATE_CLOSE →
      ((ai_asr_start_l e af ctx).2.1.state = ASR_STATE_START ↔
        (ctx.state = ASR_STATE_START ∨
          (ctx.engine.isSome = true ∧ 0 ≤ (start_l_format e af ctx).1)))) := by
  refine ⟨?_, ?_, ?_, ?_, ?_⟩
  · unfold ai_asr_finish_l
    by_cases hs : ctx.state = ASR_STATE_START
    · simp [hs, voice_callback_state, finish_handler_ctx, asr_state_t.rank]
    · simp [hs]
  · unfold ai_asr_cancel_l
    by_cases hs : ctx.state = ASR_STATE_START
    · simp [hs, finish_handler_ctx, asr_state_t.rank]
    · simp [hs]
  · unfold ai_asr_close_l ai_asr_close_handler
    cases hs : ctx.state <;> cases hc : ctx.is_closed <;> simp [asr_state_t.rank, hs, hc]
  · rw [start_l_state]
    split_ifs <;> simp
  · intro _
    rw [start_l_state]
    by_cases h : ctx.engine.isSome = true ∧ 0 ≤ (start_l_format e af ctx).1
    · simp [h]
    · rw [if_neg h]
      simp [h]

/-- C2 (amended) at a concrete input: the finish command moves a started
session forward, and a start command on the finished session sets STARTED
again. -/
theorem C2_state_transitions_witness :
    (run [(env_ok 0, Input.set_listener (some 1) 0), (env_ok 0, Input.start none),
      (env_ok 1, Input.finish)] (created 1 true 3000)).1.state ≠ ASR_STATE_CLOSE ∧
    (ai_asr_start_l (env_ok 2) none
      (run [(env_ok 0, Input.set_listener (some 1) 0), (env_ok 0, Input.start none),
        (env_ok 1, Input.finish)] (created 1 true 3000)).1).2.1.state = ASR_STATE_START :=
  ⟨by decide,
   ((C2_state_transitions (env_ok 2) none
      (run [(env_ok 0, Input.set_listener (some 1) 0), (env_ok 0, Input.start none),
        (env_ok 1, Input.finish)] (created 1 true 3000)).1).2.2.2.2 (by decide)).2
      (Or.inr (by decide))⟩

/-- C3 (failing inputs, evaluated): (1) a session is started, finished, started
again and finished again; the recorder confirmation of the first teardown
arrives after the second start, the close command follows, then the recorder
confirmation of the second teardown arrives: `closed` is published twice.
(2) on a fresh session the close command publishes `closed` and a start command
processed after it publishes `start`. -/
theorem C3_closed_not_last :
    events (run [(env_ok 0, Input.set_listener (some 1) 0), (env_ok 0, Input.start none),
        (env_ok 1, Input.finish),
        ({ env_ok 2 with recorder_open := some 8 }, Input.start none),
        (env_ok 3, Input.recorder_close_cb), (env_ok 4, Input.finish),
        (env_ok 5, Input.close), (env_ok 6, Input.recorder_close_cb)]
        (created 1 true 3000)).2
      = [voice_event_start, voice_event_complete, voice_event_start, voice_event_complete,
         voice_event_closed, voice_event_closed] ∧
    events (run [(env_ok 0, Input.set_listener (some 1) 0), (env_ok 0, Input.close),
        (env_ok 1, Input.start none)] (created 1 true 3000)).2
      = [voice_event_closed, voice_event_start] := by
  decide

/-- C4: between one start command and the next, whatever commands, backend
events, recorder callbacks and focus changes are processed, at most one
`complete` or `error` is published; when one is published the terminal-sent
latch is set afterwards; when the latch is set beforehand none is published and
it stays set; and with the latch set `ai_asr_voice_callback` publishes nothing
and changes nothing.  The start command itself publishes no terminal event. -/
theorem C4_terminal_at_most_once (ins : List (Env × Input)) (ctx : asr_context_t)
    (hins : ∀ x ∈ ins, ∀ af, x.2 ≠ Input.start af) :
    terminals (run ins ctx).2 ≤ 1 ∧
    (terminals (run ins ctx).2 = 1 → (run ins ctx).1.is_send_finished = true) ∧
    (ctx.is_send_finished = true →
      (run ins ctx).1.is_send_finished = true ∧ terminals (run ins ctx).2 = 0) ∧
    (∀ (e : Env) (ev : voice_event_t) (res : Option voice_result_t) (c : asr_context_t),
      c.is_send_finished = true → ai_asr_voice_callback e ev res c = (c, [])) ∧
    (∀ (e : Env) (af : Option CStr) (c : asr_context_t),
      terminals (ai_asr_start_l e af c).2.2 = 0) := by
  obtain ⟨h1, h2, h3⟩ := run_latch ins ctx hins
  exact ⟨h1, h3, h2, fun e ev res c h => voice_callback_latched e ev res c h,
    fun e af c => terminals_start_l e af c⟩

/-- C4 at a concrete input: a started session receives a final transcript, a
backend `complete`, a backend `error`, a recorder error, a focus loss and the
finish command; exactly one terminal event is published. -/
theorem C4_terminal_at_most_once_witness :
    (∀ x ∈ [(env_ok 1, Input.voice voice_event_result (some ⟨some [104, 105], 0, 0⟩)),
        (env_ok 2, Input.voice voice_event_complete none),
        (env_ok 3, Input.voice voice_event_error (some ⟨none, 0, 1⟩)),
        (env_ok 4, Input.recorder_event (-1)), (env_ok 5, Input.focus 1),
        (env_ok 6, Input.finish)], ∀ af, x.2 ≠ Input.start af) ∧
    terminals (run [(env_ok 1, Input.voice voice_event_result (some ⟨some [104, 105], 0, 0⟩)),
        (env_ok 2, Input.voice voice_event_complete none),
        (env_ok 3, Input.voice voice_event_error (some ⟨none, 0, 1⟩)),
        (env_ok 4, Input.recorder_event (-1)), (env_ok 5, Input.focus 1),
        (env_ok 6, Input.finish)]
      (run [(env_ok 0, Input.set_listener (some 1) 0), (env_ok 0, Input.start none)]
        (created 1 true 3000)).1).2 ≤ 1 ∧
    terminals (run [(env_ok 1, Input.voice voice_event_result (some ⟨some [104, 105], 0, 0⟩)),
        (env_ok 2, Input.voice voice_event_complete none),
        (env_ok 3, Input.voice voice_event_error (some ⟨none, 0, 1⟩)),
        (env_ok 4, Input.recorder_event (-1)), (env_ok 5, Input.focus 1),
        (env_ok 6, Input.finish)]
      (run [(env_ok 0, Input.set_listener (some 1) 0), (env_ok 0, Input.start none)]
        (created 1 true 3000)).1).2 = 1 :=
  ⟨by simp, (C4_terminal_at_most_once _ _ (by simp)).1, by decide⟩

/-- C5: on a session in FINISHING or CANCELLED whose close latch is clear, if
the close command runs first it publishes nothing, moves the state to CLOSED
and sets the latch, and the recorder confirmation that follows publishes
exactly one `closed`; if the recorder confirmation runs first it publishes
nothing and only sets the latch, and the close command that follows publishes
exactly one `closed`.  Both orders end in the same session state. -/
theorem C5_two_phase_close (ctx : asr_context_t) (hc : ctx.is_closed = false)
    (hs : ctx.state = ASR_STATE_FINISH ∨ ctx.state = ASR_STATE_CANCEL) :
    ai_asr_close_l ctx = (0, { ctx with state := ASR_STATE_CLOSE, is_closed := true }, []) ∧
    events (media_recorder_close_cb (ai_asr_close_l ctx).2.1).2 = [voice_event_closed] ∧
    (media_recorder_close_cb (ai_asr_close_l ctx).2.1).1 =
      { ctx with state := ASR_STATE_CLOSE, is_closed := true } ∧
    media_recorder_close_cb ctx = ({ ctx with is_closed := true }, []) ∧
    events (ai_asr_close_l (media_recorder_close_cb ctx).1).2.2 = [voice_event_closed] ∧
    (ai_asr_close_l (media_recorder_close_cb ctx).1).2.1 =
      { ctx with state := ASR_STATE_CLOSE, is_closed := true } := by
  have h1 : ai_asr_close_l ctx =
      (0, { ctx with state := ASR_STATE_CLOSE, is_closed := true }, []) := by
    rcases hs with hs | hs <;> simp [ai_asr_close_l, hs, hc]
  have h2 : media_recorder_close_cb ctx = ({ ctx with is_closed := true }, []) := by
    simp [media_recorder_close_cb, hc]
  refine ⟨h1, ?_, ?_, h2, ?_, ?_⟩
  · rw [h1]; simp [media_recorder_close_cb, ai_asr_close_handler, events_send_callback]
  · rw [h1]; simp [media_recorder_close_cb, ai_asr_close_handler]
  · rw [h2]
    rcases hs with hs | hs <;>
      simp [ai_asr_close_l, ai_asr_close_handler, hs, events_send_callback]
  · rw [h2]
    rcases hs with hs | hs <;> simp [ai_asr_close_l, ai_asr_close_handler, hs]

/-- C5 at a concrete input: the session after set-listener, start and finish
(state FINISHING, close latch cleared by the start). -/
theorem C5_two_phase_close_witness :
    (run [(env_ok 0, Input.set_listener (some 1) 0), (env_ok 0, Input.start none),
      (env_ok 1, Input.finish)] (created 1 true 3000)).1.is_closed = false ∧
    events (media_recorder_close_cb (ai_asr_close_l
      (run [(env_ok 0, Input.set_listener (some 1) 0), (env_ok 0, Input.start none),
        (env_ok 1, Input.finish)] (created 1 true 3000)).1).2.1).2 = [voice_event_closed] ∧
    events (ai_asr_close_l (media_recorder_close_cb
      (run [(env_ok 0, Input.set_listener (some 1) 0), (env_ok 0, Input.start none),
        (env_ok 1, Input.finish)] (created 1 true 3000)).1).1).2.2 = [voice_event_closed] :=
  ⟨by decide,
   (C5_two_phase_close _ (by decide) (Or.inl (by decide))).2.1,
   (C5_two_phase_close _ (by decide) (Or.inl (by decide))).2.2.2.2.1⟩

/-- C6: the guarded commands are no-ops.  On a session that has an engine (every
session has one from creation on) `ai_asr_start_l` in STARTED, and on any
session `ai_asr_finish_l` and `ai_asr_cancel_l` outside STARTED and
`ai_asr_close_l` in STARTED or CLOSED, return 0, leave the whole context as it
was and make no outside call, so publish nothing. -/
theorem C6_guards_are_noops (e : Env) (af : Option CStr) (ctx : asr_context_t) :
    (ctx.engine.isSome = true → ctx.state = ASR_STATE_START →
      ai_asr_start_l e af ctx = (0, ctx, [])) ∧
    (∀ (eng : Nat) (ul : Bool) (st : Int) (ins : List (Env × Input)),
      (run ins (created eng ul st)).1.state = ASR_STATE_START →
      ai_asr_start_l e af (run ins (created eng ul st)).1 =
        (0, (run ins (created eng ul st)).1, [])) ∧
    (ctx.state ≠ ASR_STATE_START → ai_asr_finish_l e ctx = (0, ctx, [])) ∧
    (ctx.state ≠ ASR_STATE_START → ai_asr_cancel_l e ctx = (0, ctx, [])) ∧
    (ctx.state = ASR_STATE_START ∨ ctx.state = ASR_STATE_CLOSE →
      ai_asr_close_l ctx = (0, ctx, [])) := by
  have hstart : ∀ c : asr_context_t, c.engine.isSome = true → c.state = ASR_STATE_START →
      ai_asr_start_l e af c = (0, c, []) := by
    intro c he hs
    cases hc : c.engine with
    | none => simp [hc] at he
    | some g => simp [ai_asr_start_l, hc, hs]
  refine ⟨hstart ctx, ?_, ?_, ?_, ?_⟩
  · intro eng ul st ins hs
    exact hstart _ (by rw [run_engine]; rfl) hs
  · intro hs; simp [ai_asr_finish_l, hs]
  · intro hs; simp [ai_asr_cancel_l, hs]
  · intro hs
    rcases hs with hs | hs <;> simp [ai_asr_close_l, hs]

/-- C6 at concrete inputs: start on a started session, finish and cancel on a
fresh session, close on a started session. -/
theorem C6_guards_are_noops_witness :
    ai_asr_start_l (env_ok 5) none
      (run [(env_ok 0, Input.set_listener (some 1) 0), (env_ok 0, Input.start none)]
        (created 1 true 3000)).1 =
      (0, (run [(env_ok 0, Input.set_listener (some 1) 0), (env_ok 0, Input.start none)]
        (created 1 true 3000)).1, []) ∧
    ai_asr_finish_l (env_ok 5) (created 1 true 3000) = (0, created 1 true 3000, []) ∧
    ai_asr_cancel_l (env_ok 5) (created 1 true 3000) = (0, created 1 true 3000, []) ∧
    ai_asr_close_l (run [(env_ok 0, Input.set_listener (some 1) 0), (env_ok 0, Input.start none)]
        (created 1 true 3000)).1 =
      (0, (run [(env_ok 0, Input.set_listener (some 1) 0), (env_ok 0, Input.start none)]
        (created 1 true 3000)).1, []) :=
  ⟨(C6_guards_are_noops (env_ok 5) none _).1 (by decide) (by decide),
   (C6_guards_are_noops (env_ok 5) none (created 1 true 3000)).2.2.1 (by decide),
   (C6_guards_are_noops (env_ok 5) none (created 1 true 3000)).2.2.2.1 (by decide),
   (C6_guards_are_noops (env_ok 5) none _).2.2.2.2 (Or.inl (by decide))⟩

/-- C7: `ai_asr_cancel_l` on a STARTED session moves the state to CANCELLED,
sets the terminal-sent latch and clears the recorder and focus handles, asking
the recorder to close and abandoning focus for the handles it held, and
publishes nothing itself.  From then on, through any commands, callbacks and
backend events other than a start command, the latch stays set and every
backend event handed to `ai_asr_voice_callback` is dropped: nothing is
published and the session is left as it was. -/
theorem C7_cancel_suppresses (e : Env) (ctx : asr_context_t)
    (hs : ctx.state = ASR_STATE_START) :
    (ai_asr_cancel_l e ctx).2.1 =
      { ctx with state := ASR_STATE_CANCEL, is_send_finished := true, handle := none,
                 focus_handle := none } ∧
    (∀ h, ctx.handle = some h →
      Effect.media_uv_recorder_close (some h) ∈ (ai_asr_cancel_l e ctx).2.2) ∧
    (∀ f, ctx.focus_handle = some f →
      Effect.media_focus_abandon f ∈ (ai_asr_cancel_l e ctx).2.2) ∧
    events (ai_asr_cancel_l e ctx).2.2 = [] ∧
    (∀ (ins : List (Env × Input)), (∀ x ∈ ins, ∀ af, x.2 ≠ Input.start af) →
      (run ins (ai_asr_cancel_l e ctx).2.1).1.is_send_finished = true ∧
      ∀ (e2 : Env) (ev : voice_event_t) (res : Option voice_result_t),
        ai_asr_voice_callback e2 ev res (run ins (ai_asr_cancel_l e ctx).2.1).1 =
          ((run ins (ai_asr_cancel_l e ctx).2.1).1, [])) := by
  have hc : (ai_asr_cancel_l e ctx).2.1 =
      { ctx with state := ASR_STATE_CANCEL, is_send_finished := true, handle := none,
                 focus_handle := none } := by
    simp [ai_asr_cancel_l, hs, finish_handler_ctx]
  refine ⟨hc, ?_, ?_, ?_, ?_⟩
  · intro h hh
    simp [ai_asr_cancel_l, hs, ai_asr_finish_handler, hh]
  · intro f hf
    simp [ai_asr_cancel_l, hs, ai_asr_finish_handler, hf]
  · simp [ai_asr_cancel_l, hs, events_finish_handler]
  · intro ins hins
    have hl : (run ins (ai_asr_cancel_l e ctx).2.1).1.is_send_finished = true :=
      ((run_latch ins _ hins).2.1 (by rw [hc])).1
    exact ⟨hl, fun e2 ev res => voice_callback_latched e2 ev res _ hl⟩

/-- C7 at a concrete input: cancel on a started session, then a final
transcript from the backend. -/
theorem C7_cancel_suppresses_witness :
    (run [(env_ok 0, Input.set_listener (some 1) 0), (env_ok 0, Input.start none)]
      (created 1 true 3000)).1.state = ASR_STATE_START ∧
    (ai_asr_cancel_l (env_ok 1)
      (run [(env_ok 0, Input.set_listener (some 1) 0), (env_ok 0, Input.start none)]
        (created 1 true 3000)).1).2.1.state = ASR_STATE_CANCEL ∧
    events (ai_asr_voice_callback (env_ok 2) voice_event_result (some ⟨some [104, 105], 0, 0⟩)
      (ai_asr_cancel_l (env_ok 1)
        (run [(env_ok 0, Input.set_listener (some 1) 0), (env_ok 0, Input.start none)]
          (created 1 true 3000)).1).2.1).2 = [] :=
  ⟨by decide,
   by rw [(C7_cancel_suppresses (env_ok 1) _ (by decide)).1],
   congrArg (fun p => events p.2)
     (((C7_cancel_suppresses (env_ok 1)
        (run [(env_ok 0, Input.set_listener (some 1) 0), (env_ok 0, Input.start none)]
          (created 1 true 3000)).1 (by decide)).2.2.2.2 [] (by simp)).2
        (env_ok 2) voice_event_result (some ⟨some [104, 105], 0, 0⟩))⟩

/-- C8 (as stated, refuted): a session is started with a listener, records the
final transcript "hi" at 1000 us, has its listener cleared while the finish
command runs (so the terminal-sent latch stays clear), gets the listener back
and is closed.  It then has a listener, no terminal sent, the recorded text
"hi" with a non-zero time stamp, and at 5000000 us far more than the
3000 ms timeout has elapsed; yet the callback with the same text publishes
nothing and sets no latch, because the session is CLOSED. -/
theorem C8_counterexample :
    (run [(env_ok 0, Input.set_listener (some 1) 0), (env_ok 0, Input.start none),
        (env_ok 1000, Input.voice voice_event_result (some ⟨some [104, 105], 0, 0⟩)),
        (env_ok 2000, Input.set_listener none 0), (env_ok 3000, Input.finish),
        (env_ok 4000, Input.set_listener (some 1) 0), (env_ok 5000, Input.close)]
      (created 1 true 3000)).1.cb.isSome = true ∧
    (run [(env_ok 0, Input.set_listener (some 1) 0), (env_ok 0, Input.start none),
        (env_ok 1000, Input.voice voice_event_result (some ⟨some [104, 105], 0, 0⟩)),
        (env_ok 2000, Input.set_listener none 0), (env_ok 3000, Input.finish),
        (env_ok 4000, Input.set_listener (some 1) 0), (env_ok 5000, Input.close)]
      (created 1 true 3000)).1.is_send_finished = false ∧
    (run [(env_ok 0, Input.set_listener (some 1) 0), (env_ok 0, Input.start none),
        (env_ok 1000, Input.voice voice_event_result (some ⟨some [104, 105], 0, 0⟩)),
        (env_ok 2000, Input.set_listener none 0), (env_ok 3000, Input.finish),
        (env_ok 4000, Input.set_listener (some 1) 0), (env_ok 5000, Input.close)]
      (created 1 true 3000)).1.last_result = [104, 105] ∧
    (run [(env_ok 0, Input.set_listener (some 1) 0), (env_ok 0, Input.start none),
        (env_ok 1000, Input.voice voice_event_result (some ⟨some [104, 105], 0, 0⟩)),
        (env_ok 2000, Input.set_listener none 0), (env_ok 3000, Input.finish),
        (env_ok 4000, Input.set_listener (some 1) 0), (env_ok 5000, Input.close)]
      (created 1 true 3000)).1.last_result_time = 1000 ∧
    (run [(env_ok 0, Input.set_listener (some 1) 0), (env_ok 0, Input.start none),
        (env_ok 1000, Input.voice voice_event_result (some ⟨some [104, 105], 0, 0⟩)),
        (env_ok 2000, Input.set_listener none 0), (env_ok 3000, Input.finish),
        (env_ok 4000, Input.set_listener (some 1) 0), (env_ok 5000, Input.close)]
      (created 1 true 3000)).1.silence_timeout * 1000 < 5000000 - 1000 ∧
    ai_asr_voice_callback (env_ok 5000000) voice_event_result (some ⟨some [104, 105], 0, 0⟩)
      (run [(env_ok 0, Input.set_listener (some 1) 0), (env_ok 0, Input.start none),
        (env_ok 1000, Input.voice voice_event_result (some ⟨some [104, 105], 0, 0⟩)),
        (env_ok 2000, Input.set_listener none 0), (env_ok 3000, Input.finish),
        (env_ok 4000, Input.set_listener (some 1) 0), (env_ok 5000, Input.close)]
      (created 1 true 3000)).1 =
      ((run [(env_ok 0, Input.set_listener (some 1) 0), (env_ok 0, Input.start none),
        (env_ok 1000, Input.voice voice_event_result (some ⟨some [104, 105], 0, 0⟩)),
        (env_ok 2000, Input.set_listener none 0), (env_ok 3000, Input.finish),
        (env_ok 4000, Input.set_listener (some 1) 0), (env_ok 5000, Input.close)]
      (created 1 true 3000)).1, []) := by
  decide

/-- C8 (amended): with a listener set, no terminal sent and the session not
CLOSED, when `ai_asr_voice_callback` receives a result whose text equals the
recorded `last_result` and `last_result_time` is non-zero: if
`now - last_result_time` is strictly greater than `silence_timeout * 1000` it
publishes exactly one message, a `complete` with no payload, sets the
terminal-sent latch, clears the recorder and focus handles (asking the recorder
to close and abandoning focus for the handles held), leaves every other field
alone and does not publish the incoming result; if the elapsed time is at most
`silence_timeout * 1000` the gate does not fire: the incoming event is published
with its payload as by the ungated path and the dedup record is unchanged. -/
theorem C8_silence_gate (e : Env) (ev : voice_event_t) (r : voice_result_t)
    (text : CStr) (ctx : asr_context_t)
    (hcb : ctx.cb.isSome = true) (hf : ctx.is_send_finished = false)
    (hs : ctx.state ≠ ASR_STATE_CLOSE) (hr : r.result = some text)
    (ht : ctx.last_result = text) (h0 : ctx.last_result_time ≠ 0) :
    (e.now - ctx.last_result_time > ctx.silence_timeout * 1000 →
      messages (ai_asr_voice_callback e ev (some r) ctx).2 = [⟨voice_event_complete, none⟩] ∧
      (ai_asr_voice_callback e ev (some r) ctx).1 =
        { ctx with is_send_finished := true, handle := none, focus_handle := none } ∧
      (∀ h, ctx.handle = some h →
        Effect.media_uv_recorder_close (some h) ∈ (ai_asr_voice_callback e ev (some r) ctx).2) ∧
      (∀ f, ctx.focus_handle = some f →
        Effect.media_focus_abandon f ∈ (ai_asr_voice_callback e ev (some r) ctx).2)) ∧
    (e.now - ctx.last_result_time ≤ ctx.silence_timeout * 1000 →
      ai_asr_voice_callback e ev (some r) ctx =
        voice_callback_publish e ev (some (copy_result r)) ctx ∧
      messages (ai_asr_voice_callback e ev (some r) ctx).2 = [⟨ev, some (copy_result r)⟩] ∧
      (ai_asr_voice_callback e ev (some r) ctx).1.last_result = ctx.last_result ∧
      (ai_asr_voice_callback e ev (some r) ctx).1.last_result_time = ctx.last_result_time) := by
  constructor
  · intro hfire
    rw [voice_callback_gate_fires e ev r text ctx hcb hf hs hr ht h0 hfire]
    refine ⟨?_, rfl, ?_, ?_⟩
    · simp [messages_append, messages_finish_handler, messages_send_callback]
    · intro h hh
      simp [ai_asr_finish_handler, hh]
    · intro f hh
      simp [ai_asr_finish_handler, hh]
  · intro hidle
    have hn : ¬ (ctx.last_result = text ∧ ctx.last_result_time ≠ 0 ∧
        e.now - ctx.last_result_time > ctx.silence_timeout * 1000) := by
      rintro ⟨-, -, h⟩
      omega
    have hkeep : ¬ (ctx.last_result ≠ text ∨ ctx.last_result_time = 0) := by
      simp [ht, h0]
    rw [voice_callback_gate_idle e ev r text ctx hcb hf hs hr hn, if_neg hkeep]
    exact ⟨rfl, messages_publish _ _ _ _, (publish_dedup _ _ _ _).1, (publish_dedup _ _ _ _).2⟩

/-- C8 (amended) at a concrete input: a started session that recorded "hi" at
1000 us, timeout 3000 ms; the same final transcript at 3001001 us fires the
gate, at 3001000 us it does not. -/
theorem C8_silence_gate_witness :
    messages (ai_asr_voice_callback (env_ok 3001001) voice_event_result
      (some ⟨some [104, 105], 0, 0⟩)
      (run [(env_ok 0, Input.set_listener (some 1) 0), (env_ok 0, Input.start none),
        (env_ok 1000, Input.voice voice_event_result (some ⟨some [104, 105], 0, 0⟩))]
        (created 1 true 3000)).1).2 = [⟨voice_event_complete, none⟩] ∧
    messages (ai_asr_voice_callback (env_ok 3001000) voice_event_result
      (some ⟨some [104, 105], 0, 0⟩)
      (run [(env_ok 0, Input.set_listener (some 1) 0), (env_ok 0, Input.start none),
        (env_ok 1000, Input.voice voice_event_result (some ⟨some [104, 105], 0, 0⟩))]
        (created 1 true 3000)).1).2 =
      [⟨voice_event_result, some (copy_result ⟨some [104, 105], 0, 0⟩)⟩] :=
  ⟨((C8_silence_gate (env_ok 3001001) voice_event_result ⟨some [104, 105], 0, 0⟩ [104, 105] _
      (by decide) (by decide) (by decide) rfl (by decide) (by decide)).1 (by decide)).1,
   ((C8_silence_gate (env_ok 3001000) voice_event_result ⟨some [104, 105], 0, 0⟩ [104, 105] _
      (by decide) (by decide) (by decide) rfl (by decide) (by decide)).2 (by decide)).2.1⟩

set_option maxRecDepth 100000 in
/-- C9 (as stated, refuted): a started session receives a final transcript of
1024 bytes at 1000 us and the identical transcript again at 2000 us.  The
record is not overwritten with the incoming text (only its first 1023 bytes are
kept), and the time stamp does not stay that of the first observation: the
second arrival re-stamps it. -/
theorem C9_counterexample :
    (ai_asr_voice_callback (env_ok 1000) voice_event_result
      (some ⟨some (List.replicate 1024 97), 0, 0⟩)
      (run [(env_ok 0, Input.set_listener (some 1) 0), (env_ok 0, Input.start none)]
        (created 1 true 3000)).1).1.last_result ≠ List.replicate 1024 97 ∧
    (ai_asr_voice_callback (env_ok 1000) voice_event_result
      (some ⟨some (List.replicate 1024 97), 0, 0⟩)
      (run [(env_ok 0, Input.set_listener (some 1) 0), (env_ok 0, Input.start none)]
        (created 1 true 3000)).1).1.last_result_time = 1000 ∧
    (ai_asr_voice_callback (env_ok 2000) voice_event_result
      (some ⟨some (List.replicate 1024 97), 0, 0⟩)
      (ai_asr_voice_callback (env_ok 1000) voice_event_result
        (some ⟨some (List.replicate 1024 97), 0, 0⟩)
        (run [(env_ok 0, Input.set_listener (some 1) 0), (env_ok 0, Input.start none)]
          (created 1 true 3000)).1).1).1.last_result_time = 2000 := by
  decide

/-- C9 (amended): when the callback passes its guards with a result that
carries a text and the gate does not fire, the dedup record is overwritten with
(the first 1023 bytes of the incoming text, now) if and only if the incoming
text differs from `last_result` or `last_result_time` is 0, which for a text
shorter than 1024 bytes stores the text itself; when the incoming text is
identical and a time stamp is set, both fields are left unchanged.  In both
cases the incoming event is published with its payload.  Over any run of
backend events carrying the recorded text, once a non-zero time stamp is set,
the record and its time stamp stay those of the first observation. -/
theorem C9_dedup_update (e : Env) (ev : voice_event_t) (r : voice_result_t)
    (text : CStr) (ctx : asr_context_t)
    (hcb : ctx.cb.isSome = true) (hf : ctx.is_send_finished = false)
    (hs : ctx.state ≠ ASR_STATE_CLOSE) (hr : r.result = some text)
    (hidle : ¬ (ctx.last_result = text ∧ ctx.last_result_time ≠ 0 ∧
      e.now - ctx.last_result_time > ctx.silence_timeout * 1000)) :
    ((ctx.last_result ≠ text ∨ ctx.last_result_time = 0) →
      (ai_asr_voice_callback e ev (some r) ctx).1.last_result = text.take 1023 ∧
      (ai_asr_voice_callback e ev (some r) ctx).1.last_result_time = e.now ∧
      (text.length < 1024 →
        (ai_asr_voice_callback e ev (some r) ctx).1.last_result = text)) ∧
    ((ctx.last_result = text ∧ ctx.last_result_time ≠ 0) →
      (ai_asr_voice_callback e ev (some r) ctx).1.last_result = ctx.last_result ∧
      (ai_asr_voice_callback e ev (some r) ctx).1.last_result_time = ctx.last_result_time) ∧
    messages (ai_asr_voice_callback e ev (some r) ctx).2 = [⟨ev, some (copy_result r)⟩] ∧
    (∀ (vs : List (Env × voice_event_t × Option voice_result_t)) (c : asr_context_t),
      c.last_result_time ≠ 0 →
      (∀ v ∈ vs, ∃ q, v.2.2 = some q ∧ q.result = some c.last_result) →
      (run (backend vs) c).1.last_result = c.last_result ∧
      (run (backend vs) c).1.last_result_time = c.last_result_time) := by
  have hd := voice_callback_dedup e ev r text ctx hr
  have hg : ctx.cb.isSome = true ∧ ctx.is_send_finished = false ∧
      ctx.state ≠ ASR_STATE_CLOSE := ⟨hcb, hf, hs⟩
  refine ⟨?_, ?_, ?_, fun vs c h0 hv => run_same_text vs c h0 hv⟩
  · intro hup
    rw [if_pos ⟨hg, hup⟩, if_pos ⟨hg, hup⟩] at hd
    refine ⟨hd.1, hd.2, ?_⟩
    intro hlen
    rw [hd.1]
    simp only [strlcpy, LAST_RESULT_SIZE]
    exact List.take_of_length_le (by omega)
  · intro hsame
    have hkeep : ¬ ((ctx.cb.isSome = true ∧ ctx.is_send_finished = false ∧
        ctx.state ≠ ASR_STATE_CLOSE) ∧ (ctx.last_result ≠ text ∨ ctx.last_result_time = 0)) := by
      simp [hsame.1, hsame.2]
    rw [if_neg hkeep, if_neg hkeep] at hd
    exact hd
  · rw [voice_callback_gate_idle e ev r text ctx hcb hf hs hr hidle]
    exact messages_publish _ _ _ _

/-- C9 (amended) at a concrete input: a started session gets the final
transcript "hi" at 1000 us (recorded) and again at 2000 us (record kept). -/
theorem C9_dedup_update_witness :
    (ai_asr_voice_callback (env_ok 1000) voice_event_result (some ⟨some [104, 105], 0, 0⟩)
      (run [(env_ok 0, Input.set_listener (some 1) 0), (env_ok 0, Input.start none)]
        (created 1 true 3000)).1).1.last_result = [104, 105] ∧
    (ai_asr_voice_callback (env_ok 1000) voice_event_result (some ⟨some [104, 105], 0, 0⟩)
      (run [(env_ok 0, Input.set_listener (some 1) 0), (env_ok 0, Input.start none)]
        (created 1 true 3000)).1).1.last_result_time = 1000 ∧
    (ai_asr_voice_callback (env_ok 2000) voice_event_result (some ⟨some [104, 105], 0, 0⟩)
      (run [(env_ok 0, Input.set_listener (some 1) 0), (env_ok 0, Input.start none),
        (env_ok 1000, Input.voice voice_event_result (some ⟨some [104, 105], 0, 0⟩))]
        (created 1 true 3000)).1).1.last_result_time = 1000 :=
  ⟨((C9_dedup_update (env_ok 1000) voice_event_result ⟨some [104, 105], 0, 0⟩ [104, 105] _
      (by decide) (by decide) (by decide) rfl (by decide)).1 (by decide)).2.2 (by decide),
   ((C9_dedup_update (env_ok 1000) voice_event_result ⟨some [104, 105], 0, 0⟩ [104, 105] _
      (by decide) (by decide) (by decide) rfl (by decide)).1 (by decide)).2.1,
   ((C9_dedup_update (env_ok 2000) voice_event_result ⟨some [104, 105], 0, 0⟩ [104, 105] _
      (by decide) (by decide) (by decide) rfl (by decide)).2.1 (by decide)).2⟩

/-- C10 (as stated, refuted): a started session receives an in-progress
(partial) transcript "hi" at 1000 us: the dedup record is updated to
("hi", 1000).  When the same partial transcript arrives at 3001001 us, more than
the 3000 ms timeout later, the gate synthesizes `complete` and drops it.  An
`error` event carrying a text updates the record as well. -/
theorem C10_counterexample :
    (ai_asr_voice_callback (env_ok 1000) voice_event_interim (some ⟨some [104, 105], 0, 0⟩)
      (run [(env_ok 0, Input.set_listener (some 1) 0), (env_ok 0, Input.start none)]
        (created 1 true 3000)).1).1.last_result = [104, 105] ∧
    (ai_asr_voice_callback (env_ok 1000) voice_event_interim (some ⟨some [104, 105], 0, 0⟩)
      (run [(env_ok 0, Input.set_listener (some 1) 0), (env_ok 0, Input.start none)]
        (created 1 true 3000)).1).1.last_result_time = 1000 ∧
    messages (ai_asr_voice_callback (env_ok 3001001) voice_event_interim
      (some ⟨some [104, 105], 0, 0⟩)
      (ai_asr_voice_callback (env_ok 1000) voice_event_interim (some ⟨some [104, 105], 0, 0⟩)
        (run [(env_ok 0, Input.set_listener (some 1) 0), (env_ok 0, Input.start none)]
          (created 1 true 3000)).1).1).2 = [⟨voice_event_complete, none⟩] ∧
    (ai_asr_voice_callback (env_ok 1000) voice_event_error (some ⟨some [104, 105], 0, 1⟩)
      (run [(env_ok 0, Input.set_listener (some 1) 0), (env_ok 0, Input.start none)]
        (created 1 true 3000)).1).1.last_result = [104, 105] := by
  decide

/-- C10 (amended): the silence gate does not look at the event kind.  For two
events of any kinds carrying the same result, the dedup record after the
callback is the same.  For an event of any kind that passes the guards and
carries a text there are three cases: the gate synthesizes `complete` when the
text equals the recorded one, a time stamp is set and the timeout has elapsed;
it overwrites the record (first 1023 bytes, now) when the text differs or no
time stamp is set; and when the text equals the recorded one, a time stamp is
set and the timeout has not elapsed, it leaves the record alone and the
incoming event is published with its text and duration.  An event that carries
no text (a null result or a null text) leaves the record alone and, past the
guards, is published as it is.  An event stopped by a guard (no listener,
terminal sent, or CLOSED) changes nothing and publishes nothing. -/
theorem C10_gate_ignores_event_kind (e : Env) (ev ev2 : voice_event_t)
    (r : voice_result_t) (ctx : asr_context_t) :
    ((ai_asr_voice_callback e ev (some r) ctx).1.last_result =
        (ai_asr_voice_callback e ev2 (some r) ctx).1.last_result ∧
      (ai_asr_voice_callback e ev (some r) ctx).1.last_result_time =
        (ai_asr_voice_callback e ev2 (some r) ctx).1.last_result_time) ∧
    (∀ text, ctx.cb.isSome = true → ctx.is_send_finished = false →
      ctx.state ≠ ASR_STATE_CLOSE → r.result = some text →
      ctx.last_result = text → ctx.last_result_time ≠ 0 →
      e.now - ctx.last_result_time > ctx.silence_timeout * 1000 →
      messages (ai_asr_voice_callback e ev (some r) ctx).2 = [⟨voice_event_complete, none⟩]) ∧
    (∀ text, ctx.cb.isSome = true → ctx.is_send_finished = false →
      ctx.state ≠ ASR_STATE_CLOSE → r.result = some text →
      (ctx.last_result ≠ text ∨ ctx.last_result_time = 0) →
      (ai_asr_voice_callback e ev (some r) ctx).1.last_result = text.take 1023 ∧
      (ai_asr_voice_callback e ev (some r) ctx).1.last_result_time = e.now) ∧
    (∀ res : Option voice_result_t, (∀ q, res = some q → q.result = none) →
      (ai_asr_voice_callback e ev res ctx).1.last_result = ctx.last_result ∧
      (ai_asr_voice_callback e ev res ctx).1.last_result_time = ctx.last_result_time ∧
      (ai_asr_voice_callback e ev res ctx = (ctx, []) ∨
        messages (ai_asr_voice_callback e ev res ctx).2 = [⟨ev, res.map copy_result⟩])) ∧
    (∀ text, ctx.cb.isSome = true → ctx.is_send_finished = false →
      ctx.state ≠ ASR_STATE_CLOSE → r.result = some text →
      ctx.last_result = text → ctx.last_result_time ≠ 0 →
      e.now - ctx.last_result_time ≤ ctx.silence_timeout * 1000 →
      (ai_asr_voice_callback e ev (some r) ctx).1.last_result = ctx.last_result ∧
      (ai_asr_voice_callback e ev (some r) ctx).1.last_result_time = ctx.last_result_time ∧
      messages (ai_asr_voice_callback e ev (some r) ctx).2 =
        [⟨ev, some ⟨some text, r.duration,
          if r.error_code ≠ 0 then asr_error_t.asr_error_failed
          else asr_error_t.asr_error_success⟩⟩]) ∧
    (∀ res : Option voice_result_t, ctx.cb.isSome = true → ctx.is_send_finished = false →
      ctx.state ≠ ASR_STATE_CLOSE → (∀ q, res = some q → q.result = none) →
      messages (ai_asr_voice_callback e ev res ctx).2 = [⟨ev, res.map copy_result⟩]) ∧
    (∀ res : Option voice_result_t,
      (ctx.cb.isSome = false ∨ ctx.is_send_finished = true ∨ ctx.state = ASR_STATE_CLOSE) →
      ai_asr_voice_callback e ev res ctx = (ctx, [])) := by
  refine ⟨?_, ?_, ?_, fun res h => voice_callback_no_text e ev res ctx h, ?_, ?_,
    fun res h => voice_callback_guarded e ev res ctx h⟩
  · cases hr : r.result with
    | none =>
      have a := voice_callback_no_text e ev (some r) ctx (by intro q hq; cases hq; exact hr)
      have b := voice_callback_no_text e ev2 (some r) ctx (by intro q hq; cases hq; exact hr)
      exact ⟨a.1.trans b.1.symm, a.2.1.trans b.2.1.symm⟩
    | some text =>
      have a := voice_callback_dedup e ev r text ctx hr
      have b := voice_callback_dedup e ev2 r text ctx hr
      exact ⟨a.1.trans b.1.symm, a.2.trans b.2.symm⟩
  · intro text hcb hf hs hr ht h0 hfire
    rw [voice_callback_gate_fires e ev r text ctx hcb hf hs hr ht h0 hfire]
    simp [messages_append, messages_finish_handler, messages_send_callback]
  · intro text hcb hf hs hr hup
    have hd := voice_callback_dedup e ev r text ctx hr
    rw [if_pos ⟨⟨hcb, hf, hs⟩, hup⟩, if_pos ⟨⟨hcb, hf, hs⟩, hup⟩] at hd
    exact hd
  · intro text hcb hf hs hr ht h0 hwithin
    have hidle : ¬ (ctx.last_result = text ∧ ctx.last_result_time ≠ 0 ∧
        e.now - ctx.last_result_time > ctx.silence_timeout * 1000) :=
      fun h => absurd h.2.2 (not_lt.mpr hwithin)
    have hkeep : ¬ (ctx.last_result ≠ text ∨ ctx.last_result_time = 0) := by
      simp [ht, h0]
    rw [voice_callback_gate_idle e ev r text ctx hcb hf hs hr hidle, if_neg hkeep]
    refine ⟨(publish_dedup _ _ _ _).1, (publish_dedup _ _ _ _).2, ?_⟩
    rw [messages_publish]
    simp [copy_result, hr]
  · intro res hcb hf hs hnt
    have hcb2 : ctx.cb.isNone = false := by
      cases hc : ctx.cb <;> simp_all
    have hpub : ai_asr_voice_callback e ev res ctx =
        voice_callback_publish e ev (res.map copy_result) ctx := by
      cases res with
      | none => simp [ai_asr_voice_callback, ai_asr_voice_callback_null, hcb2, hf, hs]
      | some q => simp [ai_asr_voice_callback, hcb2, hf, hs, hnt q rfl]
    rw [hpub]
    exact messages_publish _ _ _ _

/-- C10 (amended) at a concrete input: a `start` event carrying the text "hi"
updates the record of a started session, fires the gate once the timeout has
elapsed, and within the timeout is published while the record stays. -/
theorem C10_gate_ignores_event_kind_witness :
    (ai_asr_voice_callback (env_ok 1000) voice_event_start (some ⟨some [104, 105], 0, 0⟩)
      (run [(env_ok 0, Input.set_listener (some 1) 0), (env_ok 0, Input.start none)]
        (created 1 true 3000)).1).1.last_result_time = 1000 ∧
    messages (ai_asr_voice_callback (env_ok 3001001) voice_event_start
      (some ⟨some [104, 105], 0, 0⟩)
      (run [(env_ok 0, Input.set_listener (some 1) 0), (env_ok 0, Input.start none),
        (env_ok 1000, Input.voice voice_event_start (some ⟨some [104, 105], 0, 0⟩))]
        (created 1 true 3000)).1).2 = [⟨voice_event_complete, none⟩] ∧
    (ai_asr_voice_callback (env_ok 2000) voice_event_start (some ⟨some [104, 105], 0, 0⟩)
      (run [(env_ok 0, Input.set_listener (some 1) 0), (env_ok 0, Input.start none),
        (env_ok 1000, Input.voice voice_event_start (some ⟨some [104, 105], 0, 0⟩))]
        (created 1 true 3000)).1).1.last_result_time = 1000 :=
  ⟨((C10_gate_ignores_event_kind (env_ok 1000) voice_event_start voice_event_result
      ⟨some [104, 105], 0, 0⟩ _).2.2.1 [104, 105] (by decide) (by decide) (by decide) rfl
      (by decide)).2,
   (C10_gate_ignores_event_kind (env_ok 3001001) voice_event_start voice_event_result
      ⟨some [104, 105], 0, 0⟩ _).2.1 [104, 105] (by decide) (by decide) (by decide) rfl
      (by decide) (by decide) (by decide),
   ((C10_gate_ignores_event_kind (env_ok 2000) voice_event_start voice_event_result
      ⟨some [104, 105], 0, 0⟩ _).2.2.2.2.1 [104, 105] (by decide) (by decide) (by decide) rfl
      (by decide) (by decide) (by decide)).2.1⟩

/-- C11: capture is released before a terminal event is published.  On
`complete` or `error`, lines 450-456 of `ai_asr_voice_callback` hand the event
to `ai_asr_send_callback` with a context whose recorder and focus handles are
already cleared, after the teardown calls.  Hence for `ai_asr_voice_callback`,
and for every turn of the engine loop (backend event, silence gate, focus
loss, recorder error, finish command), wherever a `complete` or `error` is
published the recorder close request and the focus abandon for what was held
at entry come earlier in the sequence of outside calls, nothing is acquired in
between, and both handles are cleared. -/
theorem C11_release_before_terminal (e : Env) (ctx : asr_context_t) :
    (∀ (ev : voice_event_t) (res : Option asr_result_t), ev.terminal = true →
      voice_callback_publish e ev res ctx =
        ({ ctx with handle := none, focus_handle := none, is_send_finished := true },
          (ai_asr_finish_handler e ctx).2.2 ++
            ai_asr_send_callback
              { ctx with handle := none, focus_handle := none, is_send_finished := true }
              ev res)) ∧
    (∀ (ev : voice_event_t) (res : Option voice_result_t),
      released_before_terminal ctx (ai_asr_voice_callback e ev res ctx)) ∧
    (∀ i : Input, released_before_terminal ctx (step e i ctx)) := by
  refine ⟨?_, ?_, fun i => step_released e i ctx⟩
  · intro ev res ht
    have : ev = voice_event_complete ∨ ev = voice_event_error := by
      simpa [voice_event_t.terminal] using ht
    simp [voice_callback_publish, this, finish_handler_ctx]
  · intro ev res
    exact released_of_shape _ _ (voice_callback_released e ev res ctx)

/-- C11 at a concrete input: a started session (recorder handle 7, focus lease
5) receives a backend `complete`; the close request and the abandon come
before the published event. -/
theorem C11_release_before_terminal_witness :
    (ai_asr_voice_callback (env_ok 1) voice_event_complete none
      (run [(env_ok 0, Input.set_listener (some 1) 0), (env_ok 0, Input.start none)]
        (created 1 true 3000)).1).2 =
      [Effect.media_uv_recorder_close (some 7), Effect.media_focus_abandon 5,
        Effect.plugin_finish] ++ Effect.queue_send ⟨voice_event_complete, none⟩ :: [] ∧
    Effect.media_uv_recorder_close (some 7) ∈
      [Effect.media_uv_recorder_close (some 7), Effect.media_focus_abandon 5,
        Effect.plugin_finish] ∧
    Effect.media_focus_abandon 5 ∈
      [Effect.media_uv_recorder_close (some 7), Effect.media_focus_abandon 5,
        Effect.plugin_finish] :=
  ⟨by decide,
   ((C11_release_before_terminal (env_ok 1)
      (run [(env_ok 0, Input.set_listener (some 1) 0), (env_ok 0, Input.start none)]
        (created 1 true 3000)).1).2.1 voice_event_complete none
      [Effect.media_uv_recorder_close (some 7), Effect.media_focus_abandon 5,
        Effect.plugin_finish]
      (Effect.queue_send ⟨voice_event_complete, none⟩) [] ⟨voice_event_complete, none⟩
      (by decide) rfl (by decide)).1 7 (by decide),
   ((C11_release_before_terminal (env_ok 1)
      (run [(env_ok 0, Input.set_listener (some 1) 0), (env_ok 0, Input.start none)]
        (created 1 true 3000)).1).2.1 voice_event_complete none
      [Effect.media_uv_recorder_close (some 7), Effect.media_focus_abandon 5,
        Effect.plugin_finish]
      (Effect.queue_send ⟨voice_event_complete, none⟩) [] ⟨voice_event_complete, none⟩
      (by decide) rfl (by decide)).2.1 5 (by decide)⟩

/-- C12: for every integer `x` passed as `silence_timeout` (with an auth
descriptor present, as on every call made by `ai_asr_create_engine_l`),
`ai_asr_map_params` stores `x` if 300 <= x <= 15000, 15000 if x > 15000, 300 if
x < 300 and x is not 0 (negative values included), and 3000 if x = 0; the
stored value always lies in [300, 15000]; the inputs 0, 100, 300, 5000, 15000,
20000 are stored as 3000, 300, 300, 5000, 15000, 15000. -/
theorem C12_silence_timeout_clamping (in_param : asr_init_params_t) (auth : ai_auth_t)
    (out_param : voice_init_params_t) :
    ((300 ≤ in_param.silence_timeout ∧ in_param.silence_timeout ≤ 15000 →
        (ai_asr_map_params in_param (some auth) out_param).2.silence_timeout =
          in_param.silence_timeout) ∧
      (in_param.silence_timeout > 15000 →
        (ai_asr_map_params in_param (some auth) out_param).2.silence_timeout = 15000) ∧
      (in_param.silence_timeout < 300 ∧ in_param.silence_timeout ≠ 0 →
        (ai_asr_map_params in_param (some auth) out_param).2.silence_timeout = 300) ∧
      (in_param.silence_timeout = 0 →
        (ai_asr_map_params in_param (some auth) out_param).2.silence_timeout = 3000)) ∧
    (300 ≤ (ai_asr_map_params in_param (some auth) out_param).2.silence_timeout ∧
      (ai_asr_map_params in_param (some auth) out_param).2.silence_timeout ≤ 15000) ∧
    ([0, 100, 300, 5000, 15000, 20000].map (fun x =>
        (ai_asr_map_params { in_param with silence_timeout := x } (some auth)
          out_param).2.silence_timeout) = [3000, 300, 300, 5000, 15000, 15000]) := by
  have key : ∀ p : asr_init_params_t,
      (ai_asr_map_params p (some auth) out_param).2.silence_timeout =
        map_silence_timeout p.silence_timeout :=
    fun p => map_params_silence_timeout p auth out_param
  refine ⟨⟨?_, ?_, ?_, ?_⟩, ?_, ?_⟩
  · intro h
    rw [key]
    simp [map_silence_timeout, ASR_MAX_SILENCE_TIMEOUT, ASR_MIN_SILENCE_TIMEOUT, h.1, h.2]
  · intro h
    rw [key]
    unfold map_silence_timeout ASR_MAX_SILENCE_TIMEOUT ASR_MIN_SILENCE_TIMEOUT
    rw [if_neg (by omega), if_pos h]
  · intro h
    rw [key]
    unfold map_silence_timeout ASR_MAX_SILENCE_TIMEOUT ASR_MIN_SILENCE_TIMEOUT
    rw [if_neg (by omega), if_neg (by omega), if_pos h]
  · intro h
    rw [key, h]
    decide
  · rw [key]
    unfold map_silence_timeout ASR_MAX_SILENCE_TIMEOUT ASR_MIN_SILENCE_TIMEOUT
      ASR_DEFAULT_SILENCE_TIMEOUT
    split_ifs <;> omega
  · simp only [List.map, key]
    decide

/-- C12 at concrete inputs: 5000 is stored as it is, 20000 as 15000, -7 as
300 and 0 as 3000. -/
theorem C12_silence_timeout_clamping_witness :
    (ai_asr_map_params ⟨none, none, none, none, 5000⟩
      (some ⟨asr_engine_type_t.asr_engine_type_volc, some ⟨some [49], some [50]⟩⟩)
      voice_init_params_zero).2.silence_timeout = 5000 ∧
    (ai_asr_map_params ⟨none, none, none, none, 20000⟩
      (some ⟨asr_engine_type_t.asr_engine_type_volc, some ⟨some [49], some [50]⟩⟩)
      voice_init_params_zero).2.silence_timeout = 15000 ∧
    (ai_asr_map_params ⟨none, none, none, none, -7⟩
      (some ⟨asr_engine_type_t.asr_engine_type_volc, some ⟨some [49], some [50]⟩⟩)
      voice_init_params_zero).2.silence_timeout = 300 ∧
    (ai_asr_map_params ⟨none, none, none, none, 0⟩
      (some ⟨asr_engine_type_t.asr_engine_type_volc, some ⟨some [49], some [50]⟩⟩)
      voice_init_params_zero).2.silence_timeout = 3000 :=
  ⟨(C12_silence_timeout_clamping ⟨none, none, none, none, 5000⟩ _ _).1.1 (by decide),
   (C12_silence_timeout_clamping ⟨none, none, none, none, 20000⟩ _ _).1.2.1 (by decide),
   (C12_silence_timeout_clamping ⟨none, none, none, none, -7⟩ _ _).1.2.2.1 (by decide),
   (C12_silence_timeout_clamping ⟨none, none, none, none, 0⟩ _ _).1.2.2.2 (by decide)⟩

/-- C13: `ai_asr_create_engine_with_auth` returns the null handle whenever the
auth descriptor is null, its credentials pointer is null, the engine type is
not the supported backend, or the credentials have a null or empty `app_id` or
a null or empty `app_key`; in the credential cases `ai_asr_map_params` returns
`-EINVAL`.  No creation, rejected or not, hands an event to the listener. -/
theorem C13_auth_rejection (ce : CreateEnv) (builtin : ai_volc_auth_t)
    (param : Option asr_init_params_t) (auth : Option ai_auth_t) :
    ((auth = none ∨
        (∃ a, auth = some a ∧
          (a.auth = none ∨
           a.engine_type ≠ asr_engine_type_t.asr_engine_type_volc ∨
           (∃ v, a.auth = some v ∧
             ((v.app_id = none ∨ v.app_id = some []) ∨
              (v.app_key = none ∨ v.app_key = some [])))))) →
      (ai_asr_create_engine_with_auth ce builtin param auth).1 = none) ∧
    (∀ (in_param : asr_init_params_t) (a : ai_auth_t) (v : ai_volc_auth_t)
        (out_param : voice_init_params_t),
      a.engine_type = asr_engine_type_t.asr_engine_type_volc → a.auth = some v →
      ((v.app_id = none ∨ v.app_id = some []) ∨ (v.app_key = none ∨ v.app_key = some [])) →
      (ai_asr_map_params in_param (some a) out_param).1 = -EINVAL) ∧
    messages (ai_asr_create_engine_with_auth ce builtin param auth).2 = [] := by
  refine ⟨?_, ?_, ?_⟩
  · intro h
    rcases h with h | ⟨a, ha, h⟩
    · subst h; rfl
    · subst ha
      unfold ai_asr_create_engine_with_auth
      simp only []
      rcases h with h | h | ⟨v, hv, hbad⟩
      · simp [h]
      · split_ifs
        · rfl
        · unfold ai_asr_create_engine_l
          cases param with
          | none => rfl
          | some p => simp [h]
      · split_ifs
        · rfl
        · unfold ai_asr_create_engine_l
          cases param with
          | none => rfl
          | some p =>
            simp only []
            split_ifs with ht
            · have hm := map_params_rejects p a voice_init_params_zero ht
                (by intro w hw; rw [hv] at hw; cases hw; exact hbad)
              unfold create_engine_body
              simp only [hm]
              have hneg : (-EINVAL : Int) < 0 := by decide
              split_ifs <;> rfl
            · rfl
  · intro in_param a v out_param ht hv hbad
    exact map_params_rejects in_param a out_param ht
      (by intro w hw; rw [hv] at hw; cases hw; exact hbad)
  · unfold ai_asr_create_engine_with_auth
    cases auth with
    | none => rfl
    | some a =>
      simp only []
      split_ifs
      · rfl
      · unfold ai_asr_create_engine_l
        cases param with
        | none => rfl
        | some p =>
          simp only []
          split_ifs
          · exact messages_create_engine_body ce p a
          · rfl

/-- C13 at a concrete input: every outside call of the creation would succeed,
the engine type is the supported one, `app_key` is "k" and `app_id` is the
empty string; the handle returned is null. -/
theorem C13_auth_rejection_witness :
    (ai_asr_create_engine_with_auth ⟨true, 0, some 1, some 1, some 1⟩ ⟨some [49], some [50]⟩
      (some ⟨none, none, none, none, 0⟩)
      (some ⟨asr_engine_type_t.asr_engine_type_volc, some ⟨some [], some [107]⟩⟩)).1 = none ∧
    (ai_asr_create_engine_with_auth ⟨true, 0, some 1, some 1, some 1⟩ ⟨some [49], some [50]⟩
      (some ⟨none, none, none, none, 0⟩)
      (some ⟨asr_engine_type_t.asr_engine_type_volc, some ⟨some [105], some [107]⟩⟩)).1 ≠ none :=
  ⟨(C13_auth_rejection ⟨true, 0, some 1, some 1, some 1⟩ ⟨some [49], some [50]⟩
      (some ⟨none, none, none, none, 0⟩)
      (some ⟨asr_engine_type_t.asr_engine_type_volc, some ⟨some [], some [107]⟩⟩)).1
      (Or.inr ⟨_, rfl, Or.inr (Or.inr ⟨_, rfl, Or.inl (Or.inr rfl)⟩)⟩),
   by decide⟩

/-- C14: for the message `ai_asr_start` puts on the engine queue,
`ai_asr_start_l` on a session that has an engine and is not STARTED uses for
capture the caller's format if and only if the plugin does not force its own
and the caller supplied a non-null, non-empty format, and the format of the
plugin environment in every other case: that format is stored in the context
and is the one every `media_uv_recorder_prepare` call is given.  If the
selected format is absent the handler returns a negative status, makes no
outside call and leaves the whole context, the state included, unchanged. -/
theorem C14_capture_format (send_ret : Int) (e : Env) (ctx : asr_context_t)
    (audio_info : Option asr_audio_info_t) (msg : message_data_start_t)
    (hmsg : (ai_asr_start send_ret ctx audio_info).2 = some msg)
    (hs : ctx.state ≠ ASR_STATE_START) :
    (spec_capture_format e.force_format audio_info e.env_format = none →
      (ai_asr_start_l e msg.audio_info.format ctx).1 < 0 ∧
      (ai_asr_start_l e msg.audio_info.format ctx).2.1 = ctx ∧
      (ai_asr_start_l e msg.audio_info.format ctx).2.2 = []) ∧
    (∀ g, spec_capture_format e.force_format audio_info e.env_format = some g →
      e.realloc_ok = true →
      (ai_asr_start_l e msg.audio_info.format ctx).2.1.format = some g ∧
      (ai_asr_start_l e msg.audio_info.format ctx).2.1.state = ASR_STATE_START ∧
      ∀ h f, Effect.media_uv_recorder_prepare h f ∈
          (ai_asr_start_l e msg.audio_info.format ctx).2.2 → f = some g) := by
  have hfmt := start_l_format_spec send_ret e ctx audio_info msg hmsg
  have heng : ctx.engine.isNone = false := by
    unfold ai_asr_start at hmsg
    split_ifs at hmsg with h
    push_neg at h
    cases hc : ctx.engine with
    | none => exact absurd (by simp [hc]) h.1
    | some g => rfl
  constructor
  · intro hsel
    rw [hsel] at hfmt
    unfold ai_asr_start_l
    simp only [heng, hs, hfmt, ai_asr_create_format, if_false, Bool.false_eq_true]
    simp [EINVAL]
  · intro g hsel hre
    rw [hsel] at hfmt
    have hf2 : start_l_format e msg.audio_info.format ctx = (0, { ctx with format := some g }) := by
      rw [hfmt]; simp [ai_asr_create_format, hre]
    unfold ai_asr_start_l
    simp only [heng, hs, hf2, if_false, Bool.false_eq_true, lt_irrefl]
    refine ⟨?_, ?_, ?_⟩
    · rw [start_l_capture_format]; rfl
    · rw [start_l_capture_state]; rfl
    · intro h f hm
      exact start_l_capture_prepare e _ h f hm

/-- C14 at concrete inputs: on a fresh session the caller's format "wav" is
used when the plugin does not force its own, and an absent plugin format with
no caller format makes the start fail. -/
theorem C14_capture_format_witness :
    (ai_asr_start 0 (created 1 true 3000) (some ⟨1, some [119, 97, 118]⟩)).2 =
      some ⟨⟨1, some [119, 97, 118]⟩⟩ ∧
    (ai_asr_start_l (env_ok 0) (some [119, 97, 118]) (created 1 true 3000)).2.1.format =
      some [119, 97, 118] ∧
    (ai_asr_start_l { env_ok 0 with env_format := none } none (created 1 true 3000)).1 < 0 :=
  ⟨by decide,
   ((C14_capture_format 0 (env_ok 0) (created 1 true 3000) (some ⟨1, some [119, 97, 118]⟩)
      ⟨⟨1, some [119, 97, 118]⟩⟩ (by decide) (by decide)).2 [119, 97, 118] (by decide)
      (by decide)).1,
   ((C14_capture_format 0 { env_ok 0 with env_format := none } (created 1 true 3000) none
      ⟨⟨0, none⟩⟩ (by decide) (by decide)).1 (by decide)).1⟩

/-- C19 (failing input, evaluated): on a started session with a listener and no
terminal sent, each recorder failure callback (open, prepare-connect, start,
event, with `ret = -1`) publishes one `error` whose error kind is
`asr_error_failed`, not `asr_error_media`: `ai_asr_send_error` is handed
`asr_error_media`, and the copy made by `ai_asr_voice_callback` turns every
non-zero code into `asr_error_failed`. -/
theorem C19_recorder_error_kind :
    messages (step (env_ok 1) (Input.recorder_open_cb (-1))
      (run [(env_ok 0, Input.set_listener (some 1) 0), (env_ok 0, Input.start none)]
        (created 1 true 3000)).1).2 =
      [⟨voice_event_error, some ⟨none, 0, asr_error_t.asr_error_failed⟩⟩] ∧
    messages (step (env_ok 1) (Input.recorder_prepare_connect_cb (-1) 0)
      (run [(env_ok 0, Input.set_listener (some 1) 0), (env_ok 0, Input.start none)]
        (created 1 true 3000)).1).2 =
      [⟨voice_event_error, some ⟨none, 0, asr_error_t.asr_error_failed⟩⟩] ∧
    messages (step (env_ok 1) (Input.recorder_start_cb (-1))
      (run [(env_ok 0, Input.set_listener (some 1) 0), (env_ok 0, Input.start none)]
        (created 1 true 3000)).1).2 =
      [⟨voice_event_error, some ⟨none, 0, asr_error_t.asr_error_failed⟩⟩] ∧
    messages (step (env_ok 1) (Input.recorder_event (-1))
      (run [(env_ok 0, Input.set_listener (some 1) 0), (env_ok 0, Input.start none)]
        (created 1 true 3000)).1).2 =
      [⟨voice_event_error, some ⟨none, 0, asr_error_t.asr_error_failed⟩⟩] ∧
    asr_error_t.asr_error_failed ≠ asr_error_t.asr_error_media := by
  decide

/-- C20 (as stated, refuted): on a fresh session with a listener, a start whose
focus request returns a lease together with a suggestion other than "play"
returns `-EPERM` and hands no event at all to the listener; and when the focus
request returns no lease with such a suggestion, the recorder is opened. -/
theorem C20_counterexample :
    (ai_asr_start_l { env_ok 0 with init_suggestion := 1 } none
      (run [(env_ok 0, Input.set_listener (some 1) 0)] (created 1 true 3000)).1).1 = -EPERM ∧
    messages (ai_asr_start_l { env_ok 0 with init_suggestion := 1 } none
      (run [(env_ok 0, Input.set_listener (some 1) 0)] (created 1 true 3000)).1).2.2 = [] ∧
    Effect.media_uv_recorder_open ∈
      (ai_asr_start_l { env_ok 0 with init_suggestion := 1, focus_request := none } none
        (run [(env_ok 0, Input.set_listener (some 1) 0)] (created 1 true 3000)).1).2.2 := by
  decide

/-- C20 (amended): when the focus request made during start returns a lease
together with an initial suggestion other than "play",
`ai_asr_init_recorder` abandons the lease, clears the focus handle, does not
open the recorder and returns `-EPERM`; `ai_asr_start_l` (entered on a session
that has an engine and is not STARTED, with the format stored and the plugin
started) then returns `-EPERM` with the focus handle cleared and publishes no
event: the failure is reported through the status of the handler. -/
theorem C20_focus_denial (e : Env) (af : Option CStr) (ctx : asr_context_t) (f : Nat)
    (hreq : e.focus_request = some f) (hsug : e.init_suggestion ≠ MEDIA_FOCUS_PLAY) :
    ai_asr_init_recorder e ctx =
      (-EPERM, { ctx with focus_handle := none },
        [Effect.media_focus_request, Effect.media_focus_abandon f]) ∧
    (ctx.engine.isSome = true → ctx.state ≠ ASR_STATE_START →
      0 ≤ (start_l_format e af ctx).1 → 0 ≤ e.plugin_start_ret →
      (ai_asr_start_l e af ctx).1 = -EPERM ∧
      (ai_asr_start_l e af ctx).2.1.focus_handle = none ∧
      (ai_asr_start_l e af ctx).2.2 =
        [Effect.plugin_start, Effect.media_focus_request, Effect.media_focus_abandon f] ∧
      Effect.media_uv_recorder_open ∉ (ai_asr_start_l e af ctx).2.2 ∧
      messages (ai_asr_start_l e af ctx).2.2 = []) := by
  have hinit : ∀ c : asr_context_t, ai_asr_init_recorder e c =
      (-EPERM, { c with focus_handle := none },
        [Effect.media_focus_request, Effect.media_focus_abandon f]) := by
    intro c
    simp [ai_asr_init_recorder, hreq, hsug]
  refine ⟨hinit ctx, ?_⟩
  intro heng hs hfmt hplug
  have hn : ctx.engine.isNone = false := by
    cases h : ctx.engine <;> simp_all
  have hcap : start_l_capture e (start_l_reset (start_l_format e af ctx).2) =
      (-EPERM, { start_l_reset (start_l_format e af ctx).2 with focus_handle := none },
        [Effect.plugin_start, Effect.media_focus_request, Effect.media_focus_abandon f]) := by
    unfold start_l_capture
    simp [not_lt.mpr hplug, hinit, EPERM]
  have hst : ai_asr_start_l e af ctx =
      start_l_capture e (start_l_reset (start_l_format e af ctx).2) := by
    unfold ai_asr_start_l
    simp [hn, hs, not_lt.mpr hfmt]
  rw [hst, hcap]
  refine ⟨rfl, rfl, rfl, by simp, by simp [messages, Effect.published]⟩

/-- C20 (amended) at a concrete input: a fresh session with a listener, focus
lease 5 granted with suggestion 1. -/
theorem C20_focus_denial_witness :
    (ai_asr_start_l { env_ok 0 with init_suggestion := 1 } none
      (run [(env_ok 0, Input.set_listener (some 1) 0)] (created 1 true 3000)).1).1 = -EPERM ∧
    (ai_asr_start_l { env_ok 0 with init_suggestion := 1 } none
      (run [(env_ok 0, Input.set_listener (some 1) 0)] (created 1 true 3000)).1).2.1.focus_handle
      = none :=
  ⟨((C20_focus_denial { env_ok 0 with init_suggestion := 1 } none
      (run [(env_ok 0, Input.set_listener (some 1) 0)] (created 1 true 3000)).1 5 rfl
      (by decide)).2 (by decide) (by decide) (by decide) (by decide)).1,
   ((C20_focus_denial { env_ok 0 with init_suggestion := 1 } none
      (run [(env_ok 0, Input.set_listener (some 1) 0)] (created 1 true 3000)).1 5 rfl
      (by decide)).2 (by decide) (by decide) (by decide) (by decide)).2.1⟩

/-- C21: focus preemption.  For a started session with a listener set and no
terminal event sent, `ai_asr_focus_callback` with a suggestion other than
"play" requests the close of the recorder held (once), abandons the focus
lease held (once), leaves both handles cleared, sets the terminal-sent latch
and publishes exactly one event, `complete` with a null payload; with the
suggestion "play" it changes no field and makes no outside call. -/
theorem C21_focus_preemption (e : Env) (suggestion : Int) (ctx : asr_context_t)
    (hstate : ctx.state = ASR_STATE_START) (hcb : ctx.cb.isSome = true)
    (hfin : ctx.is_send_finished = false) :
    (suggestion ≠ MEDIA_FOCUS_PLAY →
      (∀ h, ctx.handle = some h →
        (ai_asr_focus_callback e suggestion ctx).2.count
          (Effect.media_uv_recorder_close (some h)) = 1) ∧
      (∀ f, ctx.focus_handle = some f →
        (ai_asr_focus_callback e suggestion ctx).2.count (Effect.media_focus_abandon f) = 1) ∧
      (ai_asr_focus_callback e suggestion ctx).1 =
        { ctx with handle := none, focus_handle := none, is_send_finished := true } ∧
      messages (ai_asr_focus_callback e suggestion ctx).2 = [⟨voice_event_complete, none⟩] ∧
      events (ai_asr_focus_callback e suggestion ctx).2 = [voice_event_complete]) ∧
    (suggestion = MEDIA_FOCUS_PLAY → ai_asr_focus_callback e suggestion ctx = (ctx, [])) := by
  constructor
  · intro hs
    have hst : ctx.state ≠ ASR_STATE_CLOSE := by rw [hstate]; decide
    rw [focus_callback_loss e suggestion ctx hs hcb hfin hst]
    refine ⟨?_, ?_, rfl, ?_, ?_⟩
    · intro h hh
      simp only [List.count_append, count_finish_handler_close e ctx h hh,
        count_send_callback_close]
      split_ifs <;> simp
    · intro f hf
      simp only [List.count_append, count_finish_handler_abandon e ctx f hf,
        count_send_callback_abandon]
      split_ifs <;> simp
    · simp only [messages_append, messages_finish_handler, messages_send_callback]
      split_ifs <;> simp [messages, Effect.published]
    · simp only [events_append, events_finish_handler, events_send_callback]
      split_ifs <;> simp [events, Effect.published]
  · intro hs
    simp [ai_asr_focus_callback, hs]

/-- C21 at a concrete input: a session created with a host loop, listener set
and started with every outside call succeeding holds recorder 7 and lease 5;
the suggestion 1 (not "play") releases both and publishes `complete`. -/
theorem C21_focus_preemption_witness :
    (ai_asr_focus_callback (env_ok 10) 1
      (run [(env_ok 0, Input.set_listener (some 1) 0), (env_ok 0, Input.start none)]
        (created 1 true 3000)).1).2.count (Effect.media_uv_recorder_close (some 7)) = 1 ∧
    (ai_asr_focus_callback (env_ok 10) 1
      (run [(env_ok 0, Input.set_listener (some 1) 0), (env_ok 0, Input.start none)]
        (created 1 true 3000)).1).2.count (Effect.media_focus_abandon 5) = 1 ∧
    events (ai_asr_focus_callback (env_ok 10) 1
      (run [(env_ok 0, Input.set_listener (some 1) 0), (env_ok 0, Input.start none)]
        (created 1 true 3000)).1).2 = [voice_event_complete] :=
  ⟨((C21_focus_preemption (env_ok 10) 1 _ (by decide) (by decide) (by decide)).1
      (by decide)).1 7 (by decide),
   ((C21_focus_preemption (env_ok 10) 1 _ (by decide) (by decide) (by decide)).1
      (by decide)).2.1 5 (by decide),
   ((C21_focus_preemption (env_ok 10) 1 _ (by decide) (by decide) (by decide)).1
      (by decide)).2.2.2.2⟩

/-- C22 (as stated, refuted): on a started session with a listener, a backend
`complete` publishes `complete` and leaves the state STARTED, not FINISHING; so
does the silence gate when it fires; a focus loss publishes `complete` and
leaves the state STARTED, not CANCELLED.  The close command that follows the
backend `complete` is rejected by the STARTED guard: it publishes nothing and
the state stays STARTED. -/
theorem C22_counterexample :
    (run [(env_ok 0, Input.set_listener (some 1) 0), (env_ok 0, Input.start none),
        (env_ok 10, Input.voice voice_event_complete none)]
      (created 1 true 3000)).1.state = ASR_STATE_START ∧
    events (run [(env_ok 0, Input.set_listener (some 1) 0), (env_ok 0, Input.start none),
        (env_ok 10, Input.voice voice_event_complete none)]
      (created 1 true 3000)).2 = [voice_event_start, voice_event_complete] ∧
    (run [(env_ok 0, Input.set_listener (some 1) 0), (env_ok 0, Input.start none),
        (env_ok 10, Input.voice voice_event_complete none), (env_ok 20, Input.close)]
      (created 1 true 3000)).1.state = ASR_STATE_START ∧
    events (run [(env_ok 0, Input.set_listener (some 1) 0), (env_ok 0, Input.start none),
        (env_ok 10, Input.voice voice_event_complete none), (env_ok 20, Input.close)]
      (created 1 true 3000)).2 = [voice_event_start, voice_event_complete] ∧
    (run [(env_ok 0, Input.set_listener (some 1) 0), (env_ok 0, Input.start none),
        (env_ok 1000, Input.voice voice_event_result (some ⟨some [104, 105], 0, 0⟩)),
        (env_ok 3001001, Input.voice voice_event_result (some ⟨some [104, 105], 0, 0⟩))]
      (created 1 true 3000)).1.state = ASR_STATE_START ∧
    events (run [(env_ok 0, Input.set_listener (some 1) 0), (env_ok 0, Input.start none),
        (env_ok 1000, Input.voice voice_event_result (some ⟨some [104, 105], 0, 0⟩)),
        (env_ok 3001001, Input.voice voice_event_result (some ⟨some [104, 105], 0, 0⟩))]
      (created 1 true 3000)).2 =
      [voice_event_start, voice_event_result, voice_event_complete] ∧
    (run [(env_ok 0, Input.set_listener (some 1) 0), (env_ok 0, Input.start none),
        (env_ok 10, Input.focus 1)]
      (created 1 true 3000)).1.state = ASR_STATE_START ∧
    events (run [(env_ok 0, Input.set_listener (some 1) 0), (env_ok 0, Input.start none),
        (env_ok 10, Input.focus 1)]
      (created 1 true 3000)).2 = [voice_event_start, voice_event_complete] := by
  decide

/-- C22 (amended): the session state is written by command handlers only.  On
a started session the finish command sets FINISHING and the cancel command
sets CANCELLED; every other turn of the engine loop (a backend event of any
kind and payload, hence also `complete`, `error` and a firing silence gate; a
focus change; a recorder callback) leaves the state STARTED.  While the state
is STARTED a close command is rejected by its guard: it returns 0, changes no
field and makes no outside call. -/
theorem C22_state_on_terminal_causes (e e2 : Env) (i : Input) (ctx : asr_context_t)
    (h : ctx.state = ASR_STATE_START) :
    (step e i ctx).1.state =
      (match i with
       | .finish => ASR_STATE_FINISH
       | .cancel => ASR_STATE_CANCEL
       | _ => ASR_STATE_START) ∧
    ((step e i ctx).1.state = ASR_STATE_START →
      step e2 Input.close (step e i ctx).1 = ((step e i ctx).1, []) ∧
      ai_asr_close_l (step e i ctx).1 = (0, (step e i ctx).1, [])) := by
  refine ⟨step_state_started e i ctx h, ?_⟩
  intro hs
  generalize step e i ctx = out at hs
  have hc : ai_asr_close_l out.1 = (0, out.1, []) := by
    simp [ai_asr_close_l, hs]
  exact ⟨by simp only [step, hc], hc⟩

/-- C22 (amended) at a concrete input: the session started with every outside
call succeeding gets a backend `error`; the state is still STARTED and the
close command that follows does nothing. -/
theorem C22_state_on_terminal_causes_witness :
    (step (env_ok 10) (Input.voice voice_event_error (some ⟨none, 0, 1⟩))
      (run [(env_ok 0, Input.set_listener (some 1) 0), (env_ok 0, Input.start none)]
        (created 1 true 3000)).1).1.state = ASR_STATE_START ∧
    ai_asr_close_l
      (step (env_ok 10) (Input.voice voice_event_error (some ⟨none, 0, 1⟩))
        (run [(env_ok 0, Input.set_listener (some 1) 0), (env_ok 0, Input.start none)]
          (created 1 true 3000)).1).1 =
      (0, (step (env_ok 10) (Input.voice voice_event_error (some ⟨none, 0, 1⟩))
        (run [(env_ok 0, Input.set_listener (some 1) 0), (env_ok 0, Input.start none)]
          (created 1 true 3000)).1).1, []) :=
  ⟨(C22_state_on_terminal_causes (env_ok 10) (env_ok 20)
      (Input.voice voice_event_error (some ⟨none, 0, 1⟩)) _ (by decide)).1,
   ((C22_state_on_terminal_causes (env_ok 10) (env_ok 20)
      (Input.voice voice_event_error (some ⟨none, 0, 1⟩)) _ (by decide)).2 (by decide)).2⟩

/-- C23 (as stated, refuted): a session started without a listener holds
recorder 7 and lease 5.  A backend `complete` changes nothing: the recorder
and the lease stay held and the terminal-sent latch stays clear, whereas with
a listener set both are released and the latch is set.  A transcript does not
reach the dedup record either, which with a listener set holds the text and
the time of arrival. -/
theorem C23_counterexample :
    (run [(env_ok 0, Input.start none), (env_ok 10, Input.voice voice_event_complete none)]
      (created 1 true 3000)).1.handle = some 7 ∧
    (run [(env_ok 0, Input.start none), (env_ok 10, Input.voice voice_event_complete none)]
      (created 1 true 3000)).1.focus_handle = some 5 ∧
    (run [(env_ok 0, Input.start none), (env_ok 10, Input.voice voice_event_complete none)]
      (created 1 true 3000)).1.is_send_finished = false ∧
    (run [(env_ok 0, Input.set_listener (some 1) 0), (env_ok 0, Input.start none),
        (env_ok 10, Input.voice voice_event_complete none)]
      (created 1 true 3000)).1.handle = none ∧
    (run [(env_ok 0, Input.set_listener (some 1) 0), (env_ok 0, Input.start none),
        (env_ok 10, Input.voice voice_event_complete none)]
      (created 1 true 3000)).1.focus_handle = none ∧
    (run [(env_ok 0, Input.set_listener (some 1) 0), (env_ok 0, Input.start none),
        (env_ok 10, Input.voice voice_event_complete none)]
      (created 1 true 3000)).1.is_send_finished = true ∧
    (run [(env_ok 0, Input.start none),
        (env_ok 10, Input.voice voice_event_result (some ⟨some [104, 105], 0, 0⟩))]
      (created 1 true 3000)).1.last_result = [] ∧
    (run [(env_ok 0, Input.set_listener (some 1) 0), (env_ok 0, Input.start none),
        (env_ok 10, Input.voice voice_event_result (some ⟨some [104, 105], 0, 0⟩))]
      (created 1 true 3000)).1.last_result = [104, 105] := by
  decide

/-- C23 (amended): with a null listener `ai_asr_voice_callback` returns at its
first guard.  A backend event of any kind and payload, and every recorder
callback that reports an error, changes no field of the session and makes no
outside call: the listener is not invoked, nothing is put on the host queue,
capture is not released, the terminal-sent latch and the dedup record are not
written.  A focus loss (suggestion other than "play") still runs the teardown
of `ai_asr_focus_callback` itself, so it requests the recorder close, abandons
the lease and clears both handles, but it publishes nothing, invokes no
listener and leaves the terminal-sent latch and the dedup record as they
were. -/
theorem C23_null_listener (e : Env) (ctx : asr_context_t) (hcb : ctx.cb = none) :
    (∀ ev res, ai_asr_voice_callback e ev res ctx = (ctx, [])) ∧
    (∀ ret, media_recorder_open_cb e ret ctx = (ctx, []) ∧
      media_recorder_start_cb e ret ctx = (ctx, []) ∧
      media_recorder_event_callback e ret ctx = (ctx, [])) ∧
    (∀ ret obj, ret < 0 → media_recorder_prepare_connect_cb e ret obj ctx = (ctx, [])) ∧
    (∀ s, s ≠ MEDIA_FOCUS_PLAY →
      ai_asr_focus_callback e s ctx =
        ({ ctx with handle := none, focus_handle := none }, (ai_asr_finish_handler e ctx).2.2) ∧
      messages (ai_asr_focus_callback e s ctx).2 = [] ∧
      listener_calls (ai_asr_focus_callback e s ctx).2 = []) := by
  have hg : ctx.cb.isSome = false ∨ ctx.is_send_finished = true ∨
      ctx.state = ASR_STATE_CLOSE := Or.inl (by rw [hcb]; rfl)
  refine ⟨fun ev res => voice_callback_guarded e ev res ctx hg, ?_, ?_, ?_⟩
  · intro ret
    simp only [media_recorder_open_cb, media_recorder_start_cb, media_recorder_event_callback,
      send_error_guarded e _ ctx hg, ite_self, and_self]
  · intro ret obj hret
    simp only [media_recorder_prepare_connect_cb, hret, if_true, send_error_guarded e _ ctx hg]
  · intro s hs
    have hfc : ai_asr_focus_callback e s ctx =
        ({ ctx with handle := none, focus_handle := none },
          (ai_asr_finish_handler e ctx).2.2) := by
      have hg2 : ({ ctx with handle := none, focus_handle := none } : asr_context_t).cb.isSome
            = false ∨
          ({ ctx with handle := none, focus_handle := none } : asr_context_t).is_send_finished
            = true ∨
          ({ ctx with handle := none, focus_handle := none } : asr_context_t).state
            = ASR_STATE_CLOSE :=
        Or.inl (by simp [hcb])
      simp only [ai_asr_focus_callback, hs, ne_eq, not_false_eq_true, if_true,
        finish_handler_ctx, voice_callback_guarded e _ _ _ hg2, List.append_nil]
    rw [hfc]
    exact ⟨rfl, messages_finish_handler e ctx, listener_calls_finish_handler e ctx⟩

/-- C23 (amended) at a concrete input: the session started without a listener
ignores a backend `error`, and a focus loss releases recorder 7 and lease 5
without publishing. -/
theorem C23_null_listener_witness :
    ai_asr_voice_callback (env_ok 10) voice_event_error (some ⟨none, 0, 1⟩)
      (run [(env_ok 0, Input.start none)] (created 1 true 3000)).1 =
      ((run [(env_ok 0, Input.start none)] (created 1 true 3000)).1, []) ∧
    messages (ai_asr_focus_callback (env_ok 10) 1
      (run [(env_ok 0, Input.start none)] (created 1 true 3000)).1).2 = [] :=
  ⟨(C23_null_listener (env_ok 10) _ (by decide)).1 voice_event_error (some ⟨none, 0, 1⟩),
   ((C23_null_listener (env_ok 10) _ (by decide)).2.2.2 1 (by decide)).2.1⟩

/-- C24: callback marshalling.  With a host loop configured
`ai_asr_send_callback` makes exactly one outside call,
`uv_async_queue_send` with a message that carries the event and payload it was
given; it does not invoke the listener.  The listener is invoked by the
host-side handler `ai_asr_callback_l`, once per message, with the event and
payload of the message; the host loop working through its queue in arrival
order therefore makes the listener invocations in emission order.  With no
host loop `ai_asr_send_callback` puts nothing on the queue and invokes the
listener once, inline.  In both modes a null listener is never invoked. -/
theorem C24_callback_marshalling (ctx : asr_context_t) (ev : voice_event_t)
    (res : Option asr_result_t) (ms : List message_data_cb_t) :
    (ctx.user_loop = true →
      ai_asr_send_callback ctx ev res = [Effect.queue_send ⟨ev, res⟩] ∧
      listener_calls (ai_asr_send_callback ctx ev res) = [] ∧
      listener_calls (send_callbacks ctx ms) = [] ∧
      queued (send_callbacks ctx ms) = ms ∧
      listener_calls (host_loop ctx (queued (send_callbacks ctx ms))) =
        (if ctx.cb.isSome then ms else [])) ∧
    (ctx.user_loop = false →
      queued (ai_asr_send_callback ctx ev res) = [] ∧
      listener_calls (ai_asr_send_callback ctx ev res) =
        (if ctx.cb.isSome then [⟨ev, res⟩] else []) ∧
      queued (send_callbacks ctx ms) = [] ∧
      listener_calls (send_callbacks ctx ms) = (if ctx.cb.isSome then ms else [])) ∧
    listener_calls (ai_asr_async_cb ctx ⟨ev, res⟩) =
      (if ctx.cb.isSome then [⟨ev, res⟩] else []) ∧
    (ctx.cb = none →
      listener_calls (ai_asr_send_callback ctx ev res) = [] ∧
      listener_calls (send_callbacks ctx ms) = [] ∧
      listener_calls (host_loop ctx (queued (send_callbacks ctx ms))) = []) := by
  refine ⟨?_, ?_, listener_calls_callback_l ctx _, ?_⟩
  · intro h
    have hs := send_callbacks_host ctx h ms
    refine ⟨send_callback_host ctx ev res h, ?_, hs.1, hs.2, ?_⟩
    · rw [send_callback_host ctx ev res h]; rfl
    · rw [hs.2]; exact listener_calls_host_loop ctx ms
  · intro h
    have hs := send_callbacks_inline ctx h ms
    have h1 := send_callbacks_inline ctx h [⟨ev, res⟩]
    simp only [send_callbacks, List.append_nil] at h1
    exact ⟨h1.2, h1.1, hs.2, hs.1⟩
  · intro hcb
    have hl := listener_calls_host_loop ctx (queued (send_callbacks ctx ms))
    rw [hcb] at hl
    refine ⟨?_, ?_, by simpa using hl⟩
    · cases hu : ctx.user_loop
      · have h1 := send_callbacks_inline ctx hu [⟨ev, res⟩]
        simp only [send_callbacks, List.append_nil] at h1
        rw [h1.1, hcb]; rfl
      · rw [send_callback_host ctx ev res hu]; rfl
    · cases hu : ctx.user_loop
      · rw [(send_callbacks_inline ctx hu ms).1, hcb]; rfl
      · exact (send_callbacks_host ctx hu ms).1

/-- C24 at a concrete input: a session with a host loop and listener 1 emits
`start` then `complete`; both go to the queue, and the host loop invokes the
listener with `start` first.  Without a host loop the listener is invoked
inline. -/
theorem C24_callback_marshalling_witness :
    listener_calls (host_loop { created 1 true 3000 with cb := some 1 }
      (queued (send_callbacks { created 1 true 3000 with cb := some 1 }
        [⟨voice_event_start, none⟩, ⟨voice_event_complete, none⟩]))) =
      [⟨voice_event_start, none⟩, ⟨voice_event_complete, none⟩] ∧
    listener_calls (ai_asr_send_callback { created 1 false 3000 with cb := some 1 }
      voice_event_start none) = [⟨voice_event_start, none⟩] :=
  ⟨((C24_callback_marshalling { created 1 true 3000 with cb := some 1 } voice_event_start none
      [⟨voice_event_start, none⟩, ⟨voice_event_complete, none⟩]).1 (by decide)).2.2.2.2,
   ((C24_callback_marshalling { created 1 false 3000 with cb := some 1 } voice_event_start none
      []).2.1 (by decide)).2.1⟩

/-- C25 (code defect): two successive runs of `ai_asr_finish_handler` on a
session with an engine call the plugin's `finish` twice, not once: the second
run finds the recorder handle and the focus lease cleared and skips them, but
nothing records that `finish` was already called.  Over the two runs the
recorder close and the focus abandon are requested at most once each.  The
finish command on a started session with a listener, and a focus loss, each
call `finish` twice within one turn. -/
theorem C25_plugin_finish_twice (e1 e2 : Env) (ctx : asr_context_t) :
    ((ai_asr_finish_handler e1 ctx).2.2 ++
        (ai_asr_finish_handler e2 (ai_asr_finish_handler e1 ctx).2.1).2.2).count
      Effect.plugin_finish = (if ctx.engine.isSome then 2 else 0) ∧
    (ai_asr_finish_handler e1 ctx).2.2.count Effect.plugin_finish =
      (if ctx.engine.isSome then 1 else 0) ∧
    (∀ h, ((ai_asr_finish_handler e1 ctx).2.2 ++
        (ai_asr_finish_handler e2 (ai_asr_finish_handler e1 ctx).2.1).2.2).count
      (Effect.media_uv_recorder_close h) ≤ 1) ∧
    (∀ f, ((ai_asr_finish_handler e1 ctx).2.2 ++
        (ai_asr_finish_handler e2 (ai_asr_finish_handler e1 ctx).2.1).2.2).count
      (Effect.media_focus_abandon f) ≤ 1) ∧
    (step (env_ok 10) Input.finish
      (run [(env_ok 0, Input.set_listener (some 1) 0), (env_ok 0, Input.start none)]
        (created 1 true 3000)).1).2.count Effect.plugin_finish = 2 ∧
    (step (env_ok 10) (Input.focus 1)
      (run [(env_ok 0, Input.set_listener (some 1) 0), (env_ok 0, Input.start none)]
        (created 1 true 3000)).1).2.count Effect.plugin_finish = 2 := by
  refine ⟨?_, count_finish_handler_plugin_finish e1 ctx, ?_, ?_, by decide, by decide⟩
  · rw [List.count_append, count_finish_handler_plugin_finish, (finish_handler_again e1 e2 ctx).1]
    split_ifs <;> simp
  · intro h
    rw [List.count_append, (finish_handler_again e1 e2 ctx).1]
    have := count_finish_handler_close_le e1 ctx h
    split_ifs <;> simpa using this
  · intro f
    rw [List.count_append, (finish_handler_again e1 e2 ctx).1]
    have := count_finish_handler_abandon_le e1 ctx f
    split_ifs <;> simpa using this

/-- C26 (code defect): `ai_asr_start_l` writes STARTED before it starts the
plugin and the recorder and no failure path writes the state back.  The state
after the call is STARTED whenever the call got past the format step, whatever
it returns.  On a fresh session (state INIT) with a listener: a failing plugin
start returns -1, a denied focus request returns `-EPERM`, a failing recorder
start returns -1, and each leaves the state STARTED; a start repeated after
the failure returns 0 without calling anything, and a close is rejected. -/
theorem C26_failed_start_state (e : Env) (af : Option CStr) (ctx : asr_context_t) :
    (ai_asr_start_l e af ctx).2.1.state =
      (if ctx.engine.isSome ∧ 0 ≤ (start_l_format e af ctx).1 then ASR_STATE_START
       else ctx.state) ∧
    (ai_asr_start_l { env_ok 0 with plugin_start_ret := -1 } none
      { created 1 true 3000 with cb := some 1 }).1 = -1 ∧
    (ai_asr_start_l { env_ok 0 with plugin_start_ret := -1 } none
      { created 1 true 3000 with cb := some 1 }).2.1.state = ASR_STATE_START ∧
    (ai_asr_start_l { env_ok 0 with init_suggestion := 1 } none
      { created 1 true 3000 with cb := some 1 }).1 = -EPERM ∧
    (ai_asr_start_l { env_ok 0 with init_suggestion := 1 } none
      { created 1 true 3000 with cb := some 1 }).2.1.state = ASR_STATE_START ∧
    (ai_asr_start_l { env_ok 0 with recorder_start_ret := -1 } none
      { created 1 true 3000 with cb := some 1 }).1 = -1 ∧
    (ai_asr_start_l { env_ok 0 with recorder_start_ret := -1 } none
      { created 1 true 3000 with cb := some 1 }).2.1.state = ASR_STATE_START ∧
    ai_asr_start_l (env_ok 10) none
      (ai_asr_start_l { env_ok 0 with plugin_start_ret := -1 } none
        { created 1 true 3000 with cb := some 1 }).2.1 =
      (0, (ai_asr_start_l { env_ok 0 with plugin_start_ret := -1 } none
        { created 1 true 3000 with cb := some 1 }).2.1, []) ∧
    ai_asr_close_l
      (ai_asr_start_l { env_ok 0 with plugin_start_ret := -1 } none
        { created 1 true 3000 with cb := some 1 }).2.1 =
      (0, (ai_asr_start_l { env_ok 0 with plugin_start_ret := -1 } none
        { created 1 true 3000 with cb := some 1 }).2.1, []) := by
  refine ⟨start_l_state e af ctx, ?_, ?_, ?_, ?_, ?_, ?_, ?_, ?_⟩ <;> decide

set_option maxRecDepth 100000 in
/-- C29 (as stated, refuted): a started session receives a transcript of 1024
bytes whose result carries the error code 2, and the same with the error code
3.  Neither is published unchanged: both are published as the same message,
with the text and the duration as received but the error code
`asr_error_failed`. -/
theorem C29_counterexample :
    messages (ai_asr_voice_callback (env_ok 1000) voice_event_result
      (some ⟨some (List.replicate 1024 97), 0, 2⟩)
      (run [(env_ok 0, Input.set_listener (some 1) 0), (env_ok 0, Input.start none)]
        (created 1 true 3000)).1).2 =
      [⟨voice_event_result,
        some ⟨some (List.replicate 1024 97), 0, asr_error_t.asr_error_failed⟩⟩] ∧
    messages (ai_asr_voice_callback (env_ok 1000) voice_event_result
      (some ⟨some (List.replicate 1024 97), 0, 3⟩)
      (run [(env_ok 0, Input.set_listener (some 1) 0), (env_ok 0, Input.start none)]
        (created 1 true 3000)).1).2 =
      [⟨voice_event_result,
        some ⟨some (List.replicate 1024 97), 0, asr_error_t.asr_error_failed⟩⟩] ∧
    asr_error_t.asr_error_failed.toInt ≠ 2 ∧ asr_error_t.asr_error_failed.toInt ≠ 3 := by
  decide

/-- C29 (amended): the silence gate never fires for transcripts of 1024 bytes
or more.  The dedup record lives in a buffer of 1024 bytes, so it holds at most
1023 bytes and never equals such a text.  For every callback that carries such
a text, on any session: the gate does not synthesize `complete`; if the
callback passes its guards (listener set, terminal not sent, not CLOSED) the
record becomes the first 1023 bytes of the text, the time stamp becomes the
time of arrival, and the incoming event is published with its kind, its whole
text and its duration as received and with the error code `asr_error_success`
for the code 0 and `asr_error_failed` for every other code; otherwise nothing
happens.  Over any burst of such events, whatever the times of arrival and
however often the text repeats, no message with a null payload (the
synthesized `complete`) is published, and on a session that passes the guards
every non-terminal event is published in this way, in order. -/
theorem C29_long_transcript_never_gated (e : Env) (ev : voice_event_t) (r : voice_result_t)
    (text : CStr) (ctx : asr_context_t) (hr : r.result = some text)
    (hlen : 1024 ≤ text.length) (hbuf : ctx.last_result.length < LAST_RESULT_SIZE) :
    (ctx.cb.isSome = true → ctx.is_send_finished = false → ctx.state ≠ ASR_STATE_CLOSE →
      messages (ai_asr_voice_callback e ev (some r) ctx).2 =
        [⟨ev, some ⟨some text, r.duration,
          if r.error_code ≠ 0 then asr_error_t.asr_error_failed
          else asr_error_t.asr_error_success⟩⟩] ∧
      (ai_asr_voice_callback e ev (some r) ctx).1.last_result = text.take 1023 ∧
      (ai_asr_voice_callback e ev (some r) ctx).1.last_result ≠ text ∧
      (ai_asr_voice_callback e ev (some r) ctx).1.last_result_time = e.now) ∧
    (¬ (ctx.cb.isSome = true ∧ ctx.is_send_finished = false ∧ ctx.state ≠ ASR_STATE_CLOSE) →
      ai_asr_voice_callback e ev (some r) ctx = (ctx, [])) ∧
    (⟨voice_event_complete, none⟩ : message_data_cb_t) ∉
      messages (ai_asr_voice_callback e ev (some r) ctx).2 ∧
    (ai_asr_voice_callback e ev (some r) ctx).1.last_result.length < LAST_RESULT_SIZE ∧
    (∀ (vs : List (Env × voice_event_t × Option voice_result_t)) (c : asr_context_t),
      c.last_result.length < LAST_RESULT_SIZE →
      (∀ v ∈ vs, ∃ q t, v.2.2 = some q ∧ q.result = some t ∧ 1024 ≤ t.length) →
      (∀ m ∈ messages (run (backend vs) c).2, m.result ≠ none) ∧
      (c.cb.isSome = true → c.is_send_finished = false → c.state ≠ ASR_STATE_CLOSE →
        (∀ v ∈ vs, v.2.1.terminal = false) →
        messages (run (backend vs) c).2 =
          vs.map (fun v => ⟨v.2.1, v.2.2.map (fun q => ⟨q.result, q.duration,
            if q.error_code ≠ 0 then asr_error_t.asr_error_failed
            else asr_error_t.asr_error_success⟩)⟩))) := by
  have hlen2 : LAST_RESULT_SIZE ≤ text.length := hlen
  have hstep := voice_callback_long_text e ev r text ctx hr hlen2 hbuf
  have hmsg := voice_callback_long_text_messages e ev r text ctx hr hlen2 hbuf
  refine ⟨?_, ?_, ?_, voice_callback_long_text_buffer e ev r text ctx hr hlen2 hbuf, ?_⟩
  · intro hcb hf hs
    rw [if_pos ⟨hcb, hf, hs⟩] at hstep hmsg
    have hd := publish_dedup e ev (some (copy_result r))
      { ctx with last_result := strlcpy text LAST_RESULT_SIZE, last_result_time := e.now }
    rw [hstep]
    refine ⟨?_, hd.1, ?_, hd.2⟩
    · rw [messages_publish]
      simp [copy_result, hr]
    · rw [hd.1]
      intro h
      have := strlcpy_length text
      simp only [] at h
      rw [h] at this
      omega
  · intro hg
    rw [if_neg hg] at hstep
    exact hstep
  · rw [hmsg]
    split_ifs <;> simp
  · intro vs c hc hv
    exact ⟨(run_long_text_no_gate vs c hc hv).2,
      fun hcb hf hs hnt => run_long_text_published vs c hc hcb hf hs hv hnt⟩

set_option maxRecDepth 100000 in
/-- C29 (amended) at a concrete input: a started session (timeout 3000 ms) gets
a final transcript of 1024 bytes and duration 7 at 1000 us and the identical
transcript again at 5000000 us, well past the timeout: the second arrival is
published with its text and duration, no `complete` is synthesized, and the
time stamp is set again. -/
theorem C29_long_transcript_never_gated_witness :
    messages (ai_asr_voice_callback (env_ok 5000000) voice_event_result
      (some ⟨some (List.replicate 1024 97), 7, 0⟩)
      (run [(env_ok 0, Input.set_listener (some 1) 0), (env_ok 0, Input.start none),
        (env_ok 1000, Input.voice voice_event_result
          (some ⟨some (List.replicate 1024 97), 7, 0⟩))]
        (created 1 true 3000)).1).2 =
      [⟨voice_event_result,
        some ⟨some (List.replicate 1024 97), 7, asr_error_t.asr_error_success⟩⟩] ∧
    (ai_asr_voice_callback (env_ok 5000000) voice_event_result
      (some ⟨some (List.replicate 1024 97), 7, 0⟩)
      (run [(env_ok 0, Input.set_listener (some 1) 0), (env_ok 0, Input.start none),
        (env_ok 1000, Input.voice voice_event_result
          (some ⟨some (List.replicate 1024 97), 7, 0⟩))]
        (created 1 true 3000)).1).1.last_result_time = 5000000 :=
  ⟨((C29_long_transcript_never_gated (env_ok 5000000) voice_event_result
      ⟨some (List.replicate 1024 97), 7, 0⟩ (List.replicate 1024 97) _ rfl (by decide)
      (by decide)).1 (by decide) (by decide) (by decide)).1,
   ((C29_long_transcript_never_gated (env_ok 5000000) voice_event_result
      ⟨some (List.replicate 1024 97), 7, 0⟩ (List.replicate 1024 97) _ rfl (by decide)
      (by decide)).1 (by decide) (by decide) (by decide)).2.2.2⟩

end AiAsr

namespace VolcConversation
open volc_conversation_state_t conversation_engine_event_t conversation_engine_error_t

/-! ## Realtime conversation engine: base64, inbound mapping, send buffer, cancel -/

/-- Whatever `base64_decode` returns consists of zero bytes only. -/
theorem base64_decode_zeros (data out : Bytes) (h : base64_decode data = some out) :
    ∀ b ∈ out, b = 0 := by
  unfold base64_decode at h
  split_ifs at h <;> simp only [Option.some.injEq] at h <;> subst h <;>
    intro b hb <;> exact (List.mem_replicate.mp hb).2

/-- The inbound mapping for the message types other than `response.audio.delta`,
on an engine with a callback registered and a message that carries the member
the type calls for: one event of the listed kind, the listed state. -/
theorem process_server_message_mapping (engine : volc_conversation_engine_t)
    (hcb : engine.event_callback.isSome = true) (id text : Bytes) :
    volc_conversation_process_server_message engine
        (some { server_json_of_type "session.created" with session_id := some id }) =
      (0, { engine with session_id := some id, state := VOLC_STATE_SESSION_CREATED },
        [Effect.event_callback conversation_engine_event_start
          ⟨some id, 0, conversation_engine_error_success⟩]) ∧
    volc_conversation_process_server_message engine
        (some (server_json_of_type "input_audio_buffer.committed")) =
      (0, { engine with state := VOLC_STATE_PROCESSING },
        [Effect.event_callback conversation_engine_event_start
          ⟨none, 0, conversation_engine_error_success⟩]) ∧
    volc_conversation_process_server_message engine
        (some { server_json_of_type "conversation.item.input_audio_transcription.completed"
                with transcript := some text }) =
      (0, engine,
        [Effect.event_callback conversation_engine_event_text
          ⟨some text, text.length, conversation_engine_error_success⟩]) ∧
    volc_conversation_process_server_message engine
        (some { server_json_of_type "response.created" with response_id := some id }) =
      (0, { engine with current_response_id := some id, state := VOLC_STATE_SPEAKING },
        [Effect.event_callback conversation_engine_event_start
          ⟨none, 0, conversation_engine_error_success⟩]) ∧
    volc_conversation_process_server_message engine
        (some { server_json_of_type "response.audio_transcript.delta"
                with delta := some text }) =
      (0, engine,
        [Effect.event_callback conversation_engine_event_text
          ⟨some text, text.length, conversation_engine_error_success⟩]) ∧
    volc_conversation_process_server_message engine
        (some (server_json_of_type "response.done")) =
      (0, { engine with state := VOLC_STATE_SESSION_CREATED, current_response_id := none },
        [Effect.event_callback conversation_engine_event_complete
          ⟨none, 0, conversation_engine_error_success⟩]) ∧
    volc_conversation_process_server_message engine
        (some { server_json_of_type "error" with error_message := some text }) =
      (0, { engine with state := VOLC_STATE_ERROR },
        [Effect.event_callback conversation_engine_event_error
          ⟨some text, text.length, conversation_engine_error_network⟩]) := by
  have hn : engine.event_callback.isNone = false := by
    cases h : engine.event_callback <;> simp_all
  refine ⟨?_, ?_, ?_, ?_, ?_, ?_, ?_⟩ <;>
    simp [volc_conversation_process_server_message, server_json_of_type,
      volc_conversation_send_event, hn, cstr]

/-- A full send buffer rejects the message: `-ENOMEM`, engine unchanged, no
outside call. -/
theorem send_json_message_full (lib : Lib) (engine : volc_conversation_engine_t)
    (j : json_out) (hfull : ai_ring_buffer_is_full engine.send_buffer = true) :
    volc_conversation_send_json_message lib engine (some j) = (-ENOMEM, engine, []) := by
  simp [volc_conversation_send_json_message, hfull]

/-- A message that fits is accepted and appended in order. -/
theorem send_json_message_fits (lib : Lib) (engine : volc_conversation_engine_t)
    (j : json_out) (hfree : engine.send_buffer.items.length < engine.send_buffer.capacity)
    (hfit : engine.send_buffer.items.length + (lib.json_object_to_json_string j).length ≤
      engine.send_buffer.capacity) :
    volc_conversation_send_json_message lib engine (some j) =
      (0, { engine with send_buffer :=
              { engine.send_buffer with
                items := engine.send_buffer.items ++ lib.json_object_to_json_string j } },
        [Effect.lws_callback_on_writable engine.wsi]) := by
  have hnf : ai_ring_buffer_is_full engine.send_buffer = false := by
    simp [ai_ring_buffer_is_full, hfree]
  simp [volc_conversation_send_json_message, hnf, ai_ring_buffer_queue_arr, hfit]

/-- C15 (failing input, evaluated): the one-byte string 0x01 is encoded as
"AQ==" and decoded to the one-byte string 0x00; the three bytes "Man" are
encoded as "TWFu" and decoded to three zero bytes.  The length comes back, the
bytes do not. -/
theorem C15_round_trip_fails :
    base64_encode [1] = [65, 81, 61, 61] ∧
    base64_decode (base64_encode [1]) = some [0] ∧
    base64_decode (base64_encode [1]) ≠ some [1] ∧
    base64_encode [77, 97, 110] = [84, 87, 70, 117] ∧
    base64_decode (base64_encode [77, 97, 110]) = some [0, 0, 0] := by
  decide

/-- C16 (failing input, evaluated): an engine with a callback registered
receives `response.audio.delta` whose `delta` is "AQ==", the base64 text of
the single byte 0x01.  One `audio` event is published and the state is
unchanged, but the payload is the single byte 0x00, not the decoded byte. -/
theorem C16_audio_delta_payload :
    volc_conversation_process_server_message (engine_ready 8)
      (some { server_json_of_type "response.audio.delta" with delta := some [65, 81, 61, 61] })
      = (0, engine_ready 8,
          [Effect.event_callback conversation_engine_event_audio
            ⟨some [0], 1, conversation_engine_error_success⟩]) ∧
    base64_encode [1] = [65, 81, 61, 61] := by
  decide

/-- C17 (failing input, evaluated): the send buffer has capacity 4 and holds 3
bytes, so 1 byte is free; the message renders to the 2 bytes `{}`.  Whatever
the ring buffer does with bytes that do not fit, the call returns 0 instead of
`-ENOMEM` and leaves the buffer to that overflow behaviour; no buffer can then
hold the old bytes followed by the whole message within the capacity. -/
theorem C17_accepts_without_room
    (overflow : ai_ring_buffer_t → Bytes → ai_ring_buffer_t) (j : json_out) :
    (volc_conversation_send_json_message ⟨fun _ => [123, 125], overflow⟩
      { engine_ready 4 with send_buffer := ⟨4, [1, 2, 3]⟩ } (some j)).1 = 0 ∧
    (volc_conversation_send_json_message ⟨fun _ => [123, 125], overflow⟩
      { engine_ready 4 with send_buffer := ⟨4, [1, 2, 3]⟩ } (some j)).2.1.send_buffer =
      overflow ⟨4, [1, 2, 3]⟩ [123, 125] ∧
    ¬ ((overflow ⟨4, [1, 2, 3]⟩ [123, 125]).items = [1, 2, 3] ++ [123, 125] ∧
        (overflow ⟨4, [1, 2, 3]⟩ [123, 125]).items.length ≤ 4) := by
  refine ⟨rfl, rfl, ?_⟩
  rintro ⟨h1, h2⟩
  rw [h1] at h2
  simp at h2

/-- C18 (as stated, refuted): on an engine that knows no response id the cancel
call returns `-EINVAL`, a negative status: it enqueues nothing and changes no
field, but it does fail.  And with a response id known and the send buffer
full, nothing is enqueued either. -/
theorem C18_counterexample :
    volc_conversation_cancel ⟨fun _ => [123, 125], fun b _ => b⟩ (engine_ready 8) =
      (-22, engine_ready 8, []) ∧
    (volc_conversation_cancel ⟨fun _ => [123, 125], fun b _ => b⟩ (engine_ready 8)).1 < 0 ∧
    volc_conversation_cancel ⟨fun _ => [123, 125], fun b _ => b⟩
      { engine_ready 2 with current_response_id := some [114], send_buffer := ⟨2, [1, 2]⟩ } =
      (-12, { engine_ready 2 with current_response_id := some [114],
                                  send_buffer := ⟨2, [1, 2]⟩ }, []) := by
  decide

/-- C18 (amended): `volc_conversation_cancel` hands a `response.cancel` message
to `volc_conversation_send_json_message` if and only if a response id is
currently known; the id is set by `response.created` and cleared by
`response.done`.  With an id known the message is enqueued and the writable
notification armed unless the send buffer is full, in which case the call
returns `-ENOMEM` and changes nothing.  When no response id is known the call
enqueues nothing, makes no outside call, changes no engine field and returns
`-EINVAL`. -/
theorem C18_cancel (lib : Lib) (engine : volc_conversation_engine_t) :
    (engine.current_response_id = none →
      volc_conversation_cancel lib engine = (-EINVAL, engine, [])) ∧
    (engine.current_response_id ≠ none →
      volc_conversation_cancel lib engine =
        volc_conversation_send_json_message lib engine
          (some (json_out.of_type (cstr "response.cancel")))) ∧
    (engine.current_response_id ≠ none →
      ai_ring_buffer_is_full engine.send_buffer = true →
      volc_conversation_cancel lib engine = (-ENOMEM, engine, [])) ∧
    (engine.current_response_id ≠ none →
      engine.send_buffer.items.length +
        (lib.json_object_to_json_string (json_out.of_type (cstr "response.cancel"))).length ≤
          engine.send_buffer.capacity →
      engine.send_buffer.items.length < engine.send_buffer.capacity →
      volc_conversation_cancel lib engine =
        (0, { engine with send_buffer :=
                { engine.send_buffer with
                  items := engine.send_buffer.items ++
                    lib.json_object_to_json_string (json_out.of_type (cstr "response.cancel")) } },
          [Effect.lws_callback_on_writable engine.wsi])) ∧
    (∀ id, (volc_conversation_process_server_message engine
        (some { server_json_of_type "response.created" with response_id := some id })
        ).2.1.current_response_id = some id) ∧
    (volc_conversation_process_server_message engine
        (some (server_json_of_type "response.done"))).2.1.current_response_id = none := by
  have hsend : engine.current_response_id ≠ none →
      volc_conversation_cancel lib engine =
        volc_conversation_send_json_message lib engine
          (some (json_out.of_type (cstr "response.cancel"))) := by
    intro h
    cases hc : engine.current_response_id with
    | none => exact absurd hc h
    | some id => simp [volc_conversation_cancel, hc]
  refine ⟨?_, hsend, ?_, ?_, ?_, ?_⟩
  · intro h
    simp [volc_conversation_cancel, h]
  · intro h hfull
    rw [hsend h]
    exact send_json_message_full lib engine _ hfull
  · intro h hfit hfree
    rw [hsend h]
    exact send_json_message_fits lib engine _ hfree hfit
  · intro id
    simp [volc_conversation_process_server_message, server_json_of_type, cstr]
  · simp [volc_conversation_process_server_message, server_json_of_type, cstr]

/-- C18 (amended) at concrete inputs: with the response id "r" known and room
in the buffer the 2-byte message is enqueued; with no id known the call
returns `-EINVAL`. -/
theorem C18_cancel_witness :
    volc_conversation_cancel ⟨fun _ => [123, 125], fun b _ => b⟩
      { engine_ready 8 with current_response_id := some [114] } =
      (0, { engine_ready 8 with current_response_id := some [114],
                                send_buffer := ⟨8, [123, 125]⟩ },
        [Effect.lws_callback_on_writable (some 1)]) ∧
    volc_conversation_cancel ⟨fun _ => [123, 125], fun b _ => b⟩ (engine_ready 8) =
      (-EINVAL, engine_ready 8, []) :=
  ⟨(C18_cancel ⟨fun _ => [123, 125], fun b _ => b⟩
      { engine_ready 8 with current_response_id := some [114] }).2.2.2.1
      (by decide) (by decide) (by decide),
   (C18_cancel ⟨fun _ => [123, 125], fun b _ => b⟩ (engine_ready 8)).1 rfl⟩

/-! ## Base64 encoding and the writable drain -/

theorem encoding_table_lookup : ∀ i < 64, encoding_table.getD i 0 = rfc4648_char i := by
  decide

theorem encoding_table_length : encoding_table.length = 64 := by decide

/-- Every index `(triple >> k * 6) & 0x3F` lies inside `encoding_table`. -/
theorem sextet_in_bounds (triple k : Nat) :
    (triple >>> (k * 6)) &&& 0x3F < encoding_table.length := by
  rw [encoding_table_length]
  have h : (0x3F : Nat) = 2 ^ 6 - 1 := by norm_num
  rw [h, Nat.and_pow_two_sub_one_eq_mod]
  exact Nat.mod_lt _ (by norm_num)

/-- The table index `(triple >> k) & 0x3F` is the 6-bit digit of `triple` at
bit `k`. -/
theorem sextet_eq (triple k : Nat) : (triple >>> k) &&& 0x3F = triple / 2 ^ k % 64 := by
  have h : (0x3F : Nat) = 2 ^ 6 - 1 := by norm_num
  rw [Nat.shiftRight_eq_div_pow, h, Nat.and_pow_two_sub_one_eq_mod]

theorem rfc4648_char_ne_pad (v : Nat) : rfc4648_char v ≠ 61 := by
  unfold rfc4648_char
  split_ifs <;> omega

theorem rfc4648_char_mem (v : Nat) (hv : v < 64) : rfc4648_char v ∈ encoding_table := by
  rw [← encoding_table_lookup v hv]
  rw [List.getD_eq_getElem _ _ (by rw [encoding_table_length]; exact hv)]
  exact List.getElem_mem _

/-- The loop body of `base64_encode` on three bytes: the four characters of the
6-bit digits of the 24-bit big-endian triple. -/
theorem encode_triple_eq (a b c : Nat) (ha : a < 256) (hb : b < 256) (hc : c < 256) :
    encode_triple a b c =
      [rfc4648_char ((a * 2 ^ 16 + b * 2 ^ 8 + c) / 2 ^ 18 % 64),
       rfc4648_char ((a * 2 ^ 16 + b * 2 ^ 8 + c) / 2 ^ 12 % 64),
       rfc4648_char ((a * 2 ^ 16 + b * 2 ^ 8 + c) / 2 ^ 6 % 64),
       rfc4648_char ((a * 2 ^ 16 + b * 2 ^ 8 + c) % 64)] := by
  have ht : a * 2 ^ 16 + b * 2 ^ 8 + c < 2 ^ 32 := by omega
  simp only [encode_triple, sextet_eq, Nat.shiftLeft_eq, Nat.mod_eq_of_lt ht]
  rw [encoding_table_lookup _ (Nat.mod_lt _ (by norm_num)),
    encoding_table_lookup _ (Nat.mod_lt _ (by norm_num)),
    encoding_table_lookup _ (Nat.mod_lt _ (by norm_num)),
    encoding_table_lookup _ (Nat.mod_lt _ (by norm_num))]
  norm_num

theorem encode_triple_length (a b c : Nat) : (encode_triple a b c).length = 4 := rfl

theorem encode_groups_length (data : Bytes) :
    (encode_groups data).length = 4 * ((data.length + 2) / 3) := by
  induction data using encode_groups.induct with
  | case1 a b c rest ih =>
    simp only [encode_groups, List.length_append, encode_triple_length, ih, List.length_cons]
    omega
  | case2 a b => simp [encode_groups, encode_triple_length]
  | case3 a => simp [encode_groups, encode_triple_length]
  | case4 => rfl

theorem mod_table_lookup (n : Nat) : mod_table.getD (n % 3) 0 = (3 - n % 3) % 3 := by
  have h : n % 3 < 3 := Nat.mod_lt _ (by norm_num)
  interval_cases (n % 3) <;> rfl

/-- One round of the loop splits off: the encoding of three bytes followed by
the encoding of the rest. -/
theorem base64_encode_cons3 (a b c : Nat) (rest : Bytes) :
    base64_encode (a :: b :: c :: rest) = encode_triple a b c ++ base64_encode rest := by
  have hpad : mod_table.getD ((a :: b :: c :: rest).length % 3) 0 =
      mod_table.getD (rest.length % 3) 0 := by
    simp only [List.length_cons]
    rw [show rest.length + 1 + 1 + 1 = rest.length + 3 by ring, Nat.add_mod_right]
  have hle : mod_table.getD (rest.length % 3) 0 ≤ 4 * ((rest.length + 2) / 3) := by
    rw [mod_table_lookup]
    omega
  have hlen : 4 * (((a :: b :: c :: rest).length + 2) / 3) -
      mod_table.getD (rest.length % 3) 0 =
      4 + (4 * ((rest.length + 2) / 3) - mod_table.getD (rest.length % 3) 0) := by
    simp only [List.length_cons]
    omega
  simp only [base64_encode, hpad, hlen, encode_groups]
  rw [List.take_append_eq_append_take]
  simp only [encode_triple_length, List.append_assoc]
  congr 1
  · exact List.take_of_length_le (by rw [encode_triple_length]; omega)
  · congr 2
    omega

theorem base64_encode_eq_rfc4648 (x : Bytes) :
    (∀ b ∈ x, b < 256) → base64_encode x = rfc4648_encode x := by
  induction x using encode_groups.induct with
  | case1 a b c rest ih =>
    intro hx
    rw [base64_encode_cons3, ih (fun y hy => hx y (by simp [hy])),
      encode_triple_eq a b c (hx a (by simp)) (hx b (by simp)) (hx c (by simp))]
    rfl
  | case2 a b =>
    intro hx
    have h := encode_triple_eq a b 0 (hx a (by simp)) (hx b (by simp)) (by norm_num)
    simp only [base64_encode, encode_groups, h, rfc4648_encode]
    simp [mod_table]
  | case3 a =>
    intro hx
    have h := encode_triple_eq a 0 0 (hx a (by simp)) (by norm_num) (by norm_num)
    simp only [base64_encode, encode_groups, h, rfc4648_encode]
    simp [mod_table]
  | case4 =>
    intro _
    rfl

theorem rfc4648_count_pad (x : Bytes) :
    (rfc4648_encode x).count 61 = (3 - x.length % 3) % 3 := by
  induction x using encode_groups.induct with
  | case1 a b c rest ih =>
    simp only [rfc4648_encode, List.count_append, ih, List.length_cons]
    rw [show rest.length + 1 + 1 + 1 = rest.length + 3 by ring, Nat.add_mod_right]
    simp [List.count_cons, rfc4648_char_ne_pad]
  | case2 a b => simp [rfc4648_encode, List.count_cons, rfc4648_char_ne_pad]
  | case3 a => simp [rfc4648_encode, List.count_cons, rfc4648_char_ne_pad]
  | case4 => rfl

theorem rfc4648_mem (x : Bytes) :
    ∀ ch ∈ rfc4648_encode x, ch = 61 ∨ ch ∈ encoding_table := by
  induction x using encode_groups.induct with
  | case1 a b c rest ih =>
    intro ch hch
    simp only [rfc4648_encode, List.mem_append, List.mem_cons, List.mem_singleton,
      List.not_mem_nil, or_false] at hch
    rcases hch with (h | h | h | h) | h
    · right; rw [h]; exact rfc4648_char_mem _ (Nat.mod_lt _ (by norm_num))
    · right; rw [h]; exact rfc4648_char_mem _ (Nat.mod_lt _ (by norm_num))
    · right; rw [h]; exact rfc4648_char_mem _ (Nat.mod_lt _ (by norm_num))
    · right; rw [h]; exact rfc4648_char_mem _ (Nat.mod_lt _ (by norm_num))
    · exact ih ch h
  | case2 a b =>
    intro ch hch
    simp only [rfc4648_encode, List.mem_cons, List.mem_singleton, List.not_mem_nil,
      or_false] at hch
    rcases hch with h | h | h | h
    · right; rw [h]; exact rfc4648_char_mem _ (Nat.mod_lt _ (by norm_num))
    · right; rw [h]; exact rfc4648_char_mem _ (Nat.mod_lt _ (by norm_num))
    · right; rw [h]; exact rfc4648_char_mem _ (Nat.mod_lt _ (by norm_num))
    · left; exact h
  | case3 a =>
    intro ch hch
    simp only [rfc4648_encode, List.mem_cons, List.mem_singleton, List.not_mem_nil,
      or_false] at hch
    rcases hch with h | h | h | h
    · right; rw [h]; exact rfc4648_char_mem _ (Nat.mod_lt _ (by norm_num))
    · right; rw [h]; exact rfc4648_char_mem _ (Nat.mod_lt _ (by norm_num))
    · left; exact h
    · left; exact h
  | case4 =>
    intro ch hch
    simp [rfc4648_encode] at hch

theorem base64_encode_length (x : Bytes) :
    (base64_encode x).length = 4 * ((x.length + 2) / 3) := by
  have hle : mod_table.getD (x.length % 3) 0 ≤ 4 * ((x.length + 2) / 3) := by
    rw [mod_table_lookup]
    omega
  simp only [base64_encode, List.length_append, List.length_take, List.length_replicate,
    encode_groups_length]
  omega

/-- C27: `base64_encode` is standard Base64.  For every byte string `x` the
output equals the RFC 4648 encoding: four alphabet characters for the 6-bit
digits of each 24-bit big-endian triple, a last group of one or two bytes
padded with zero bits and closed by two or one `=`, the empty string for the
empty input.  Its length is `4 * k` with `k` the ceiling of `n / 3`; the `=`
characters are exactly the last `(3 - n % 3) % 3` characters; every other
character is in the alphabet.  Every index is in bounds: the table index
`(triple >> k * 6) & 0x3F` is below the 64 entries of `encoding_table`,
`n % 3` is below the 3 entries of `mod_table`, and the padding positions lie
inside the output.  `volc_conversation_write_audio` hands exactly this
encoding, wrapped in one `input_audio_buffer.append` object, to the send
path. -/
theorem C27_base64_encode_standard (x : Bytes) (hx : ∀ b ∈ x, b < 256) :
    base64_encode x = rfc4648_encode x ∧
    (base64_encode x).length = 4 * ((x.length + 2) / 3) ∧
    (x.length ≤ 3 * ((x.length + 2) / 3) ∧ 3 * ((x.length + 2) / 3) < x.length + 3) ∧
    (∃ body, base64_encode x = body ++ List.replicate ((3 - x.length % 3) % 3) 61 ∧
      61 ∉ body ∧ ∀ ch ∈ body, ch ∈ encoding_table) ∧
    base64_encode [] = [] ∧
    (∀ triple k : Nat, (triple >>> (k * 6)) &&& 0x3F < encoding_table.length) ∧
    x.length % 3 < mod_table.length ∧
    mod_table.getD (x.length % 3) 0 ≤ (base64_encode x).length ∧
    (∀ (lib : Lib) (engine : volc_conversation_engine_t), x ≠ [] →
      (volc_conversation_write_audio lib engine (some x)).1 =
        (volc_conversation_send_json_message lib engine
          (some (json_out.append (rfc4648_encode x)))).1 ∧
      (volc_conversation_write_audio lib engine (some x)).2.1.send_buffer =
        (volc_conversation_send_json_message lib engine
          (some (json_out.append (rfc4648_encode x)))).2.1.send_buffer) := by
  have heq := base64_encode_eq_rfc4648 x hx
  have hlen := base64_encode_length x
  refine ⟨heq, hlen, ⟨by omega, by omega⟩, ?_, rfl, sextet_in_bounds, ?_, ?_, ?_⟩
  · have hsplit : base64_encode x =
        (encode_groups x).take (4 * ((x.length + 2) / 3) - mod_table.getD (x.length % 3) 0) ++
          List.replicate ((3 - x.length % 3) % 3) 61 := by
      rw [← mod_table_lookup]
      rfl
    have hc : ((encode_groups x).take
        (4 * ((x.length + 2) / 3) - mod_table.getD (x.length % 3) 0) ++
          List.replicate ((3 - x.length % 3) % 3) 61).count 61 = (3 - x.length % 3) % 3 := by
      rw [← hsplit, heq]
      exact rfc4648_count_pad x
    rw [List.count_append, List.count_replicate_self] at hc
    have h0 : 61 ∉ (encode_groups x).take
        (4 * ((x.length + 2) / 3) - mod_table.getD (x.length % 3) 0) :=
      List.count_eq_zero.mp (by omega)
    refine ⟨_, hsplit, h0, ?_⟩
    intro ch hch
    have h61 : ch ≠ 61 := by
      intro h
      rw [h] at hch
      exact h0 hch
    have hmem : ch ∈ base64_encode x := by
      rw [hsplit]
      exact List.mem_append_left _ hch
    rw [heq] at hmem
    rcases rfc4648_mem x ch hmem with h | h
    · exact absurd h h61
    · exact h
  · exact Nat.mod_lt _ (by decide)
  · rw [hlen, mod_table_lookup]
    omega
  · intro lib engine hne
    have hl : x.length ≠ 0 := by
      intro h
      exact hne (List.length_eq_zero.mp h)
    simp only [volc_conversation_write_audio, hl, if_false, heq]
    split_ifs <;> exact ⟨rfl, rfl⟩

/-- C27 at a concrete input: the two bytes "Ma" encode to the four characters
of the standard encoding, the last of them `=`. -/
theorem C27_base64_encode_standard_witness :
    base64_encode [77, 97] = rfc4648_encode [77, 97] ∧
    (base64_encode [77, 97]).length = 4 * (([77, 97].length + 2) / 3) :=
  ⟨(C27_base64_encode_standard [77, 97] (by decide)).1,
   (C27_base64_encode_standard [77, 97] (by decide)).2.1⟩

/-- The writable callback on an empty send buffer does nothing. -/
theorem writeable_empty (lws : Lws) (wsi : Nat) (engine : volc_conversation_engine_t)
    (h : engine.send_buffer.items = []) :
    websocket_callback_writeable lws wsi engine = (0, engine, []) := by
  simp [websocket_callback_writeable, ai_ring_buffer_num_items, h]

/-- The writable callback on a non-empty send buffer: the oldest
`min occupancy (VOLC_BUFFER_MAX_SIZE - LWS_PRE)` bytes leave the buffer and
are written as one frame; a failed write returns -1 at once, otherwise the
notification is armed again when bytes are left. -/
theorem writeable_nonempty (lws : Lws) (wsi : Nat) (engine : volc_conversation_engine_t)
    (h : engine.send_buffer.items ≠ []) :
    websocket_callback_writeable lws wsi engine =
      (if lws.written < 0 then -1 else 0,
       { engine with send_buffer := { engine.send_buffer with
          items := engine.send_buffer.items.drop
            (min engine.send_buffer.items.length (VOLC_BUFFER_MAX_SIZE - lws.LWS_PRE)) } },
       Effect.lws_write wsi (engine.send_buffer.items.take
            (min engine.send_buffer.items.length (VOLC_BUFFER_MAX_SIZE - lws.LWS_PRE))) ::
         (if 0 ≤ lws.written ∧ engine.send_buffer.items.drop
            (min engine.send_buffer.items.length (VOLC_BUFFER_MAX_SIZE - lws.LWS_PRE)) ≠ []
          then [Effect.lws_callback_on_writable (some wsi)] else [])) := by
  have hpos : 0 < engine.send_buffer.items.length := List.length_pos.mpr h
  have hmin : (if engine.send_buffer.items.length > VOLC_BUFFER_MAX_SIZE - lws.LWS_PRE
      then VOLC_BUFFER_MAX_SIZE - lws.LWS_PRE else engine.send_buffer.items.length) =
      min engine.send_buffer.items.length (VOLC_BUFFER_MAX_SIZE - lws.LWS_PRE) := by
    split_ifs with hc
    · exact (min_eq_right (le_of_lt hc)).symm
    · exact (min_eq_left (not_lt.mp hc)).symm
  simp only [websocket_callback_writeable, ai_ring_buffer_num_items, gt_iff_lt, hpos, if_true,
    ai_ring_buffer_dequeue_arr]
  rw [hmin]
  generalize engine.send_buffer.items.drop
    (min engine.send_buffer.items.length (VOLC_BUFFER_MAX_SIZE - lws.LWS_PRE)) = left
  by_cases hw : lws.written < 0
  · simp [hw, not_le.mpr hw]
  · have hw2 : 0 ≤ lws.written := not_lt.mp hw
    cases left with
    | nil => simp [hw]
    | cons x xs => simp [hw, hw2]

theorem mem_rearm (wsi : Nat) (frame : Bytes) (p : Prop) [Decidable p] :
    Effect.lws_callback_on_writable (some wsi) ∈
      (Effect.lws_write wsi frame ::
        (if p then [Effect.lws_callback_on_writable (some wsi)] else [])) ↔ p := by
  by_cases h : p <;> simp [h]

/-- Messages that fit the send buffer with room to spare are all accepted and
their renderings appended in order. -/
theorem send_json_messages_fit (lib : Lib) (js : List json_out) :
    ∀ engine : volc_conversation_engine_t,
      engine.send_buffer.items.length + (rendered lib js).length <
        engine.send_buffer.capacity →
      (send_json_messages lib engine js).1 = List.replicate js.length 0 ∧
      (send_json_messages lib engine js).2.1 =
        { engine with send_buffer := { engine.send_buffer with
            items := engine.send_buffer.items ++ rendered lib js } } := by
  induction js with
  | nil =>
    intro engine _
    simp [send_json_messages, rendered]
  | cons j rest ih =>
    intro engine hlt
    simp only [rendered, List.length_append] at hlt
    have hs := send_json_message_fits lib engine j (by omega) (by omega)
    have ih2 := ih { engine with send_buffer := { engine.send_buffer with
        items := engine.send_buffer.items ++ lib.json_object_to_json_string j } }
      (by simp only [List.length_append]; omega)
    simp only [send_json_messages, hs, ih2, rendered, List.length_cons, List.replicate_succ,
      List.append_assoc]
    exact ⟨trivial, trivial⟩

/-- The writable callback on a send buffer that holds `n + 1` copies of one
byte, when `lws_write` fails: the frame budget leaves the buffer, -1 is
returned and the notification is not armed. -/
theorem writeable_failed_write (pre wsi n a : Nat) (w : Int) (hw : w < 0)
    (engine : volc_conversation_engine_t)
    (hitems : engine.send_buffer.items = List.replicate (n + 1) a) :
    (websocket_callback_writeable ⟨pre, w⟩ wsi engine).1 = -1 ∧
    (websocket_callback_writeable ⟨pre, w⟩ wsi engine).2.1.send_buffer.items =
      List.replicate (n + 1 - min (n + 1) (VOLC_BUFFER_MAX_SIZE - pre)) a ∧
    (websocket_callback_writeable ⟨pre, w⟩ wsi engine).2.2 =
      [Effect.lws_write wsi (List.replicate (min (n + 1) (VOLC_BUFFER_MAX_SIZE - pre)) a)] := by
  have hlen : engine.send_buffer.items.length = n + 1 := by
    rw [hitems, List.length_replicate]
  have hpos : 0 < engine.send_buffer.items.length := by omega
  have hmin : (if engine.send_buffer.items.length > VOLC_BUFFER_MAX_SIZE - pre
      then VOLC_BUFFER_MAX_SIZE - pre else engine.send_buffer.items.length) =
      min (n + 1) (VOLC_BUFFER_MAX_SIZE - pre) := by
    rw [hlen]
    split_ifs with hc
    · exact (min_eq_right (le_of_lt hc)).symm
    · exact (min_eq_left (not_lt.mp hc)).symm
  simp only [websocket_callback_writeable, ai_ring_buffer_num_items, gt_iff_lt, hpos, if_true,
    ai_ring_buffer_dequeue_arr, hw]
  rw [hmin, hitems, List.drop_replicate, List.take_replicate]
  refine ⟨trivial, rfl, ?_⟩
  rw [min_eq_left (min_le_left _ _)]

/-- The case `LWS_CALLBACK_CLIENT_WRITEABLE` of the callback. -/
theorem websocket_callback_writeable_case (lws : Lws) (wsi : Nat)
    (engine : volc_conversation_engine_t) :
    volc_conversation_websocket_callback lws wsi
      lws_callback_reasons.LWS_CALLBACK_CLIENT_WRITEABLE engine =
      websocket_callback_writeable lws wsi engine := rfl

/-- C28 (as stated, refuted): with `LWS_PRE` 16 the frame budget is 131056
bytes.  The send buffer holds 131060 bytes and `lws_write` fails (returns -1):
the callback takes the 131056 oldest bytes out, hands them to `lws_write`,
returns -1 and does not arm the writable notification, although 4 bytes
remain queued. -/
theorem C28_counterexample :
    (volc_conversation_websocket_callback ⟨16, -1⟩ 1
      lws_callback_reasons.LWS_CALLBACK_CLIENT_WRITEABLE
      { engine_ready 131072 with send_buffer := ⟨131072, List.replicate 131060 65⟩ }).1 = -1 ∧
    (volc_conversation_websocket_callback ⟨16, -1⟩ 1
      lws_callback_reasons.LWS_CALLBACK_CLIENT_WRITEABLE
      { engine_ready 131072 with send_buffer := ⟨131072, List.replicate 131060 65⟩ }
      ).2.1.send_buffer.items = [65, 65, 65, 65] ∧
    (volc_conversation_websocket_callback ⟨16, -1⟩ 1
      lws_callback_reasons.LWS_CALLBACK_CLIENT_WRITEABLE
      { engine_ready 131072 with send_buffer := ⟨131072, List.replicate 131060 65⟩ }).2.2 =
      [Effect.lws_write 1 (List.replicate 131056 65)] := by
  have h := writeable_failed_write 16 1 131059 65 (-1) (by norm_num)
    { engine_ready 131072 with send_buffer := ⟨131072, List.replicate 131060 65⟩ } rfl
  have h1 : 131059 + 1 - min (131059 + 1) (VOLC_BUFFER_MAX_SIZE - 16) = 4 := by
    norm_num [VOLC_BUFFER_MAX_SIZE]
  have h2 : min (131059 + 1) (VOLC_BUFFER_MAX_SIZE - 16) = 131056 := by
    norm_num [VOLC_BUFFER_MAX_SIZE]
  rw [h1, h2] at h
  rw [websocket_callback_writeable_case]
  exact h

/-- C28 (amended): the writable drain.  With an empty send buffer the
callback writes nothing, changes nothing and returns 0.  With a non-empty send
buffer it takes exactly `min occupancy (VOLC_BUFFER_MAX_SIZE - LWS_PRE)`
bytes out, the oldest ones in order, and hands them to `lws_write` as one text
frame.  If `lws_write` fails the callback returns -1 at once and does not arm
the writable notification; otherwise it returns 0 and arms the notification
if and only if bytes remain.  Message boundaries play no part: when a
sequence of JSON messages is handed to `volc_conversation_send_json_message`
on an empty buffer and their renderings together are non-empty, fit the
buffer with room to spare and fit the frame budget, all are accepted and the
one frame written is the concatenation of the renderings in enqueue order,
leaving the buffer empty. -/
theorem C28_writable_drain (lws : Lws) (wsi : Nat) (engine : volc_conversation_engine_t)
    (lib : Lib) (js : List json_out) :
    (engine.send_buffer.items = [] →
      volc_conversation_websocket_callback lws wsi
        lws_callback_reasons.LWS_CALLBACK_CLIENT_WRITEABLE engine = (0, engine, [])) ∧
    (engine.send_buffer.items ≠ [] →
      (volc_conversation_websocket_callback lws wsi
        lws_callback_reasons.LWS_CALLBACK_CLIENT_WRITEABLE engine).2.1 =
        { engine with send_buffer := { engine.send_buffer with
            items := engine.send_buffer.items.drop
              (min engine.send_buffer.items.length (VOLC_BUFFER_MAX_SIZE - lws.LWS_PRE)) } } ∧
      (volc_conversation_websocket_callback lws wsi
        lws_callback_reasons.LWS_CALLBACK_CLIENT_WRITEABLE engine).2.2 =
        Effect.lws_write wsi (engine.send_buffer.items.take
            (min engine.send_buffer.items.length (VOLC_BUFFER_MAX_SIZE - lws.LWS_PRE))) ::
          (if 0 ≤ lws.written ∧ engine.send_buffer.items.drop
              (min engine.send_buffer.items.length (VOLC_BUFFER_MAX_SIZE - lws.LWS_PRE)) ≠ []
           then [Effect.lws_callback_on_writable (some wsi)] else []) ∧
      (volc_conversation_websocket_callback lws wsi
        lws_callback_reasons.LWS_CALLBACK_CLIENT_WRITEABLE engine).1 =
        (if lws.written < 0 then -1 else 0) ∧
      (Effect.lws_callback_on_writable (some wsi) ∈
          (volc_conversation_websocket_callback lws wsi
            lws_callback_reasons.LWS_CALLBACK_CLIENT_WRITEABLE engine).2.2 ↔
        0 ≤ lws.written ∧ engine.send_buffer.items.drop
          (min engine.send_buffer.items.length (VOLC_BUFFER_MAX_SIZE - lws.LWS_PRE)) ≠ [])) ∧
    (engine.send_buffer.items = [] → rendered lib js ≠ [] →
      (rendered lib js).length < engine.send_buffer.capacity →
      (rendered lib js).length ≤ VOLC_BUFFER_MAX_SIZE - lws.LWS_PRE →
      (send_json_messages lib engine js).1 = List.replicate js.length 0 ∧
      (send_json_messages lib engine js).2.1.send_buffer.items = rendered lib js ∧
      (volc_conversation_websocket_callback lws wsi
        lws_callback_reasons.LWS_CALLBACK_CLIENT_WRITEABLE
        (send_json_messages lib engine js).2.1).2.2 =
        [Effect.lws_write wsi (rendered lib js)] ∧
      (volc_conversation_websocket_callback lws wsi
        lws_callback_reasons.LWS_CALLBACK_CLIENT_WRITEABLE
        (send_json_messages lib engine js).2.1).2.1.send_buffer.items = []) := by
  simp only [websocket_callback_writeable_case]
  refine ⟨writeable_empty lws wsi engine, ?_, ?_⟩
  · intro h
    rw [writeable_nonempty lws wsi engine h]
    exact ⟨rfl, rfl, rfl, mem_rearm wsi _ _⟩
  · intro hempty hne hcap hbudget
    have hs := send_json_messages_fit lib js engine (by rw [hempty]; simpa using hcap)
    rw [hempty, List.nil_append] at hs
    have hne2 : (send_json_messages lib engine js).2.1.send_buffer.items ≠ [] := by
      rw [hs.2]; exact hne
    rw [writeable_nonempty lws wsi _ hne2, hs.2]
    simp only [min_eq_left hbudget, List.drop_length, List.take_length, ne_eq,
      not_true_eq_false, and_false, if_false]
    exact ⟨hs.1, trivial, trivial, trivial⟩

/-- C28 (amended) at a concrete input: two messages rendered as "ab" and "c"
are queued on an empty buffer of 16 bytes; the writable callback writes the
single frame "abc" and leaves the buffer empty. -/
theorem C28_writable_drain_witness :
    (volc_conversation_websocket_callback ⟨16, 3⟩ 1
      lws_callback_reasons.LWS_CALLBACK_CLIENT_WRITEABLE
      (send_json_messages ⟨fun j => match j with
          | json_out.of_type t => t
          | _ => [], fun b _ => b⟩ (engine_ready 16)
        [json_out.of_type [97, 98], json_out.of_type [99]]).2.1).2.2 =
      [Effect.lws_write 1 [97, 98, 99]] :=
  ((C28_writable_drain ⟨16, 3⟩ 1 (engine_ready 16) ⟨fun j => match j with
          | json_out.of_type t => t
          | _ => [], fun b _ => b⟩ [json_out.of_type [97, 98], json_out.of_type [99]]).2.2
    rfl (by decide) (by decide) (by decide)).2.2.1

end VolcConversation
